import Mathlib

/-!
# SIGNALTAP simulation engine: a shallow embedding

Source: `src/data/simulation_engine.{h,cpp}` and `src/data/demo_profiles.h`.

Modelling conventions.

* C `float` values are rationals (`ℚ`): arithmetic is exact.  The comparisons the
  engine makes on `progress = stateTimer / dwell` are between a quotient of two
  small integers and a one-digit decimal constant, which exact arithmetic decides
  the same way as single precision does.
* Unsigned machine integers are naturals, reduced modulo `2^w` at every
  operation that can leave the range (`uint8_t`: 256, `uint16_t`: 65536,
  `unsigned long` / `uint32_t`: `2^32`).
* A fixed-size C array `T a[n]` is a function `Fin n → T`.  `load` and `store`
  are the indexed read and write; an index outside the array reads the zero
  value and writes nothing.
* A `char[]` field holds a C string, modelled by `String`.
* `millis()` and `random()` are inputs: every entry point that reads the clock
  takes the clock value `now`, and `sim_update` takes the raw outputs of the
  pseudo-random generator that the tick consumes (`Draws`).
-/

namespace SignalTap

/-! ## Machine arithmetic, arrays, strings -/

/-- Conversion of a C `int` to `uint8_t`. -/
def toUInt8 (x : Int) : Nat := (x % 256).toNat

/-- The C cast `(int)x` of a float: truncation toward zero. -/
def truncToInt (x : ℚ) : Int := if 0 ≤ x then ⌊x⌋ else ⌈x⌉

/-- Indexed read `a[i]`. -/
def load {α : Type} [Inhabited α] {n : Nat} (a : Fin n → α) (i : Nat) : α :=
  if h : i < n then a ⟨i, h⟩ else default

/-- Indexed write `a[i] = v`. -/
def store {α : Type} {n : Nat} (a : Fin n → α) (i : Nat) (v : α) : Fin n → α :=
  fun j => if j.val = i then v else a j

/-- The string left in `dst` by `strncpy(dst, src, n); dst[n] = 0`: the first
`n` characters of `src`. -/
def strncpy (src : String) (n : Nat) : String := String.mk (src.data.take n)

/-- Arduino `random(howsmall, howbig)` on the generator's raw output `raw`:
`howsmall` when the interval is empty, else `raw % (howbig - howsmall) + howsmall`. -/
def random_range (raw : Nat) (howsmall howbig : Int) : Int :=
  if howsmall ≥ howbig then howsmall else (raw : Int) % (howbig - howsmall) + howsmall

/-- Arduino `random(howbig)` on the generator's raw output `raw`. -/
def random_below (raw : Nat) (howbig : Nat) : Nat :=
  if howbig = 0 then 0 else raw % howbig

/-! ## Helpers of `simulation_engine.cpp` -/

/-- Helper `approach`: smooth approach to target. -/
def approach (current target rate : ℚ) : ℚ :=
  let diff := target - current
  current + diff * rate

/-- Helper `clampf`. -/
def clampf (val lo hi : ℚ) : ℚ :=
  if val < lo then lo else if val > hi then hi else val

/-- Helper `noise`: `(random(-1000, 1001) / 1000.0f) * amplitude`. -/
def noise (raw : Nat) (amplitude : ℚ) : ℚ :=
  ((random_range raw (-1000) 1001 : Int) : ℚ) / 1000 * amplitude

/-! ## Scenario states and timing (`simulation_engine.h`) -/

inductive ScenarioState_t where
  | SCENARIO_NORMAL
  | SCENARIO_DEGRADATION
  | SCENARIO_WARNING
  | SCENARIO_FAULT
  | SCENARIO_RECOVERY
deriving DecidableEq, Repr, Inhabited

open ScenarioState_t

def SCENARIO_NORMAL_DURATION_S : Nat := 45
def SCENARIO_DEGRADATION_DURATION_S : Nat := 20
def SCENARIO_WARNING_DURATION_S : Nat := 15
def SCENARIO_FAULT_DURATION_S : Nat := 12
def SCENARIO_RECOVERY_DURATION_S : Nat := 10

abbrev SENSOR_HISTORY_LEN : Nat := 60
abbrev MAX_DYNAMIC_ALARMS : Nat := 8
abbrev DEMO_COUNT : Nat := 4

/-- Number of values of `unsigned long` on the target (32 bits). -/
abbrev ULONG_MOD : Nat := 2 ^ 32

/-! ## Sensor history ring buffer -/

structure SensorHistory_t where
  buffer : Fin SENSOR_HISTORY_LEN → ℚ
  head : Nat
  count : Nat

instance : Inhabited SensorHistory_t := ⟨{ buffer := fun _ => 0, head := 0, count := 0 }⟩

/-- Helper `history_push`. -/
def history_push (h : SensorHistory_t) (value : ℚ) : SensorHistory_t :=
  { buffer := store h.buffer h.head value
    head := (h.head + 1) % SENSOR_HISTORY_LEN
    count := if h.count < SENSOR_HISTORY_LEN then h.count + 1 else h.count }

/-- The index `draw_sparkline` computes for the `i`-th sample, oldest first:
`(hist->head - count + i + SENSOR_HISTORY_LEN) % SENSOR_HISTORY_LEN` in `int`. -/
def sparkline_index (h : SensorHistory_t) (i : Nat) : Nat :=
  (Int.tmod ((h.head : Int) - (h.count : Int) + (i : Int) + (SENSOR_HISTORY_LEN : Int))
    (SENSOR_HISTORY_LEN : Int)).toNat

/-! ## Dynamic alarms -/

structure DynamicAlarm_t where
  severity : String
  message : String
  time : String
  acked : Bool
  active : Bool
  triggerTime : Nat
deriving DecidableEq, Repr

/-- The all-zero alarm slot left by `memset`. -/
instance : Inhabited DynamicAlarm_t :=
  ⟨{ severity := "", message := "", time := "", acked := false, active := false,
     triggerTime := 0 }⟩

/-- Capacity of `DynamicAlarm_t.severity` (`char severity[8]`). -/
abbrev SEVERITY_SIZE : Nat := 8
/-- Capacity of `DynamicAlarm_t.message` (`char message[80]`). -/
abbrev MESSAGE_SIZE : Nat := 80

/-- Two decimal digits, as `%02d` prints a value below 100. -/
def two_digits (n : Nat) : List Char :=
  [Char.ofNat (48 + n / 10 % 10), Char.ofNat (48 + n % 10)]

/-- Helper `format_time`: `HH:MM:SS` of the clock value `now` (milliseconds). -/
def format_time (now : Nat) : String :=
  let s := now / 1000
  let h := (s / 3600) % 24
  let m := (s / 60) % 60
  let sec := s % 60
  String.mk (two_digits h ++ [':'] ++ two_digits m ++ [':'] ++ two_digits sec)

/-! ## Simulation state (per demo) -/

structure SimState_t where
  scenarioState : ScenarioState_t
  stateEnteredAt : Nat
  stateTimer : Nat
  sensorTargets : Fin 3 → ℚ
  history : Fin 3 → SensorHistory_t
  dynamicAlarms : Fin MAX_DYNAMIC_ALARMS → DynamicAlarm_t
  dynamicAlarmCount : Nat
  targetHealthScore : Nat
  targetFailureProb : ℚ
  cycleCount : Nat
  otaInProgress : Bool
  otaProgress : Nat

/-- The all-zero state left by `memset`. -/
instance : Inhabited SimState_t :=
  ⟨{ scenarioState := SCENARIO_NORMAL, stateEnteredAt := 0, stateTimer := 0,
     sensorTargets := fun _ => 0, history := fun _ => default,
     dynamicAlarms := fun _ => default, dynamicAlarmCount := 0,
     targetHealthScore := 0, targetFailureProb := 0, cycleCount := 0,
     otaInProgress := false, otaProgress := 0 }⟩

/-- The scan `for (i = lo; i < lo + n; i++) if (p i) return i;`: the first index
in `[lo, lo + n)` at which `p` holds, `none` when the loop runs to its end. -/
def first_index (p : Nat → Bool) : Nat → Nat → Option Nat
  | _, 0 => none
  | lo, n + 1 => if p lo then some lo else first_index p (lo + 1) n

/-- The loop of the "overwrite oldest" branch of `add_alarm`, at index `i` with
`n` iterations left and the running `slot` and `oldest`:
`if (alarms[i].triggerTime < oldest) { oldest = alarms[i].triggerTime; slot = i; }`. -/
def oldest_scan (trigger : Nat → Nat) : Nat → Nat → Nat → Nat → Nat
  | _, 0, slot, _ => slot
  | i, n + 1, slot, oldest =>
    if trigger i < oldest then oldest_scan trigger (i + 1) n i (trigger i)
    else oldest_scan trigger (i + 1) n slot oldest

/-- The duplicate check that opens `add_alarm`: some slot below
`dynamicAlarmCount` is active and `strcmp` finds its message equal to `message`. -/
def alarm_already_active (sim : SimState_t) (message : String) : Bool :=
  (first_index
    (fun i => (load sim.dynamicAlarms i).active && (load sim.dynamicAlarms i).message == message)
    0 sim.dynamicAlarmCount).isSome

/-- The slot `add_alarm` writes: the first inactive one, else the oldest. -/
def alarm_slot (sim : SimState_t) : Nat :=
  match first_index (fun i => !(load sim.dynamicAlarms i).active) 0 MAX_DYNAMIC_ALARMS with
  | some i => i
  | none =>
    oldest_scan (fun i => (load sim.dynamicAlarms i).triggerTime) 1 (MAX_DYNAMIC_ALARMS - 1)
      0 (load sim.dynamicAlarms 0).triggerTime

/-- Helper `add_alarm`. -/
def add_alarm (now : Nat) (sim : SimState_t) (severity message : String) : SimState_t :=
  if alarm_already_active sim message then sim
  else
    let slot := alarm_slot sim
    let a : DynamicAlarm_t :=
      { severity := strncpy severity (SEVERITY_SIZE - 1)
        message := strncpy message (MESSAGE_SIZE - 1)
        time := format_time now
        acked := false
        active := true
        triggerTime := now }
    { sim with
      dynamicAlarms := store sim.dynamicAlarms slot a
      dynamicAlarmCount :=
        if slot ≥ sim.dynamicAlarmCount then (slot + 1) % 256 else sim.dynamicAlarmCount }

/-- One iteration of the loop of `clear_fault_alarms`. -/
def clear_fault_step (alarms : Fin MAX_DYNAMIC_ALARMS → DynamicAlarm_t) (i : Nat) :
    Fin MAX_DYNAMIC_ALARMS → DynamicAlarm_t :=
  let a := load alarms i
  if a.active && !a.acked && a.severity == "error" then store alarms i { a with active := false }
  else alarms

/-- Helper `clear_fault_alarms`: clear non-acked fault alarms on recovery. -/
def clear_fault_alarms (sim : SimState_t) : SimState_t :=
  { sim with
    dynamicAlarms := (List.range sim.dynamicAlarmCount).foldl clear_fault_step sim.dynamicAlarms }

/-! ## State transition -/

def get_state_duration : ScenarioState_t → Nat
  | SCENARIO_NORMAL => SCENARIO_NORMAL_DURATION_S
  | SCENARIO_DEGRADATION => SCENARIO_DEGRADATION_DURATION_S
  | SCENARIO_WARNING => SCENARIO_WARNING_DURATION_S
  | SCENARIO_FAULT => SCENARIO_FAULT_DURATION_S
  | SCENARIO_RECOVERY => SCENARIO_RECOVERY_DURATION_S

def next_state : ScenarioState_t → ScenarioState_t
  | SCENARIO_NORMAL => SCENARIO_DEGRADATION
  | SCENARIO_DEGRADATION => SCENARIO_WARNING
  | SCENARIO_WARNING => SCENARIO_FAULT
  | SCENARIO_FAULT => SCENARIO_RECOVERY
  | SCENARIO_RECOVERY => SCENARIO_NORMAL

def transition_state (now : Nat) (sim : SimState_t) : SimState_t :=
  let sim := { sim with
    scenarioState := next_state sim.scenarioState
    stateEnteredAt := now
    stateTimer := 0 }
  let sim :=
    if sim.scenarioState = SCENARIO_NORMAL then
      { sim with cycleCount := (sim.cycleCount + 1) % 256 }
    else sim
  if sim.scenarioState = SCENARIO_RECOVERY then clear_fault_alarms sim else sim

/-- The value `progress` every physics model starts from:
`sim->stateTimer / (float)get_state_duration(sim->scenarioState)`. -/
def progress_of (sim : SimState_t) : ℚ :=
  (sim.stateTimer : ℚ) / (get_state_duration sim.scenarioState : ℚ)

/-! ## Demo profiles (`demo_profiles.h`)

Only the fields the engine reads or writes are kept; the display-only fields
(names, units, colours, the static alarm table, ...) are never touched by
`simulation_engine.cpp`. -/

inductive InsightSeverity_t where
  | INSIGHT_NORMAL
  | INSIGHT_WARNING
  | INSIGHT_CRITICAL
deriving DecidableEq, Repr, Inhabited

open InsightSeverity_t

structure AIInsight_t where
  title : String
  description : String
  severity : InsightSeverity_t
  confidence : Nat
  timeframe : String
deriving DecidableEq, Repr, Inhabited

structure AIState_t where
  healthScore : Nat
  anomalyCount : Nat
  failureProbability : ℚ
  dataPoints : Nat
  insights : Fin 3 → AIInsight_t

structure Sensor_t where
  min : ℚ
  max : ℚ
  value : ℚ

structure KPI_t where
  value : String
  good : Bool
deriving DecidableEq, Repr, Inhabited

structure CNCLeds_t where
  run : Bool
  feed : Bool
  spindle : Bool
  coolant : Bool
  program : Bool
  error : Bool
  fault : Bool
  ready : Bool
deriving DecidableEq, Repr, Inhabited

structure Vision_t where
  partCount : Nat
  stackLight : String
  leds : CNCLeds_t
  errorCode : String
  pressure : ℚ
  oilTemp : ℚ
  state : String
  diA : Fin 8 → Bool
  dqA : Fin 8 → Bool
  aq0 : Nat

structure DemoProfile_t where
  sensors : Fin 3 → Sensor_t
  kpis : Fin 4 → KPI_t
  vision : Vision_t
  ai : AIState_t

/-- All eight LEDs off (`.leds = {false}`). -/
def leds_off : CNCLeds_t :=
  { run := false, feed := false, spindle := false, coolant := false, program := false,
    error := false, fault := false, ready := false }

/-- Profile 0 of the table `demoProfiles`: CNC Machine Shop. -/
def profile_cnc : DemoProfile_t :=
  { sensors := ![⟨0, 100, 67.2⟩, ⟨0, 20, 12.5⟩, ⟨0, 8000, 4200⟩]
    kpis := ![⟨"87.3", false⟩, ⟨"142", false⟩, ⟨"160", false⟩, ⟨"RUN", true⟩]
    vision :=
      { partCount := 142, stackLight := "green"
        leds := { run := true, feed := false, spindle := true, coolant := true, program := true,
                  error := false, fault := false, ready := true }
        errorCode := "", pressure := 0, oilTemp := 0, state := ""
        diA := fun _ => false, dqA := fun _ => false, aq0 := 0 }
    ai :=
      { healthScore := 87, anomalyCount := 1, failureProbability := 12.5, dataPoints := 48250
        insights := ![
          ⟨"Spindle Bearing Wear", "Vibration pattern suggests bearing replacement in ~14 days",
            INSIGHT_WARNING, 78, "14 days"⟩,
          ⟨"Coolant Efficiency", "Flow rate optimization could improve by 8%",
            INSIGHT_NORMAL, 65, "ongoing"⟩,
          ⟨"Tool Life Prediction", "Current tool approaching end of life cycle",
            INSIGHT_WARNING, 82, "~50 parts"⟩] } }

/-- Profile 1 of the table `demoProfiles`: Cold Storage Chiller. -/
def profile_chiller : DemoProfile_t :=
  { sensors := ![⟨0, 50, 28.5⟩, ⟨-10, 20, 2.3⟩, ⟨-5, 25, 8.1⟩]
    kpis := ![⟨"5.8", false⟩, ⟨"1847", false⟩, ⟨"892", false⟩, ⟨"OK", true⟩]
    vision :=
      { partCount := 0, stackLight := "", leds := leds_off
        errorCode := "---", pressure := 0, oilTemp := 0, state := ""
        diA := fun _ => false, dqA := fun _ => false, aq0 := 0 }
    ai :=
      { healthScore := 72, anomalyCount := 2, failureProbability := 28.3, dataPoints := 125840
        insights := ![
          ⟨"Compressor Efficiency Drop",
            "Power consumption 15% above baseline - check refrigerant levels",
            INSIGHT_CRITICAL, 91, "immediate"⟩,
          ⟨"Discharge Pressure Trend", "Gradual increase detected over 72 hours",
            INSIGHT_WARNING, 76, "3 days"⟩,
          ⟨"Defrost Cycle Anomaly", "Irregular defrost timing pattern detected",
            INSIGHT_NORMAL, 62, "monitoring"⟩] } }

/-- Profile 2 of the table `demoProfiles`: Compressed Air. -/
def profile_compressor : DemoProfile_t :=
  { sensors := ![⟨0, 12, 8.2⟩, ⟨20, 120, 78⟩, ⟨0, 60, 34.2⟩]
    kpis := ![⟨"72", false⟩, ⟨"48", false⟩, ⟨"342", false⟩, ⟨"LOAD", true⟩]
    vision :=
      { partCount := 0, stackLight := "", leds := leds_off
        errorCode := "", pressure := 8.2, oilTemp := 78, state := "LOAD"
        diA := fun _ => false, dqA := fun _ => false, aq0 := 0 }
    ai :=
      { healthScore := 94, anomalyCount := 0, failureProbability := 3.2, dataPoints := 89420
        insights := ![
          ⟨"Oil Quality Good", "Viscosity and contamination levels within spec",
            INSIGHT_NORMAL, 95, "stable"⟩,
          ⟨"Air Filter Status", "Pressure drop suggests filter change in ~2 weeks",
            INSIGHT_WARNING, 71, "2 weeks"⟩,
          ⟨"Energy Optimization", "Load/unload cycle could be optimized for 5% savings",
            INSIGHT_NORMAL, 68, "ongoing"⟩] } }

/-- Profile 3 of the table `demoProfiles`: Custom PLC Setup. -/
def profile_plc : DemoProfile_t :=
  { sensors := ![⟨20, 200, 85.3⟩, ⟨0, 1013, 485⟩, ⟨0, 10, 4.72⟩]
    kpis := ![⟨"94.2", false⟩, ⟨"99.1", false⟩, ⟨"8472", false⟩, ⟨"AUTO", true⟩]
    vision :=
      { partCount := 0, stackLight := "", leds := leds_off
        errorCode := "", pressure := 0, oilTemp := 0, state := ""
        diA := ![true, false, true, true, false, false, true, false]
        dqA := ![true, false, false, true, false, true, false, false]
        aq0 := 65 }
    ai :=
      { healthScore := 91, anomalyCount := 1, failureProbability := 8.7, dataPoints := 12850
        insights := ![
          ⟨"Process Drift Detected", "Chamber temperature variance increased 12% this week",
            INSIGHT_WARNING, 74, "monitoring"⟩,
          ⟨"Cycle Time Analysis", "Recent cycles 3% slower than baseline average",
            INSIGHT_NORMAL, 58, "ongoing"⟩,
          ⟨"I/O Pattern Learning", "Model collecting baseline patterns - 78% complete",
            INSIGHT_NORMAL, 78, "2 days"⟩] } }

/-- The static table `demoProfiles[DEMO_COUNT]`. -/
def demoProfiles_table : Fin DEMO_COUNT → DemoProfile_t :=
  ![profile_cnc, profile_chiller, profile_compressor, profile_plc]

/-! ## Per-demo physics models -/

/-- The raw generator outputs one `sim_update` consumes, by call site: the three
`noise` calls that set the sensor targets, the branch's extra call (`random(100)`
of the CNC part counter, `noise(3)` of the PLC analog output), the anomaly
count, the data-point increment, the three insight confidences, the OTA step. -/
structure Draws where
  noise0 : Nat
  noise1 : Nat
  noise2 : Nat
  extra : Nat
  anomaly : Nat
  dataPoints : Nat
  conf0 : Nat
  conf1 : Nat
  conf2 : Nat
  ota : Nat
deriving DecidableEq, Repr, Inhabited

/-- The five assignments every branch of a physics model makes:
`sensorTargets[0..2]`, `targetHealthScore` (an `int` stored in a `uint8_t`) and
`targetFailureProb`. -/
def set_targets (sim : SimState_t) (t0 t1 t2 : ℚ) (health : Int) (failure : ℚ) : SimState_t :=
  { sim with
    sensorTargets := ![t0, t1, t2]
    targetHealthScore := toUInt8 health
    targetFailureProb := failure }

/-- The four assignments to `demo->ai.insights[0]` of the Fault and Recovery branches. -/
def set_insight0 (demo : DemoProfile_t) (severity : InsightSeverity_t)
    (title description timeframe : String) : DemoProfile_t :=
  { demo with ai := { demo.ai with
      insights := Function.update demo.ai.insights 0
        { demo.ai.insights 0 with
          severity := severity, title := title, description := description,
          timeframe := timeframe } } }

/-- Assignment `demo->kpis[i].value = value`. -/
def set_kpi_value (demo : DemoProfile_t) (i : Fin 4) (value : String) : DemoProfile_t :=
  { demo with kpis := Function.update demo.kpis i { demo.kpis i with value := value } }

/-- Assignment `demo->kpis[i].good = good`. -/
def set_kpi_good (demo : DemoProfile_t) (i : Fin 4) (good : Bool) : DemoProfile_t :=
  { demo with kpis := Function.update demo.kpis i { demo.kpis i with good := good } }

/-- The statement `if (random(100) < bound) v->partCount++;` (`uint16_t`). -/
def part_increment (raw : Nat) (bound : Nat) (v : Vision_t) : Vision_t :=
  if random_below raw 100 < bound then { v with partCount := (v.partCount + 1) % 65536 } else v

/-- CNC Machine Shop physics. -/
def update_cnc (now : Nat) (r : Draws) (demo : DemoProfile_t) (sim : SimState_t) :
    DemoProfile_t × SimState_t :=
  let progress := progress_of sim
  let v := demo.vision
  match sim.scenarioState with
  | SCENARIO_NORMAL =>
    let sim := set_targets sim (55.0 + noise r.noise0 3.0) (13.0 + noise r.noise1 0.5)
      (4500.0 + noise r.noise2 100) 90 5.0
    let v := { v with
      stackLight := "green"
      leds := { v.leds with run := true, ready := true, error := false, fault := false } }
    let v := part_increment r.extra 8 v
    ({ demo with vision := v }, sim)
  | SCENARIO_DEGRADATION =>
    let sim := set_targets sim (55.0 + progress * 25.0 + noise r.noise0 2.0)
      (13.0 - progress * 4.0 + noise r.noise1 0.3)
      (4500.0 - progress * 500.0 + noise r.noise2 80)
      (90 - truncToInt (progress * 15)) (5.0 + progress * 15.0)
    let v := if progress > 0.5 then { v with stackLight := "yellow" } else v
    let sim := if progress > 0.3 then add_alarm now sim "info" "Spindle load trending upward"
      else sim
    let sim := if progress > 0.7 then
        add_alarm now sim "warning" "Coolant flow below optimal range"
      else sim
    let v := if progress > 0.7 then { v with leds := { v.leds with coolant := false } } else v
    let v := part_increment r.extra 5 v
    ({ demo with vision := v }, sim)
  | SCENARIO_WARNING =>
    let sim := set_targets sim (82.0 + progress * 8.0 + noise r.noise0 2.0)
      (8.5 - progress * 2.0 + noise r.noise1 0.3)
      (3800.0 - progress * 400.0 + noise r.noise2 60)
      (75 - truncToInt (progress * 15)) (20.0 + progress * 20.0)
    let v := { v with stackLight := "yellow" }
    let sim := add_alarm now sim "warning" "Spindle load above 80% threshold"
    let sim := if progress > 0.6 then add_alarm now sim "error" "Coolant level critically low"
      else sim
    let v := { v with leds := { v.leds with coolant := false } }
    let v := part_increment r.extra 3 v
    ({ demo with vision := v }, sim)
  | SCENARIO_FAULT =>
    let sim := set_targets sim (95.0 + noise r.noise0 3.0) (4.0 + noise r.noise1 0.5)
      (1000.0 * (1.0 - progress) + noise r.noise2 50)
      (55 - truncToInt (progress * 15)) (65.0 + progress * 25.0)
    let v := { v with
      stackLight := "red"
      leds := { v.leds with error := true, fault := true, run := false, spindle := false } }
    let sim := add_alarm now sim "error" "FAULT: Spindle overload protection tripped"
    let demo := set_insight0 { demo with vision := v } INSIGHT_CRITICAL
      "Spindle Bearing Overload" "Bearing overload detected - immediate inspection required"
      "immediate"
    (demo, sim)
  | SCENARIO_RECOVERY =>
    let sim := set_targets sim (90.0 - progress * 35.0 + noise r.noise0 2.0)
      (5.0 + progress * 8.0 + noise r.noise1 0.3)
      (500.0 + progress * 4000.0 + noise r.noise2 100)
      (45 + truncToInt (progress * 45)) (80.0 - progress * 75.0)
    let v := if progress < 0.3 then { v with stackLight := "yellow" }
      else { v with stackLight := "green" }
    let v := if progress > 0.5 then
        { v with leds := { v.leds with
            run := true, spindle := true, error := false, fault := false, coolant := true } }
      else v
    let sim := add_alarm now sim "info" "System recovery in progress"
    let demo := set_insight0 { demo with vision := v } INSIGHT_WARNING
      "Spindle Bearing Wear" "Vibration pattern suggests bearing replacement in ~14 days"
      "14 days"
    (demo, sim)

/-- Cold Storage Chiller physics. -/
def update_chiller (now : Nat) (r : Draws) (demo : DemoProfile_t) (sim : SimState_t) :
    DemoProfile_t × SimState_t :=
  let progress := progress_of sim
  let v := demo.vision
  match sim.scenarioState with
  | SCENARIO_NORMAL =>
    let sim := set_targets sim (26.0 + noise r.noise0 1.0) (2.0 + noise r.noise1 0.3)
      (7.5 + noise r.noise2 0.3) 88 5.0
    let v := { v with errorCode := "---" }
    let demo := set_kpi_value { demo with vision := v } 0 "5.5"
    let demo := set_kpi_value demo 3 "OK"
    let demo := set_kpi_good demo 3 true
    (demo, sim)
  | SCENARIO_DEGRADATION =>
    let sim := set_targets sim (26.0 + progress * 10.0 + noise r.noise0 0.8)
      (2.0 + progress * 3.0 + noise r.noise1 0.2)
      (7.5 + progress * 2.0 + noise r.noise2 0.2)
      (88 - truncToInt (progress * 18)) (5.0 + progress * 18.0)
    let sim := if progress > 0.4 then
        add_alarm now sim "warning" "Supply temperature rising above setpoint"
      else sim
    let demo := if progress > 0.4 then set_kpi_value demo 0 "4.0" else demo
    let sim := if progress > 0.7 then
        add_alarm now sim "warning" "Compressor power consumption elevated"
      else sim
    (demo, sim)
  | SCENARIO_WARNING =>
    let sim := set_targets sim (38.0 + progress * 8.0 + noise r.noise0 1.5)
      (5.5 + progress * 3.0 + noise r.noise1 0.4)
      (10.0 + progress * 3.0 + noise r.noise2 0.3)
      (70 - truncToInt (progress * 15)) (25.0 + progress * 20.0)
    let sim := add_alarm now sim "warning" "High discharge pressure detected"
    let demo := set_kpi_value demo 0 "3.0"
    let demo := set_kpi_value demo 3 "WARN"
    let demo := set_kpi_good demo 3 false
    let v := if progress > 0.5 then { v with errorCode := "E07" } else v
    ({ demo with vision := v }, sim)
  | SCENARIO_FAULT =>
    let sim := set_targets sim (8.0 + noise r.noise0 2.0)
      (9.0 + progress * 6.0 + noise r.noise1 0.5)
      (14.0 + progress * 5.0 + noise r.noise2 0.4)
      (50 - truncToInt (progress * 20)) (55.0 + progress * 35.0)
    let v := { v with errorCode := "E07" }
    let demo := set_kpi_value { demo with vision := v } 3 "FAULT"
    let demo := set_kpi_good demo 3 false
    let sim := add_alarm now sim "error" "E07: High discharge pressure - compressor tripped"
    let demo := set_insight0 demo INSIGHT_CRITICAL
      "Compressor Trip" "High discharge pressure caused safety cutout" "immediate"
    (demo, sim)
  | SCENARIO_RECOVERY =>
    let sim := set_targets sim (12.0 + progress * 16.0 + noise r.noise0 1.0)
      (14.0 - progress * 12.0 + noise r.noise1 0.3)
      (18.0 - progress * 10.5 + noise r.noise2 0.3)
      (35 + truncToInt (progress * 53)) (80.0 - progress * 75.0)
    let v := if progress > 0.3 then { v with errorCode := "---" } else v
    let demo := { demo with vision := v }
    let demo := if progress > 0.6 then
        set_kpi_value (set_kpi_good (set_kpi_value demo 3 "OK") 3 true) 0 "5.0"
      else demo
    let sim := add_alarm now sim "info" "Chiller recovery - compressor restarting"
    let demo := set_insight0 demo INSIGHT_WARNING
      "Compressor Efficiency Drop"
      "Power consumption 15% above baseline - check refrigerant levels" "immediate"
    (demo, sim)

/-- The two assignments `v->pressure = sim->sensorTargets[0]; v->oilTemp = sim->sensorTargets[1];`. -/
def copy_gauges (sim : SimState_t) (v : Vision_t) : Vision_t :=
  { v with pressure := sim.sensorTargets 0, oilTemp := sim.sensorTargets 1 }

/-- Compressed Air System physics. -/
def update_compressor (now : Nat) (r : Draws) (demo : DemoProfile_t) (sim : SimState_t) :
    DemoProfile_t × SimState_t :=
  let progress := progress_of sim
  let v := demo.vision
  match sim.scenarioState with
  | SCENARIO_NORMAL =>
    let sim := set_targets sim (8.0 + noise r.noise0 0.3) (75.0 + noise r.noise1 2.0)
      (32.0 + noise r.noise2 1.5) 94 3.0
    let v := { copy_gauges sim v with state := "LOAD" }
    let demo := set_kpi_value { demo with vision := v } 3 "LOAD"
    let demo := set_kpi_good demo 3 true
    let demo := if sim.stateTimer % 8 < 2 then
        set_kpi_value { demo with vision := { demo.vision with state := "IDLE" } } 3 "IDLE"
      else demo
    (demo, sim)
  | SCENARIO_DEGRADATION =>
    let sim := set_targets sim (8.0 - progress * 1.5 + noise r.noise0 0.2)
      (75.0 + progress * 18.0 + noise r.noise1 1.5)
      (32.0 + progress * 8.0 + noise r.noise2 1.0)
      (94 - truncToInt (progress * 14)) (3.0 + progress * 12.0)
    let v := { copy_gauges sim v with state := "LOAD" }
    let sim := if progress > 0.5 then
        add_alarm now sim "warning" "Oil temperature trending above normal"
      else sim
    let sim := if progress > 0.7 then
        add_alarm now sim "info" "Tank pressure below optimal - check for leaks"
      else sim
    ({ demo with vision := v }, sim)
  | SCENARIO_WARNING =>
    let sim := set_targets sim (6.2 - progress * 1.2 + noise r.noise0 0.3)
      (95.0 + progress * 15.0 + noise r.noise1 2.0)
      (42.0 + progress * 10.0 + noise r.noise2 1.5)
      (80 - truncToInt (progress * 20)) (18.0 + progress * 25.0)
    let v := copy_gauges sim v
    let sim := add_alarm now sim "warning" "Oil temp approaching high limit (100C)"
    let sim := if progress > 0.5 then add_alarm now sim "error" "Tank pressure critically low"
      else sim
    let demo := set_kpi_value { demo with vision := v } 3 "LOAD"
    (demo, sim)
  | SCENARIO_FAULT =>
    let sim := set_targets sim (4.5 - progress * 2.5 + noise r.noise0 0.2)
      (112.0 + noise r.noise1 1.0)
      (5.0 * (1.0 - progress) + noise r.noise2 0.5)
      (55 - truncToInt (progress * 25)) (50.0 + progress * 40.0)
    let v := { copy_gauges sim v with state := "FAULT" }
    let demo := set_kpi_value { demo with vision := v } 3 "FAULT"
    let demo := set_kpi_good demo 3 false
    let sim := add_alarm now sim "error" "THERMAL SHUTDOWN: Oil temperature exceeded limit"
    let demo := set_insight0 demo INSIGHT_CRITICAL
      "Thermal Shutdown" "Oil overtemperature caused compressor safety shutdown" "immediate"
    (demo, sim)
  | SCENARIO_RECOVERY =>
    let sim := set_targets sim (2.5 + progress * 5.5 + noise r.noise0 0.2)
      (110.0 - progress * 35.0 + noise r.noise1 1.0)
      (5.0 + progress * 27.0 + noise r.noise2 1.0)
      (35 + truncToInt (progress * 59)) (85.0 - progress * 82.0)
    let v := copy_gauges sim v
    let demo := { demo with vision := v }
    let demo := if progress > 0.4 then
        set_kpi_good
          (set_kpi_value { demo with vision := { demo.vision with state := "LOAD" } } 3 "LOAD")
          3 true
      else
        set_kpi_value { demo with vision := { demo.vision with state := "IDLE" } } 3 "IDLE"
    let sim := add_alarm now sim "info" "Compressor cooling down - restart in progress"
    let demo := set_insight0 demo INSIGHT_WARNING
      "Oil Quality Good" "Viscosity and contamination levels within spec" "stable"
    (demo, sim)

/-- Custom PLC physics. -/
def update_plc (now : Nat) (r : Draws) (demo : DemoProfile_t) (sim : SimState_t) :
    DemoProfile_t × SimState_t :=
  let progress := progress_of sim
  let v := demo.vision
  match sim.scenarioState with
  | SCENARIO_NORMAL =>
    let sim := set_targets sim (85.0 + noise r.noise0 1.5) (500.0 + noise r.noise1 15.0)
      (5.0 + noise r.noise2 0.2) 92 4.0
    let v := if sim.stateTimer % 6 < 3 then
        { v with
          diA := store (store (store v.diA 0 true) 1 false) 2 true
          dqA := store (store v.dqA 0 true) 3 true }
      else
        { v with
          diA := store (store (store v.diA 0 false) 1 true) 2 false
          dqA := store (store v.dqA 0 false) 3 false }
    let v := { v with aq0 := toUInt8 (65 + truncToInt (noise r.extra 3)) }
    let demo := set_kpi_value { demo with vision := v } 3 "AUTO"
    let demo := set_kpi_good demo 3 true
    (demo, sim)
  | SCENARIO_DEGRADATION =>
    let sim := set_targets sim (85.0 + progress * 30.0 + noise r.noise0 2.0)
      (500.0 + progress * 150.0 + noise r.noise1 10.0)
      (5.0 - progress * 0.8 + noise r.noise2 0.15)
      (92 - truncToInt (progress * 15)) (4.0 + progress * 12.0)
    let v := { v with aq0 := toUInt8 (65 + truncToInt (progress * 20)) }
    let sim := if progress > 0.5 then
        add_alarm now sim "warning" "Chamber temperature drifting above setpoint"
      else sim
    let v := if progress > 0.5 then { v with diA := store v.diA 5 true } else v
    ({ demo with vision := v }, sim)
  | SCENARIO_WARNING =>
    let sim := set_targets sim (120.0 + progress * 40.0 + noise r.noise0 3.0)
      (660.0 + progress * 200.0 + noise r.noise1 20.0)
      (4.0 - progress * 1.0 + noise r.noise2 0.2)
      (75 - truncToInt (progress * 15)) (18.0 + progress * 25.0)
    let v := { v with aq0 := toUInt8 (90 + truncToInt (progress * 10)) }
    let v := if v.aq0 > 100 then { v with aq0 := 100 } else v
    let v := { v with diA := store (store v.diA 5 true) 6 true }
    let sim := add_alarm now sim "warning" "Chamber temp approaching safety limit"
    let sim := if progress > 0.7 then
        add_alarm now sim "error" "Pressure spike detected - process deviation"
      else sim
    ({ demo with vision := v }, sim)
  | SCENARIO_FAULT =>
    let sim := set_targets sim (165.0 + noise r.noise0 2.0) (850.0 + noise r.noise1 30.0)
      (2.0 + noise r.noise2 0.3)
      (50 - truncToInt (progress * 20)) (55.0 + progress * 35.0)
    let v := { v with dqA := fun _ => false }
    let v := { v with diA := store (store v.diA 6 true) 7 true, aq0 := 0 }
    let demo := set_kpi_value { demo with vision := v } 3 "STOP"
    let demo := set_kpi_good demo 3 false
    let sim := add_alarm now sim "error" "SAFETY SHUTDOWN: Chamber overtemperature"
    let demo := set_insight0 demo INSIGHT_CRITICAL
      "Process Safety Shutdown" "Chamber overtemperature triggered emergency stop" "immediate"
    (demo, sim)
  | SCENARIO_RECOVERY =>
    let sim := set_targets sim (160.0 - progress * 75.0 + noise r.noise0 2.0)
      (850.0 - progress * 350.0 + noise r.noise1 15.0)
      (2.5 + progress * 2.5 + noise r.noise2 0.15)
      (35 + truncToInt (progress * 57)) (80.0 - progress * 76.0)
    let v := if progress > 0.4 then
        { v with
          dqA := store (store v.dqA 0 true) 3 true
          diA := store (store v.diA 6 false) 7 false
          aq0 := toUInt8 (truncToInt (progress * 65)) }
      else v
    let demo := { demo with vision := v }
    let demo := if progress > 0.7 then
        let demo := set_kpi_good (set_kpi_value demo 3 "AUTO") 3 true
        { demo with vision := { demo.vision with diA := store demo.vision.diA 5 false } }
      else demo
    let sim := add_alarm now sim "info" "Process restarting - chamber cooling"
    let demo := set_insight0 demo INSIGHT_WARNING
      "Process Drift Detected" "Chamber temperature variance increased 12% this week"
      "monitoring"
    (demo, sim)

/-! ## Engine state and the program's globals -/

structure SimEngine_t where
  demos : Fin DEMO_COUNT → SimState_t
  lastUpdateMs : Nat
  initialized : Bool

/-- The globals the engine works on: `engine` (`simulation_engine.cpp`) and
`demoProfiles`, `currentDemoIndex` (`demo_profiles.h`, where they are declared
`static`: the copies kept here are the ones `simulation_engine.cpp` reads and
writes).  `currentDemoIndex` is a `uint8_t` whose writers (`setDemo`, `nextDemo`)
keep it below `DEMO_COUNT`. -/
structure World where
  engine : SimEngine_t
  demoProfiles : Fin DEMO_COUNT → DemoProfile_t
  currentDemoIndex : Fin DEMO_COUNT

/-- The globals at program start: `engine` zero-initialised, the profile table,
`currentDemoIndex = 0`. -/
def boot : World :=
  { engine := { demos := fun _ => default, lastUpdateMs := 0, initialized := false }
    demoProfiles := demoProfiles_table
    currentDemoIndex := 0 }

def setDemo (index : Nat) (w : World) : World :=
  if h : index < DEMO_COUNT then { w with currentDemoIndex := ⟨index, h⟩ } else w

def getDemo (w : World) : DemoProfile_t := w.demoProfiles w.currentDemoIndex

def nextDemo (w : World) : World :=
  { w with currentDemoIndex := ⟨(w.currentDemoIndex.val + 1) % DEMO_COUNT, Nat.mod_lt _ (by decide)⟩ }

def getDemoIndex (w : World) : Nat := w.currentDemoIndex.val

/-! ## Main update loop -/

/-- The state `sim_init` gives the demo whose profile is `demo`. -/
def init_state (now : Nat) (demo : DemoProfile_t) : SimState_t :=
  { (default : SimState_t) with
    scenarioState := SCENARIO_NORMAL
    stateEnteredAt := now
    stateTimer := 0
    cycleCount := 0
    dynamicAlarmCount := 0
    otaInProgress := false
    otaProgress := 0
    sensorTargets := fun i => (demo.sensors i).value
    history := fun _ => { (default : SensorHistory_t) with head := 0, count := 0 }
    targetHealthScore := demo.ai.healthScore
    targetFailureProb := demo.ai.failureProbability }

def sim_init (now : Nat) (w : World) : World :=
  { w with engine :=
      { demos := fun d => init_state now (w.demoProfiles d)
        lastUpdateMs := now
        initialized := true } }

/-- One iteration of the smoothing loop of `sim_update`, for sensor `i`. -/
def smooth_sensor (ds : DemoProfile_t × SimState_t) (i : Fin 3) : DemoProfile_t × SimState_t :=
  let demo := ds.1
  let sim := ds.2
  let sensor := demo.sensors i
  let target := clampf (sim.sensorTargets i) sensor.min sensor.max
  let value := approach sensor.value target 0.15
  let value := clampf value sensor.min sensor.max
  ({ demo with sensors := Function.update demo.sensors i { sensor with value := value } },
   { sim with history := Function.update sim.history i (history_push (sim.history i) value) })

/-- The anomaly count `sim_update` ties to the scenario. -/
def anomaly_count (r : Draws) : ScenarioState_t → Nat
  | SCENARIO_NORMAL => 0
  | SCENARIO_DEGRADATION => 1
  | SCENARIO_WARNING => 2
  | SCENARIO_FAULT => toUInt8 (3 + random_range r.anomaly 0 2)
  | SCENARIO_RECOVERY => 1

/-- The confidence `sim_update` gives an insight from the raw draw `raw`. -/
def insight_confidence (state : ScenarioState_t) (raw : Nat) : Nat :=
  let baseConf : Int :=
    if state = SCENARIO_FAULT then 88 + random_range raw 0 10
    else if state = SCENARIO_WARNING then 75 + random_range raw 0 15
    else 55 + random_range raw 0 25
  toUInt8 (truncToInt (clampf (baseConf : ℚ) 40.0 99.0))

/-- The raw draw of the confidence of insight `i`. -/
def Draws.conf (r : Draws) (i : Fin 3) : Nat :=
  match i with
  | 0 => r.conf0
  | 1 => r.conf1
  | 2 => r.conf2

/-- The OTA block of `sim_update`. -/
def ota_step (now : Nat) (r : Draws) (sim : SimState_t) : SimState_t :=
  if sim.otaInProgress then
    let sim := { sim with
      otaProgress := toUInt8 ((sim.otaProgress : Int) + (2 + random_range r.ota 0 3)) }
    if sim.otaProgress ≥ 100 then
      add_alarm now { sim with otaProgress := 100, otaInProgress := false }
        "info" "Firmware update completed successfully (v1.1.0)"
    else sim
  else sim

/-- The scenario clock of `sim_update`: increment the state timer and check for
a state transition. -/
def clock_step (now : Nat) (sim : SimState_t) : SimState_t :=
  let sim := { sim with stateTimer := (sim.stateTimer + 1) % ULONG_MOD }
  if sim.stateTimer ≥ get_state_duration sim.scenarioState then transition_state now sim
  else sim

/-- The `switch (demoIdx)` of `sim_update`. -/
def run_physics (demoIdx : Nat) (now : Nat) (r : Draws) (demo : DemoProfile_t)
    (sim : SimState_t) : DemoProfile_t × SimState_t :=
  match demoIdx with
  | 0 => update_cnc now r demo sim
  | 1 => update_chiller now r demo sim
  | 2 => update_compressor now r demo sim
  | 3 => update_plc now r demo sim
  | _ => (demo, sim)

/-- The body of `sim_update` on the active demo `demoIdx`: its profile record
`demo` and its simulation state `sim`. -/
def update_profile (demoIdx : Nat) (now : Nat) (r : Draws) (demo : DemoProfile_t)
    (sim : SimState_t) : DemoProfile_t × SimState_t :=
  let sim := clock_step now sim
  let ds := run_physics demoIdx now r demo sim
  let ds := smooth_sensor (smooth_sensor (smooth_sensor ds 0) 1) 2
  let demo := ds.1
  let sim := ds.2
  let ai := demo.ai
  let ai := { ai with
    healthScore :=
      toUInt8 (truncToInt (approach (ai.healthScore : ℚ) (sim.targetHealthScore : ℚ) 0.12)) }
  let ai := { ai with
    failureProbability := approach ai.failureProbability sim.targetFailureProb 0.1 }
  let ai := { ai with anomalyCount := anomaly_count r sim.scenarioState }
  let ai := { ai with
    dataPoints := (ai.dataPoints + (random_range r.dataPoints 10 40).toNat) % 2 ^ 32 }
  let ai := { ai with
    insights := fun i =>
      { ai.insights i with confidence := insight_confidence sim.scenarioState (r.conf i) } }
  let sim := ota_step now r sim
  ({ demo with ai := ai }, sim)

def sim_update (now : Nat) (r : Draws) (w : World) : World :=
  if !w.engine.initialized then w
  else
    let demoIdx := w.currentDemoIndex
    let ds := update_profile demoIdx.val now r (getDemo w) (w.engine.demos demoIdx)
    { w with
      engine := { w.engine with
        demos := Function.update w.engine.demos demoIdx ds.2
        lastUpdateMs := now }
      demoProfiles := Function.update w.demoProfiles demoIdx ds.1 }

/-! ## Getters and commands -/

def sim_get_scenario (w : World) : ScenarioState_t :=
  if !w.engine.initialized then SCENARIO_NORMAL
  else (w.engine.demos w.currentDemoIndex).scenarioState

def sim_get_scenario_name (w : World) : String :=
  match sim_get_scenario w with
  | SCENARIO_NORMAL => "Normal"
  | SCENARIO_DEGRADATION => "Degrading"
  | SCENARIO_WARNING => "Warning"
  | SCENARIO_FAULT => "FAULT"
  | SCENARIO_RECOVERY => "Recovering"

/-- Getter `sim_get_history`; `none` is the `NULL` result. -/
def sim_get_history (w : World) (sensorIndex : Nat) : Option SensorHistory_t :=
  if h : !w.engine.initialized ∨ sensorIndex ≥ 3 then none
  else some ((w.engine.demos w.currentDemoIndex).history
    ⟨sensorIndex, by simp only [not_or, not_le] at h; exact h.2⟩)

/-- The counting loop of `sim_get_alarm_count` on one profile state (`uint8_t count`). -/
def alarm_count (sim : SimState_t) : Nat :=
  (List.range sim.dynamicAlarmCount).foldl
    (fun count i => if (load sim.dynamicAlarms i).active then (count + 1) % 256 else count) 0

def sim_get_alarm_count (w : World) : Nat :=
  if !w.engine.initialized then 0
  else alarm_count (w.engine.demos w.currentDemoIndex)

/-- The loop of `sim_get_alarm`, at index `i` with `n` iterations left and the
running `count`: the slot of the `index`-th active alarm. -/
def alarm_scan (active : Nat → Bool) (index : Nat) : Nat → Nat → Nat → Option Nat
  | _, 0, _ => none
  | i, n + 1, count =>
    if active i then
      if count = index then some i else alarm_scan active index (i + 1) n ((count + 1) % 256)
    else alarm_scan active index (i + 1) n count

/-- Getter `sim_get_alarm`, as the slot number of the alarm it points to; `none`
is the `NULL` result. -/
def sim_get_alarm (w : World) (index : Nat) : Option Nat :=
  if !w.engine.initialized then none
  else
    let sim := w.engine.demos w.currentDemoIndex
    alarm_scan (fun i => (load sim.dynamicAlarms i).active) index 0 sim.dynamicAlarmCount 0

def sim_ack_alarm (index : Nat) (w : World) : World :=
  match sim_get_alarm w index with
  | none => w
  | some slot =>
    let sim := w.engine.demos w.currentDemoIndex
    let a := load sim.dynamicAlarms slot
    let sim := { sim with dynamicAlarms := store sim.dynamicAlarms slot { a with acked := true } }
    { w with engine := { w.engine with
        demos := Function.update w.engine.demos w.currentDemoIndex sim } }

def sim_start_ota (now : Nat) (w : World) : World :=
  if !w.engine.initialized then w
  else
    let sim := w.engine.demos w.currentDemoIndex
    let sim := { sim with otaInProgress := true, otaProgress := 0 }
    let sim := add_alarm now sim "info" "Firmware update started - downloading v1.1.0"
    { w with engine := { w.engine with
        demos := Function.update w.engine.demos w.currentDemoIndex sim } }

def sim_ota_active (w : World) : Bool :=
  if !w.engine.initialized then false
  else (w.engine.demos w.currentDemoIndex).otaInProgress

def sim_ota_progress (w : World) : Nat :=
  if !w.engine.initialized then 0
  else (w.engine.demos w.currentDemoIndex).otaProgress

/-- Getter `sim_get_state`; `none` is the `NULL` result. -/
def sim_get_state (w : World) : Option SimState_t :=
  if !w.engine.initialized then none
  else some (w.engine.demos w.currentDemoIndex)

/-! ## Reachable states -/

/-- The states of the globals the program can be in once `sim_init` has run:
`sim_init` at program start, then any sequence of ticks, acknowledgements, OTA
starts and profile switches, with any clock values, indices and random draws. -/
inductive Reachable : World → Prop where
  | init (now : Nat) : Reachable (sim_init now boot)
  | update (now : Nat) (r : Draws) {w : World} : Reachable w → Reachable (sim_update now r w)
  | ack (index : Nat) {w : World} : Reachable w → Reachable (sim_ack_alarm index w)
  | ota (now : Nat) {w : World} : Reachable w → Reachable (sim_start_ota now w)
  | set (index : Nat) {w : World} : Reachable w → Reachable (setDemo index w)
  | next {w : World} : Reachable w → Reachable (nextDemo w)

/-! ## The alarms the engine raises -/

/-- The `(severity, message)` arguments of the `add_alarm` calls of the physics
model of demo `demoIdx`, in source order. -/
def physics_alarms : Nat → List (String × String)
  | 0 =>
    [("info", "Spindle load trending upward"),
     ("warning", "Coolant flow below optimal range"),
     ("warning", "Spindle load above 80% threshold"),
     ("error", "Coolant level critically low"),
     ("error", "FAULT: Spindle overload protection tripped"),
     ("info", "System recovery in progress")]
  | 1 =>
    [("warning", "Supply temperature rising above setpoint"),
     ("warning", "Compressor power consumption elevated"),
     ("warning", "High discharge pressure detected"),
     ("error", "E07: High discharge pressure - compressor tripped"),
     ("info", "Chiller recovery - compressor restarting")]
  | 2 =>
    [("warning", "Oil temperature trending above normal"),
     ("info", "Tank pressure below optimal - check for leaks"),
     ("warning", "Oil temp approaching high limit (100C)"),
     ("error", "Tank pressure critically low"),
     ("error", "THERMAL SHUTDOWN: Oil temperature exceeded limit"),
     ("info", "Compressor cooling down - restart in progress")]
  | 3 =>
    [("warning", "Chamber temperature drifting above setpoint"),
     ("warning", "Chamber temp approaching safety limit"),
     ("error", "Pressure spike detected - process deviation"),
     ("error", "SAFETY SHUTDOWN: Chamber overtemperature"),
     ("info", "Process restarting - chamber cooling")]
  | _ => []

/-- The `(severity, message)` arguments of the two OTA `add_alarm` calls
(`sim_start_ota`, the OTA block of `sim_update`). -/
def ota_alarms : List (String × String) :=
  [("info", "Firmware update started - downloading v1.1.0"),
   ("info", "Firmware update completed successfully (v1.1.0)")]

/-- The state `s2` comes from `s1` by assignments of the targets and calls of
`add_alarm` whose `(severity, message)` arguments satisfy `M`. -/
inductive Raises (M : String → String → Prop) : SimState_t → SimState_t → Prop where
  | refl (s : SimState_t) : Raises M s s
  | targets {s1 s2 : SimState_t} (t0 t1 t2 : ℚ) (health : Int) (failure : ℚ) :
      Raises M s1 s2 → Raises M s1 (set_targets s2 t0 t1 t2 health failure)
  | alarm {s1 s2 : SimState_t} (now : Nat) (severity message : String) :
      M severity message → Raises M s1 s2 → Raises M s1 (add_alarm now s2 severity message)

/-! ## Invariants -/

/-- Alarm-pool invariant of a profile state: every active slot lies below the
high-water mark `dynamicAlarmCount`, and no two distinct active slots hold the
same message. -/
def PoolInv (sim : SimState_t) : Prop :=
  (∀ i : Fin MAX_DYNAMIC_ALARMS, (sim.dynamicAlarms i).active = true →
    i.val < sim.dynamicAlarmCount) ∧
  (∀ i j : Fin MAX_DYNAMIC_ALARMS, (sim.dynamicAlarms i).active = true →
    (sim.dynamicAlarms j).active = true →
    (sim.dynamicAlarms i).message = (sim.dynamicAlarms j).message → i = j)

/-- Scenario-clock invariant of a profile state. -/
def TimerInv (sim : SimState_t) : Prop :=
  sim.stateTimer < get_state_duration sim.scenarioState

/-- Invariant of the globals once `sim_init` has run. -/
def WorldInv (w : World) : Prop :=
  w.engine.initialized = true ∧
  ∀ d : Fin DEMO_COUNT, PoolInv (w.engine.demos d) ∧ TimerInv (w.engine.demos d)

/-- The scenario clock of a profile state: scenario state, timer, cycle counter. -/
def clock_of (sim : SimState_t) : ScenarioState_t × Nat × Nat :=
  (sim.scenarioState, sim.stateTimer, sim.cycleCount)

/-! ## Specification-side definitions -/

/-- Pushing the samples `vs` in order, first to last. -/
def push_all (h : SensorHistory_t) (vs : List ℚ) : SensorHistory_t :=
  vs.foldl history_push h

/-- The 61 samples `0, 1, .., 60`. -/
def ramp61 : List ℚ := (List.range 61).map (fun k => (k : ℚ))

/-- Live count of the spec: the number of slots, among all `MAX_DYNAMIC_ALARMS`,
with `active = true`. -/
def live_count (sim : SimState_t) : Nat :=
  ((List.finRange MAX_DYNAMIC_ALARMS).filter (fun i => (sim.dynamicAlarms i).active)).length

/-- The number of active slots, among all `MAX_DYNAMIC_ALARMS`, whose message is `m`. -/
def count_message (sim : SimState_t) (m : String) : Nat :=
  ((List.finRange MAX_DYNAMIC_ALARMS).filter
    (fun i => (sim.dynamicAlarms i).active && (sim.dynamicAlarms i).message == m)).length

/-- A profile state with two active alarms, in slots 0 and 1. -/
def pool_two : SimState_t :=
  add_alarm 2000 (add_alarm 1000 default "info" "Spindle load trending upward")
    "warning" "Coolant flow below optimal range"

/-- A profile state whose eight slots are all active; the trigger times are
`5, 3, 9, 3, 7, 8, 6, 4`, slot 1 holding an acknowledged error. -/
def pool_full : SimState_t :=
  { (default : SimState_t) with
    dynamicAlarms := fun i =>
      { severity := if i.val = 1 then "error" else "info"
        message := String.mk [Char.ofNat (65 + i.val)]
        time := "00:00:00"
        acked := decide (i.val = 1)
        active := true
        triggerTime := (![5, 3, 9, 3, 7, 8, 6, 4] : Fin 8 → Nat) i }
    dynamicAlarmCount := 8 }

/-- A message of 80 characters, one more than a slot stores. -/
def long_message : String := String.mk (List.replicate 80 'a')

/-- A profile state with an active alarm "X" in slot 0 and `dynamicAlarmCount = 0`. -/
def pool_hidden : SimState_t :=
  { (default : SimState_t) with
    dynamicAlarms := store (fun _ => default) 0
      { severity := "info", message := "X", time := "00:00:00", acked := false,
        active := true, triggerTime := 0 }
    dynamicAlarmCount := 0 }

/-- A profile state with an active alarm "X" in each of the slots 0 and 1. -/
def pool_dup : SimState_t :=
  { (default : SimState_t) with
    dynamicAlarms := store (store (fun _ => default) 0
      { severity := "info", message := "X", time := "00:00:00", acked := false,
        active := true, triggerTime := 0 }) 1
      { severity := "info", message := "X", time := "00:00:01", acked := false,
        active := true, triggerTime := 1000 }
    dynamicAlarmCount := 2 }

/-- The advance of the scenario clock on its three components: the timer is
incremented (`unsigned long`); when it reaches the dwell duration of the state,
the state becomes its successor, the timer 0, and the cycle counter (`uint8_t`)
is incremented iff the state entered is Normal. -/
def clock_tick (c : ScenarioState_t × Nat × Nat) : ScenarioState_t × Nat × Nat :=
  if (c.2.1 + 1) % ULONG_MOD < get_state_duration c.1 then (c.1, (c.2.1 + 1) % ULONG_MOD, c.2.2)
  else
    (next_state c.1, 0, if next_state c.1 = SCENARIO_NORMAL then (c.2.2 + 1) % 256 else c.2.2)

/-- Position `k` of the 102-tick scenario cycle that starts in Normal with timer 0. -/
def scenario_at (k : Nat) : ScenarioState_t × Nat :=
  if k < 45 then (SCENARIO_NORMAL, k)
  else if k < 65 then (SCENARIO_DEGRADATION, k - 45)
  else if k < 80 then (SCENARIO_WARNING, k - 65)
  else if k < 92 then (SCENARIO_FAULT, k - 80)
  else (SCENARIO_RECOVERY, k - 92)

/-- Running a list of ticks, each with its clock value and random draws. -/
def run_updates (w : World) (ticks : List (Nat × Draws)) : World :=
  ticks.foldl (fun w t => sim_update t.1 t.2 w) w

/-- The draws of a tick whose OTA step adds 4. -/
def draws_ota4 : Draws := { (default : Draws) with ota := 2 }

/-- The engine after `sim_init`, an OTA start and 25 ticks that each add 4 to the
OTA progress: the active profile is in Normal and holds the two OTA alarms. -/
def world_ota : World :=
  run_updates (sim_start_ota 0 (sim_init 0 boot)) (List.replicate 25 (1000, draws_ota4))

/-- The engine after `sim_init` and 85 ticks: the CNC profile is in Fault. -/
def world_fault : World :=
  run_updates (sim_init 0 boot) (List.replicate 85 (1000, default))

/-- The world after `k` ticks of the stream `ticks`, whose entry `j` gives the
clock value and the random draws of tick `j + 1`. -/
def run_seq (w : World) (ticks : Nat → Nat × Draws) : Nat → World
  | 0 => w
  | k + 1 => sim_update (ticks k).1 (ticks k).2 (run_seq w ticks k)

/-- The iterates of the smoothing step toward a constant target. -/
def approach_iter (target rate : ℚ) (n : Nat) (value : ℚ) : ℚ :=
  (fun v => approach v target rate)^[n] value

/-- The value the smoothing loop of `sim_update` gives a sensor from its record
and its target: `clampf(approach(value, clampf(target, min, max), 0.15), min, max)`. -/
def smoothed_value (s : Sensor_t) (target : ℚ) : ℚ :=
  clampf (approach s.value (clampf target s.min s.max) 0.15) s.min s.max

/-- The number of active slots of index below `k`: the position of slot `k` among
the active slots, in slot order. -/
def active_before (sim : SimState_t) (k : Nat) : Nat :=
  ((List.range k).filter (fun j => (load sim.dynamicAlarms j).active)).length

/-- The world in which slot `k` of the active profile is acknowledged and nothing
else differs from `w`. -/
def ack_slot (w : World) (k : Fin MAX_DYNAMIC_ALARMS) : World :=
  { w with engine := { w.engine with
      demos := Function.update w.engine.demos w.currentDemoIndex
        { w.engine.demos w.currentDemoIndex with
          dynamicAlarms := Function.update (w.engine.demos w.currentDemoIndex).dynamicAlarms k
            { (w.engine.demos w.currentDemoIndex).dynamicAlarms k with acked := true } } } }

/-- The ticks number `start + 1` to `start + n` of a run at one tick per second:
tick `j` has clock value `1000 * j` and all raw draws 0. -/
def ticks_from (start n : Nat) : List (Nat × Draws) :=
  (List.range n).map (fun k => (1000 * (start + k + 1), default))

/-- The engine after `sim_init`, 85 ticks (the CNC profile is in Fault, five alarms
active), the acknowledgement of the fault alarm (index 4), and 10 more ticks (the
profile is in Recovery). -/
def world_acked : World :=
  run_updates (sim_ack_alarm 4 (run_updates (sim_init 0 boot) (ticks_from 0 85)))
    (ticks_from 85 10)

/-- The health-score step of `sim_update` for the score `h` and the target `T`
(both `uint8_t`): `(uint8_t)approach((float)h, (float)T, 0.12f)`. -/
def health_step (h T : Nat) : Nat :=
  toUInt8 (truncToInt (approach (h : ℚ) (T : ℚ) 0.12))

/-- The AI targets of a profile state lie in `[0, 100]`. -/
def TargetsOk (s : SimState_t) : Prop :=
  s.targetHealthScore ≤ 100 ∧ 0 ≤ s.targetFailureProb ∧ s.targetFailureProb ≤ 100

/-- The health score and the failure probability of every profile, and the targets
of every simulation state, lie in `[0, 100]`. -/
def AiInv (w : World) : Prop :=
  ∀ d : Fin DEMO_COUNT,
    ((w.demoProfiles d).ai.healthScore ≤ 100 ∧ 0 ≤ (w.demoProfiles d).ai.failureProbability ∧
      (w.demoProfiles d).ai.failureProbability ≤ 100) ∧
    TargetsOk (w.engine.demos d)

/-- The health score after `n` steps toward the constant target `T`. -/
def health_iter (T : Nat) (n : Nat) (h : Nat) : Nat :=
  (fun x => health_step x T)^[n] h

/-- The two OTA fields of a simulation state: `otaInProgress` and `otaProgress`. -/
def ota_of (sim : SimState_t) : Bool × Nat := (sim.otaInProgress, sim.otaProgress)

/-- The OTA block of `sim_update` on the two OTA fields alone. -/
def ota_next (r : Draws) (p : Bool × Nat) : Bool × Nat :=
  if p.1 then
    if toUInt8 ((p.2 : Int) + (2 + random_range r.ota 0 3)) ≥ 100 then (false, 100)
    else (true, toUInt8 ((p.2 : Int) + (2 + random_range r.ota 0 3)))
  else p

/-- The simulation state of the active profile `k` ticks after `sim_start_ota`,
the ticks taking their clock values and random draws from `ticks`. -/
def ota_run (now : Nat) (w : World) (ticks : Nat → Nat × Draws) (k : Nat) : SimState_t :=
  (run_seq (sim_start_ota now w) ticks k).engine.demos w.currentDemoIndex

/-- The message of the `add_alarm` call in the OTA block of `sim_update`. -/
def ota_done_message : String := "Firmware update completed successfully (v1.1.0)"

/-- The condition under which the OTA block of `sim_update` calls `add_alarm`
(with the completion message): the download is in progress and the new progress
is 100 or more. Nothing before the OTA block in `sim_update` writes the two OTA
fields, so the condition is the same on the state at the start of the tick. -/
def ota_fires (r : Draws) (sim : SimState_t) : Bool :=
  sim.otaInProgress &&
    decide (toUInt8 ((sim.otaProgress : Int) + (2 + random_range r.ota 0 3)) ≥ 100)

/-- The `(severity, message)` arguments of all `add_alarm` calls that can reach the
simulation state of demo `demoIdx`. -/
def profile_alarms (demoIdx : Nat) : List (String × String) :=
  physics_alarms demoIdx ++ ota_alarms

/-- Every active slot of the state of demo `demoIdx` holds the severity and the
message of one of the `add_alarm` calls of that demo. -/
def MsgInv (demoIdx : Nat) (sim : SimState_t) : Prop :=
  ∀ i : Fin MAX_DYNAMIC_ALARMS, (sim.dynamicAlarms i).active = true →
    ((sim.dynamicAlarms i).severity, (sim.dynamicAlarms i).message) ∈ profile_alarms demoIdx

/-- Some active slot holds the OTA completion message. -/
def HasDone (sim : SimState_t) : Prop :=
  ∃ i : Fin MAX_DYNAMIC_ALARMS, (sim.dynamicAlarms i).active = true ∧
    (sim.dynamicAlarms i).message = ota_done_message

/-- No active slot holds the OTA completion message. -/
def NoDone (sim : SimState_t) : Prop :=
  ∀ i : Fin MAX_DYNAMIC_ALARMS, (sim.dynamicAlarms i).active = true →
    (sim.dynamicAlarms i).message ≠ ota_done_message

/-- The title and the description the Fault branch of the physics model of each
profile writes into `ai.insights[0]`. -/
def fault_insight : Fin DEMO_COUNT → String × String :=
  ![("Spindle Bearing Overload", "Bearing overload detected - immediate inspection required"),
    ("Compressor Trip", "High discharge pressure caused safety cutout"),
    ("Thermal Shutdown", "Oil overtemperature caused compressor safety shutdown"),
    ("Process Safety Shutdown", "Chamber overtemperature triggered emergency stop")]

/-- The value `baseConf` of the confidence loop of `sim_update`: the base of the
band of the scenario state plus the draw. -/
def base_confidence (state : ScenarioState_t) (raw : Nat) : Int :=
  if state = SCENARIO_FAULT then 88 + random_range raw 0 10
  else if state = SCENARIO_WARNING then 75 + random_range raw 0 15
  else 55 + random_range raw 0 25

/-- Two vision records agree on the auxiliary outputs `stackLight`, `leds`,
`errorCode`, `state`, `diA` and `dqA`. -/
def AuxAgree (v1 v2 : Vision_t) : Prop :=
  v1.stackLight = v2.stackLight ∧ v1.leds = v2.leds ∧ v1.errorCode = v2.errorCode ∧
  v1.state = v2.state ∧ v1.diA = v2.diA ∧ v1.dqA = v2.dqA

/-- The engine after `sim_init` and the selection of the PLC profile. -/
def world_plc : World := setDemo 3 (sim_init 0 boot)

/-- The draws of a tick whose `noise(3)` of the PLC analog output is 0. -/
def draws_mid : Draws := { (default : Draws) with extra := 1000 }

/-- The bound of `char message[80]`: every slot holds a message of at most 79
characters. -/
def MessagesFit (sim : SimState_t) : Prop :=
  ∀ i : Fin MAX_DYNAMIC_ALARMS, (sim.dynamicAlarms i).message.length ≤ 79

instance (sim : SimState_t) : Decidable (MessagesFit sim) := by
  unfold MessagesFit
  infer_instance

/-- Slot `j` of profile `d` is active in `w2` and holds the severity, message, time
and trigger time it holds in `w1`. -/
def SlotKept (w1 w2 : World) (d : Fin DEMO_COUNT) (j : Fin MAX_DYNAMIC_ALARMS) : Prop :=
  ((w2.engine.demos d).dynamicAlarms j).active = true ∧
  ((w2.engine.demos d).dynamicAlarms j).severity = ((w1.engine.demos d).dynamicAlarms j).severity ∧
  ((w2.engine.demos d).dynamicAlarms j).message = ((w1.engine.demos d).dynamicAlarms j).message ∧
  ((w2.engine.demos d).dynamicAlarms j).time = ((w1.engine.demos d).dynamicAlarms j).time ∧
  ((w2.engine.demos d).dynamicAlarms j).triggerTime
    = ((w1.engine.demos d).dynamicAlarms j).triggerTime

/-- The message of the `add_alarm` call of the Fault branch of each physics model. -/
def fault_message : Fin DEMO_COUNT → String :=
  !["FAULT: Spindle overload protection tripped",
    "E07: High discharge pressure - compressor tripped",
    "THERMAL SHUTDOWN: Oil temperature exceeded limit",
    "SAFETY SHUTDOWN: Chamber overtemperature"]

/-- The message of the `add_alarm` call of the Recovery branch of each physics model. -/
def recovery_message : Fin DEMO_COUNT → String :=
  !["System recovery in progress",
    "Chiller recovery - compressor restarting",
    "Compressor cooling down - restart in progress",
    "Process restarting - chamber cooling"]

/-- No active alarm is an unacknowledged alarm of severity "error". -/
def NoOpenError (sim : SimState_t) : Prop :=
  ∀ i : Fin MAX_DYNAMIC_ALARMS, (sim.dynamicAlarms i).active = true →
    ¬ ((sim.dynamicAlarms i).acked = false ∧ (sim.dynamicAlarms i).severity = "error")

/-- A profile state in Recovery holds no active unacknowledged "error" alarm. -/
def RecInv (sim : SimState_t) : Prop :=
  sim.scenarioState = SCENARIO_RECOVERY → NoOpenError sim

/-! ## Arrays -/

theorem load_fin {α : Type} [Inhabited α] {n : Nat} (a : Fin n → α) (j : Fin n) :
    load a j.val = a j := by
  simp [load]

theorem load_of_lt {α : Type} [Inhabited α] {n : Nat} (a : Fin n → α) {i : Nat} (h : i < n) :
    load a i = a ⟨i, h⟩ := by
  simp [load, h]

theorem store_apply {α : Type} {n : Nat} (a : Fin n → α) (i : Nat) (v : α) (j : Fin n) :
    store a i v j = if j.val = i then v else a j := rfl

theorem load_store {α : Type} [Inhabited α] {n : Nat} (a : Fin n → α) (i : Nat) (v : α)
    (j : Nat) : load (store a i v) j = if j = i ∧ j < n then v else load a j := by
  unfold load store
  by_cases hj : j < n
  · by_cases hji : j = i
    · subst hji
      simp [hj]
    · simp [hj, hji]
  · simp [hj]

/-! ## History ring buffer -/

theorem push_all_append (h : SensorHistory_t) (vs : List ℚ) (v : ℚ) :
    push_all h (vs ++ [v]) = history_push (push_all h vs) v := by
  simp [push_all, List.foldl_append]

/-- After `n` pushes into an empty history: the fill level, the insertion point,
and where each of the last `SENSOR_HISTORY_LEN` samples is stored. -/
theorem push_all_layout (h : SensorHistory_t) (h0 : h.head = 0) (c0 : h.count = 0)
    (vs : List ℚ) :
    (push_all h vs).count = min vs.length SENSOR_HISTORY_LEN ∧
    (push_all h vs).head = vs.length % SENSOR_HISTORY_LEN ∧
    ∀ j, j < vs.length → vs.length ≤ j + SENSOR_HISTORY_LEN →
      some (load (push_all h vs).buffer (j % SENSOR_HISTORY_LEN)) = vs[j]? := by
  induction vs using List.reverseRecOn with
  | nil => simp [push_all, h0, c0]
  | append_singleton vs v ih =>
    obtain ⟨ihc, ihh, ihb⟩ := ih
    rw [push_all_append]
    simp only [SENSOR_HISTORY_LEN] at ihc ihh ihb ⊢
    refine ⟨?_, ?_, ?_⟩
    · simp only [history_push, SENSOR_HISTORY_LEN, ihc, List.length_append,
        List.length_singleton, Nat.min_def]
      split_ifs <;> omega
    · simp only [history_push, SENSOR_HISTORY_LEN, ihh, List.length_append,
        List.length_singleton]
      omega
    · intro j hj hle
      simp only [List.length_append, List.length_singleton] at hj hle
      simp only [history_push, SENSOR_HISTORY_LEN, load_store, ihh]
      by_cases hjn : j = vs.length
      · subst hjn
        have hlt : vs.length % 60 < 60 := Nat.mod_lt _ (by decide)
        simp [hlt]
      · have hj2 : j < vs.length := by omega
        have hne : ¬ (j % 60 = vs.length % 60 ∧ j % 60 < 60) := by
          intro hh
          omega
        rw [if_neg hne, ihb j hj2 (by omega), List.getElem?_append_left hj2]

/-- The index formula of `draw_sparkline`, in natural numbers, when the fill
level does not exceed the capacity. -/
theorem sparkline_index_eq (h : SensorHistory_t) (i : Nat)
    (hc : h.count ≤ SENSOR_HISTORY_LEN) :
    sparkline_index h i = (h.head + i + SENSOR_HISTORY_LEN - h.count) % SENSOR_HISTORY_LEN := by
  unfold sparkline_index
  simp only [SENSOR_HISTORY_LEN] at hc ⊢
  rw [Int.tmod_eq_emod (by omega) (by omega)]
  omega

/-- C5: after pushing `v_0 .. v_{n-1}` with `history_push` into an empty history
(`head = 0`, `count = 0`), `count = min n 60`, `head = n mod 60`, and for every
`i < count` the buffer element at index `(head - count + i + 60) mod 60` (the
index `draw_sparkline` computes) is `v_{n-count+i}`: reading by that formula yields
the most recent `min n 60` samples, oldest to newest. -/
theorem history_push_ring (h : SensorHistory_t) (h0 : h.head = 0) (c0 : h.count = 0)
    (vs : List ℚ) :
    (push_all h vs).count = min vs.length 60 ∧
    (push_all h vs).head = vs.length % 60 ∧
    ∀ i, i < (push_all h vs).count →
      some (load (push_all h vs).buffer (sparkline_index (push_all h vs) i))
        = vs[vs.length - (push_all h vs).count + i]? := by
  obtain ⟨hc, hh, hb⟩ := push_all_layout h h0 c0 vs
  refine ⟨hc, hh, ?_⟩
  intro i hi
  have hcle : (push_all h vs).count ≤ SENSOR_HISTORY_LEN := by
    rw [hc]
    exact Nat.min_le_right _ _
  rw [sparkline_index_eq _ _ hcle]
  have hcn : (push_all h vs).count ≤ vs.length := by
    rw [hc]
    exact Nat.min_le_left _ _
  have key := hb (vs.length - (push_all h vs).count + i) (by omega) (by
    simp only [SENSOR_HISTORY_LEN] at hcle ⊢
    rw [hc] at hi ⊢
    simp only [SENSOR_HISTORY_LEN, Nat.min_def] at hi ⊢
    split_ifs at hi ⊢ <;> omega)
  rw [← key]
  congr 2
  rw [hh]
  simp only [SENSOR_HISTORY_LEN] at hcle ⊢
  omega

/-- Instance of C5 at 61 pushes, of the samples `0, 1, .., 60`, into the zeroed history. -/
theorem history_push_ring_witness :
    (default : SensorHistory_t).head = 0 ∧ (default : SensorHistory_t).count = 0 ∧
    ((push_all default ramp61).count = min ramp61.length 60 ∧
     (push_all default ramp61).head = ramp61.length % 60 ∧
     ∀ i, i < (push_all default ramp61).count →
      some (load (push_all default ramp61).buffer (sparkline_index (push_all default ramp61) i))
        = ramp61[ramp61.length - (push_all default ramp61).count + i]?) :=
  ⟨rfl, rfl, history_push_ring default rfl rfl ramp61⟩

/-! ## The scans of `add_alarm` -/

theorem first_index_eq_none (p : Nat → Bool) (n lo : Nat) :
    first_index p lo n = none ↔ ∀ i, lo ≤ i → i < lo + n → p i = false := by
  induction n generalizing lo with
  | zero =>
    constructor
    · intro _ i h1 h2
      omega
    · intro _
      rfl
  | succ n ih =>
    by_cases hp : p lo = true
    · have hf : first_index p lo (n + 1) = some lo := by
        rw [first_index, if_pos hp]
      rw [hf]
      constructor
      · intro h
        cases h
      · intro h
        have := h lo (Nat.le_refl _) (by omega)
        rw [hp] at this
        cases this
    · have hf : first_index p lo (n + 1) = first_index p (lo + 1) n := by
        rw [first_index, if_neg hp]
      rw [hf, ih]
      constructor
      · intro h i h1 h2
        by_cases hi : i = lo
        · subst hi
          simpa using hp
        · exact h i (by omega) (by omega)
      · intro h i h1 h2
        exact h i (by omega) (by omega)

theorem first_index_eq_some (p : Nat → Bool) (n lo k : Nat) :
    first_index p lo n = some k ↔
      lo ≤ k ∧ k < lo + n ∧ p k = true ∧ ∀ i, lo ≤ i → i < k → p i = false := by
  induction n generalizing lo with
  | zero =>
    constructor
    · intro h
      cases h
    · rintro ⟨h1, h2, -⟩
      omega
  | succ n ih =>
    by_cases hp : p lo = true
    · have hf : first_index p lo (n + 1) = some lo := by
        rw [first_index, if_pos hp]
      rw [hf]
      constructor
      · intro h
        have hk : lo = k := Option.some.inj h
        subst hk
        exact ⟨Nat.le_refl _, by omega, hp, fun i h1 h2 => by omega⟩
      · rintro ⟨h1, -, -, h4⟩
        by_cases hne : lo = k
        · rw [hne]
        · have := h4 lo (Nat.le_refl _) (by omega)
          rw [hp] at this
          cases this
    · have hf : first_index p lo (n + 1) = first_index p (lo + 1) n := by
        rw [first_index, if_neg hp]
      rw [hf, ih]
      constructor
      · rintro ⟨h1, h2, h3, h4⟩
        refine ⟨by omega, by omega, h3, ?_⟩
        intro i hi1 hi2
        by_cases hi : i = lo
        · subst hi
          simpa using hp
        · exact h4 i (by omega) hi2
      · rintro ⟨h1, h2, h3, h4⟩
        have hne : lo ≠ k := by
          intro hlk
          rw [hlk] at hp
          exact hp h3
        exact ⟨by omega, by omega, h3, fun i hi1 hi2 => h4 i (by omega) hi2⟩

/-- The "overwrite oldest" loop returns the lowest index of minimal trigger time. -/
theorem oldest_scan_spec (t : Nat → Nat) (n i slot : Nat) (hslot : slot < i)
    (hmin : ∀ j, j < i → t slot ≤ t j) (hfirst : ∀ j, j < slot → t slot < t j) :
    oldest_scan t i n slot (t slot) < i + n ∧
    (∀ j, j < i + n → t (oldest_scan t i n slot (t slot)) ≤ t j) ∧
    (∀ j, j < oldest_scan t i n slot (t slot) → t (oldest_scan t i n slot (t slot)) < t j) := by
  induction n generalizing i slot with
  | zero => exact ⟨by simpa [oldest_scan] using hslot, by simpa [oldest_scan] using hmin,
      by simpa [oldest_scan] using hfirst⟩
  | succ n ih =>
    unfold oldest_scan
    by_cases hlt : t i < t slot
    · simp only [hlt, if_true]
      have h := ih (i + 1) i (Nat.lt_succ_self i)
        (fun j hj => by
          by_cases hji : j = i
          · subst hji
            exact Nat.le_refl _
          · exact Nat.le_trans (Nat.le_of_lt hlt) (hmin j (by omega)))
        (fun j hj => Nat.lt_of_lt_of_le hlt (hmin j hj))
      refine ⟨by have := h.1; omega, fun j hj => h.2.1 j (by omega), h.2.2⟩
    · simp only [hlt, if_false]
      have h := ih (i + 1) slot (by omega)
        (fun j hj => by
          by_cases hji : j = i
          · subst hji
            omega
          · exact hmin j (by omega))
        hfirst
      refine ⟨by have := h.1; omega, fun j hj => h.2.1 j (by omega), h.2.2⟩

theorem load_active_lt (alarms : Fin MAX_DYNAMIC_ALARMS → DynamicAlarm_t) (i : Nat)
    (h : (load alarms i).active = true) : i < MAX_DYNAMIC_ALARMS := by
  by_contra hn
  unfold load at h
  rw [dif_neg hn] at h
  cases h

/-- The duplicate check of `add_alarm` succeeds exactly when a slot below the
high-water mark is active and holds the message. -/
theorem alarm_already_active_iff (sim : SimState_t) (message : String) :
    alarm_already_active sim message = true ↔
      ∃ i : Fin MAX_DYNAMIC_ALARMS, i.val < sim.dynamicAlarmCount ∧
        (sim.dynamicAlarms i).active = true ∧ (sim.dynamicAlarms i).message = message := by
  unfold alarm_already_active
  rw [Option.isSome_iff_ne_none, Ne, first_index_eq_none]
  constructor
  · intro h
    by_contra hne
    apply h
    intro i _ hi
    by_contra hp
    have hp2 : ((load sim.dynamicAlarms i).active
        && (load sim.dynamicAlarms i).message == message) = true := by simpa using hp
    rw [Bool.and_eq_true] at hp2
    have hlt := load_active_lt _ _ hp2.1
    apply hne
    rw [load_of_lt _ hlt] at hp2
    exact ⟨⟨i, hlt⟩, by simpa using hi, hp2.1, by simpa using hp2.2⟩
  · rintro ⟨i, hi, hact, hmsg⟩ h
    have := h i.val (Nat.zero_le _) (by omega)
    rw [load_fin, hact, hmsg] at this
    simp at this

/-- The eviction scan of `add_alarm` over the whole pool. -/
theorem oldest_scan_pool (t : Nat → Nat) :
    oldest_scan t 1 (MAX_DYNAMIC_ALARMS - 1) 0 (t 0) < MAX_DYNAMIC_ALARMS ∧
    (∀ j, j < MAX_DYNAMIC_ALARMS →
      t (oldest_scan t 1 (MAX_DYNAMIC_ALARMS - 1) 0 (t 0)) ≤ t j) ∧
    (∀ j, j < oldest_scan t 1 (MAX_DYNAMIC_ALARMS - 1) 0 (t 0) →
      t (oldest_scan t 1 (MAX_DYNAMIC_ALARMS - 1) 0 (t 0)) < t j) :=
  oldest_scan_spec t (MAX_DYNAMIC_ALARMS - 1) 1 0 (by decide)
    (fun j hj => by
      have : j = 0 := by omega
      subst this
      exact Nat.le_refl _)
    (fun j hj => by omega)

theorem alarm_slot_lt (sim : SimState_t) : alarm_slot sim < MAX_DYNAMIC_ALARMS := by
  unfold alarm_slot
  split
  · next i hi =>
    rw [first_index_eq_some] at hi
    omega
  · exact (oldest_scan_pool (fun i => (load sim.dynamicAlarms i).triggerTime)).1

/-- With a free slot, `add_alarm` takes the lowest-index inactive slot. -/
theorem alarm_slot_free (sim : SimState_t)
    (h : ∃ i : Fin MAX_DYNAMIC_ALARMS, (sim.dynamicAlarms i).active = false) :
    ∃ k : Fin MAX_DYNAMIC_ALARMS, alarm_slot sim = k.val ∧
      (sim.dynamicAlarms k).active = false ∧
      ∀ j : Fin MAX_DYNAMIC_ALARMS, j < k → (sim.dynamicAlarms j).active = true := by
  unfold alarm_slot
  split
  · next i hi =>
    rw [first_index_eq_some] at hi
    obtain ⟨-, hlt, hp, hmin⟩ := hi
    refine ⟨⟨i, by omega⟩, rfl, ?_, ?_⟩
    · rw [load_of_lt _ (by omega : i < MAX_DYNAMIC_ALARMS)] at hp
      simpa using hp
    · intro j hj
      have := hmin j.val (Nat.zero_le _) hj
      rw [load_fin] at this
      simpa using this
  · next hnone =>
    rw [first_index_eq_none] at hnone
    obtain ⟨i, hi⟩ := h
    have := hnone i.val (Nat.zero_le _) (by have := i.isLt; omega)
    rw [load_fin, hi] at this
    cases this

/-- With every slot active, `add_alarm` takes the slot of minimal `triggerTime`,
the lowest-index one among equals. -/
theorem alarm_slot_full (sim : SimState_t)
    (h : ∀ i : Fin MAX_DYNAMIC_ALARMS, (sim.dynamicAlarms i).active = true) :
    ∃ k : Fin MAX_DYNAMIC_ALARMS, alarm_slot sim = k.val ∧
      (∀ j : Fin MAX_DYNAMIC_ALARMS,
        (sim.dynamicAlarms k).triggerTime ≤ (sim.dynamicAlarms j).triggerTime) ∧
      ∀ j : Fin MAX_DYNAMIC_ALARMS, j < k →
        (sim.dynamicAlarms k).triggerTime < (sim.dynamicAlarms j).triggerTime := by
  have hnone : first_index (fun i => !(load sim.dynamicAlarms i).active) 0 MAX_DYNAMIC_ALARMS
      = none := by
    rw [first_index_eq_none]
    intro i _ hi
    rw [load_of_lt _ (by omega : i < MAX_DYNAMIC_ALARMS), h]
    rfl
  have hlt := alarm_slot_lt sim
  unfold alarm_slot at hlt ⊢
  rw [hnone] at hlt ⊢
  simp only at hlt ⊢
  obtain ⟨-, hmin, hfirst⟩ :=
    oldest_scan_pool (fun i => (load sim.dynamicAlarms i).triggerTime)
  refine ⟨⟨_, hlt⟩, rfl, ?_, ?_⟩
  · intro j
    have := hmin j.val j.isLt
    simp only [load_fin, load_of_lt _ hlt] at this
    exact this
  · intro j hj
    have := hfirst j.val hj
    simp only [load_fin, load_of_lt _ hlt] at this
    exact this

/-! ## `add_alarm` -/

theorem strncpy_of_length_le (src : String) (n : Nat) (h : src.length ≤ n) :
    strncpy src n = src := by
  unfold strncpy
  rw [List.take_of_length_le h]

theorem add_alarm_of_active (now : Nat) (sim : SimState_t) (severity message : String)
    (h : alarm_already_active sim message = true) :
    add_alarm now sim severity message = sim := by
  unfold add_alarm
  rw [if_pos h]

theorem add_alarm_of_not_active (now : Nat) (sim : SimState_t) (severity message : String)
    (h : alarm_already_active sim message = false) :
    add_alarm now sim severity message =
      { sim with
        dynamicAlarms := store sim.dynamicAlarms (alarm_slot sim)
          { severity := strncpy severity (SEVERITY_SIZE - 1)
            message := strncpy message (MESSAGE_SIZE - 1)
            time := format_time now
            acked := false
            active := true
            triggerTime := now }
        dynamicAlarmCount :=
          if alarm_slot sim ≥ sim.dynamicAlarmCount then (alarm_slot sim + 1) % 256
          else sim.dynamicAlarmCount } := by
  unfold add_alarm
  rw [if_neg (by simp [h])]

/-- No active slot holds the message: the duplicate check of `add_alarm` fails. -/
theorem not_active_of_no_message (sim : SimState_t) (message : String)
    (h : ∀ i : Fin MAX_DYNAMIC_ALARMS, (sim.dynamicAlarms i).active = true →
      (sim.dynamicAlarms i).message ≠ message) :
    alarm_already_active sim message = false := by
  by_contra hc
  rw [Bool.not_eq_false, alarm_already_active_iff] at hc
  obtain ⟨i, -, hact, hmsg⟩ := hc
  exact h i hact hmsg

theorem live_count_eq_card (sim : SimState_t) :
    live_count sim =
      (Finset.univ.filter
        (fun i : Fin MAX_DYNAMIC_ALARMS => (sim.dynamicAlarms i).active = true)).card := by
  have h : (Finset.univ : Finset (Fin MAX_DYNAMIC_ALARMS)).val
      = ↑(List.finRange MAX_DYNAMIC_ALARMS) := rfl
  unfold live_count
  rw [Finset.card_def, Finset.filter_val, h, Multiset.filter_coe, Multiset.coe_card]
  congr 1
  simp

theorem live_count_congr (sim sim' : SimState_t)
    (h : ∀ j : Fin MAX_DYNAMIC_ALARMS,
      (sim'.dynamicAlarms j).active = (sim.dynamicAlarms j).active) :
    live_count sim' = live_count sim := by
  simp only [live_count_eq_card, h]

theorem live_count_full (sim : SimState_t)
    (h : ∀ i : Fin MAX_DYNAMIC_ALARMS, (sim.dynamicAlarms i).active = true) :
    live_count sim = MAX_DYNAMIC_ALARMS := by
  simp [live_count_eq_card, h]

theorem live_count_activate (sim sim' : SimState_t) (k : Fin MAX_DYNAMIC_ALARMS)
    (hk : (sim.dynamicAlarms k).active = false) (hk' : (sim'.dynamicAlarms k).active = true)
    (hother : ∀ j : Fin MAX_DYNAMIC_ALARMS, j ≠ k →
      (sim'.dynamicAlarms j).active = (sim.dynamicAlarms j).active) :
    live_count sim' = live_count sim + 1 := by
  rw [live_count_eq_card, live_count_eq_card]
  have hset : Finset.univ.filter
      (fun i : Fin MAX_DYNAMIC_ALARMS => (sim'.dynamicAlarms i).active = true)
      = insert k (Finset.univ.filter
        (fun i : Fin MAX_DYNAMIC_ALARMS => (sim.dynamicAlarms i).active = true)) := by
    ext j
    simp only [Finset.mem_filter, Finset.mem_univ, true_and, Finset.mem_insert]
    by_cases hjk : j = k
    · subst hjk
      simp [hk']
    · simp [hjk, hother j hjk]
  rw [hset, Finset.card_insert_of_not_mem]
  simp [hk]

/-- C9: when at least one slot is inactive and no active alarm carries `message`
(at most 79 characters, `severity` at most 7), `add_alarm` turns the
lowest-index inactive slot `k` into the alarm with that severity and message,
`active = true`, `acked = false`, `triggerTime = now` (and `time` the formatted
clock), leaves every other slot unchanged and raises the live count by 1. -/
theorem add_alarm_free_slot (now : Nat) (sim : SimState_t) (severity message : String)
    (hfree : ∃ i : Fin MAX_DYNAMIC_ALARMS, (sim.dynamicAlarms i).active = false)
    (hno : ∀ i : Fin MAX_DYNAMIC_ALARMS, (sim.dynamicAlarms i).active = true →
      (sim.dynamicAlarms i).message ≠ message)
    (hm : message.length ≤ 79) (hs : severity.length ≤ 7) :
    ∃ k : Fin MAX_DYNAMIC_ALARMS,
      (sim.dynamicAlarms k).active = false ∧
      (∀ j : Fin MAX_DYNAMIC_ALARMS, j < k → (sim.dynamicAlarms j).active = true) ∧
      (add_alarm now sim severity message).dynamicAlarms k =
        { severity := severity, message := message, time := format_time now,
          acked := false, active := true, triggerTime := now } ∧
      (∀ j : Fin MAX_DYNAMIC_ALARMS, j ≠ k →
        (add_alarm now sim severity message).dynamicAlarms j = sim.dynamicAlarms j) ∧
      live_count (add_alarm now sim severity message) = live_count sim + 1 := by
  obtain ⟨k, hslot, hk, hmin⟩ := alarm_slot_free sim hfree
  have hnew := add_alarm_of_not_active now sim severity message
    (not_active_of_no_message sim message hno)
  rw [hslot, strncpy_of_length_le severity (SEVERITY_SIZE - 1) hs,
    strncpy_of_length_le message (MESSAGE_SIZE - 1) hm] at hnew
  have hat : (add_alarm now sim severity message).dynamicAlarms k =
      { severity := severity, message := message, time := format_time now,
        acked := false, active := true, triggerTime := now } := by
    rw [hnew]
    simp [store_apply]
  have hother : ∀ j : Fin MAX_DYNAMIC_ALARMS, j ≠ k →
      (add_alarm now sim severity message).dynamicAlarms j = sim.dynamicAlarms j := by
    intro j hj
    rw [hnew]
    have : j.val ≠ k.val := fun h => hj (Fin.ext h)
    simp [store_apply, this]
  refine ⟨k, hk, hmin, hat, hother, ?_⟩
  apply live_count_activate sim _ k hk
  · rw [hat]
  · intro j hj
    rw [hother j hj]

/-- Instance of C9: a third alarm raised in a pool whose slots 0 and 1 are taken. -/
theorem add_alarm_free_slot_witness :
    ∃ k : Fin MAX_DYNAMIC_ALARMS,
      (pool_two.dynamicAlarms k).active = false ∧
      (∀ j : Fin MAX_DYNAMIC_ALARMS, j < k → (pool_two.dynamicAlarms j).active = true) ∧
      (add_alarm 3000 pool_two "error" "Coolant level critically low").dynamicAlarms k =
        { severity := "error", message := "Coolant level critically low",
          time := format_time 3000, acked := false, active := true, triggerTime := 3000 } ∧
      (∀ j : Fin MAX_DYNAMIC_ALARMS, j ≠ k →
        (add_alarm 3000 pool_two "error" "Coolant level critically low").dynamicAlarms j
          = pool_two.dynamicAlarms j) ∧
      live_count (add_alarm 3000 pool_two "error" "Coolant level critically low")
        = live_count pool_two + 1 :=
  add_alarm_free_slot 3000 pool_two "error" "Coolant level critically low"
    ⟨2, by decide⟩ (by decide) (by decide) (by decide)

/-- C8: when all 8 slots are active and no active alarm carries `message`,
`add_alarm` writes the new alarm into the slot `k` of minimal `triggerTime` (the
lowest-index one among equals), whatever that slot held; the other 7 slots are
unchanged and the live count stays 8. -/
theorem add_alarm_evicts_oldest (now : Nat) (sim : SimState_t) (severity message : String)
    (hfull : ∀ i : Fin MAX_DYNAMIC_ALARMS, (sim.dynamicAlarms i).active = true)
    (hno : ∀ i : Fin MAX_DYNAMIC_ALARMS, (sim.dynamicAlarms i).active = true →
      (sim.dynamicAlarms i).message ≠ message) :
    ∃ k : Fin MAX_DYNAMIC_ALARMS,
      (∀ j : Fin MAX_DYNAMIC_ALARMS,
        (sim.dynamicAlarms k).triggerTime ≤ (sim.dynamicAlarms j).triggerTime) ∧
      (∀ j : Fin MAX_DYNAMIC_ALARMS, j < k →
        (sim.dynamicAlarms k).triggerTime < (sim.dynamicAlarms j).triggerTime) ∧
      (add_alarm now sim severity message).dynamicAlarms k =
        { severity := strncpy severity 7, message := strncpy message 79,
          time := format_time now, acked := false, active := true, triggerTime := now } ∧
      (∀ j : Fin MAX_DYNAMIC_ALARMS, j ≠ k →
        (add_alarm now sim severity message).dynamicAlarms j = sim.dynamicAlarms j) ∧
      live_count (add_alarm now sim severity message) = 8 := by
  obtain ⟨k, hslot, hmin, hfirst⟩ := alarm_slot_full sim hfull
  have hnew := add_alarm_of_not_active now sim severity message
    (not_active_of_no_message sim message hno)
  rw [hslot] at hnew
  have hat : (add_alarm now sim severity message).dynamicAlarms k =
      { severity := strncpy severity 7, message := strncpy message 79,
        time := format_time now, acked := false, active := true, triggerTime := now } := by
    rw [hnew]
    simp [store_apply, SEVERITY_SIZE, MESSAGE_SIZE]
  have hother : ∀ j : Fin MAX_DYNAMIC_ALARMS, j ≠ k →
      (add_alarm now sim severity message).dynamicAlarms j = sim.dynamicAlarms j := by
    intro j hj
    rw [hnew]
    have : j.val ≠ k.val := fun h => hj (Fin.ext h)
    simp [store_apply, this]
  refine ⟨k, hmin, hfirst, hat, hother, ?_⟩
  apply live_count_full
  intro j
  by_cases hj : j = k
  · rw [hj, hat]
  · rw [hother j hj, hfull j]

/-- Instance of C8: a ninth alarm raised in a full pool. -/
theorem add_alarm_evicts_oldest_witness :
    ∃ k : Fin MAX_DYNAMIC_ALARMS,
      (∀ j : Fin MAX_DYNAMIC_ALARMS,
        (pool_full.dynamicAlarms k).triggerTime ≤ (pool_full.dynamicAlarms j).triggerTime) ∧
      (∀ j : Fin MAX_DYNAMIC_ALARMS, j < k →
        (pool_full.dynamicAlarms k).triggerTime < (pool_full.dynamicAlarms j).triggerTime) ∧
      (add_alarm 9000 pool_full "warning" "Ninth").dynamicAlarms k =
        { severity := strncpy "warning" 7, message := strncpy "Ninth" 79,
          time := format_time 9000, acked := false, active := true, triggerTime := 9000 } ∧
      (∀ j : Fin MAX_DYNAMIC_ALARMS, j ≠ k →
        (add_alarm 9000 pool_full "warning" "Ninth").dynamicAlarms j
          = pool_full.dynamicAlarms j) ∧
      live_count (add_alarm 9000 pool_full "warning" "Ninth") = 8 :=
  add_alarm_evicts_oldest 9000 pool_full "warning" "Ninth" (by decide) (by decide)

theorem filter_length_eq_card (p : Fin MAX_DYNAMIC_ALARMS → Bool) :
    ((List.finRange MAX_DYNAMIC_ALARMS).filter p).length =
      (Finset.univ.filter (fun i : Fin MAX_DYNAMIC_ALARMS => p i = true)).card := by
  have h : (Finset.univ : Finset (Fin MAX_DYNAMIC_ALARMS)).val
      = ↑(List.finRange MAX_DYNAMIC_ALARMS) := rfl
  rw [Finset.card_def, Finset.filter_val, h, Multiset.filter_coe, Multiset.coe_card]
  congr 1
  simp

theorem count_message_eq_card (sim : SimState_t) (m : String) :
    count_message sim m =
      (Finset.univ.filter (fun i : Fin MAX_DYNAMIC_ALARMS =>
        (sim.dynamicAlarms i).active = true ∧ (sim.dynamicAlarms i).message = m)).card := by
  unfold count_message
  rw [filter_length_eq_card]
  congr 1
  ext i
  simp

/-- After `add_alarm` with a message that fits the slot, the duplicate check finds it. -/
theorem active_after_add_alarm (now : Nat) (sim : SimState_t) (severity message : String)
    (hm : message.length ≤ 79) :
    alarm_already_active (add_alarm now sim severity message) message = true := by
  cases hact : alarm_already_active sim message with
  | true => rw [add_alarm_of_active now sim severity message hact, hact]
  | false =>
    rw [add_alarm_of_not_active now sim severity message hact, alarm_already_active_iff]
    have hlt := alarm_slot_lt sim
    refine ⟨⟨alarm_slot sim, hlt⟩, ?_, ?_, ?_⟩
    · simp only [MAX_DYNAMIC_ALARMS] at hlt
      show alarm_slot sim < if alarm_slot sim ≥ sim.dynamicAlarmCount
        then (alarm_slot sim + 1) % 256 else sim.dynamicAlarmCount
      split_ifs <;> omega
    · simp [store_apply]
    · simp only [store_apply, if_true]
      exact strncpy_of_length_le message (MESSAGE_SIZE - 1) hm

/-- C6, amended: for a message of at most 79 characters, a second `add_alarm` with
the same message leaves the whole profile state unchanged, whatever the state
and the severities; and when the slots that are active with that message lie
below `dynamicAlarmCount` and are at most one (as in every reachable state),
exactly one active alarm carries the message afterwards. -/
theorem add_alarm_twice (now now' : Nat) (sim : SimState_t)
    (severity severity' message : String) (hm : message.length ≤ 79) :
    add_alarm now' (add_alarm now sim severity message) severity' message
      = add_alarm now sim severity message ∧
    ((∀ i : Fin MAX_DYNAMIC_ALARMS, (sim.dynamicAlarms i).active = true →
        (sim.dynamicAlarms i).message = message → i.val < sim.dynamicAlarmCount) →
      count_message sim message ≤ 1 →
      count_message (add_alarm now' (add_alarm now sim severity message) severity' message)
        message = 1) := by
  have hidem := add_alarm_of_active now' _ severity' message
    (active_after_add_alarm now sim severity message hm)
  refine ⟨hidem, ?_⟩
  intro hbelow hone
  rw [hidem]
  cases hact : alarm_already_active sim message with
  | true =>
    rw [add_alarm_of_active now sim severity message hact]
    rw [alarm_already_active_iff] at hact
    obtain ⟨i, -, hi1, hi2⟩ := hact
    have hpos : 0 < count_message sim message := by
      rw [count_message_eq_card, Finset.card_pos]
      exact ⟨i, by simp [hi1, hi2]⟩
    omega
  | false =>
    have hnone : ∀ i : Fin MAX_DYNAMIC_ALARMS,
        ¬ ((sim.dynamicAlarms i).active = true ∧ (sim.dynamicAlarms i).message = message) := by
      rintro i ⟨hi1, hi2⟩
      have : alarm_already_active sim message = true := by
        rw [alarm_already_active_iff]
        exact ⟨i, hbelow i hi1 hi2, hi1, hi2⟩
      rw [hact] at this
      cases this
    rw [add_alarm_of_not_active now sim severity message hact, count_message_eq_card,
      Finset.card_eq_one]
    refine ⟨⟨alarm_slot sim, alarm_slot_lt sim⟩, ?_⟩
    ext j
    simp only [Finset.mem_filter, Finset.mem_univ, true_and, Finset.mem_singleton, store_apply]
    by_cases hj : j.val = alarm_slot sim
    · have hje : j = ⟨alarm_slot sim, alarm_slot_lt sim⟩ := Fin.ext hj
      simp only [hj, if_true, hje, iff_true, true_and]
      exact strncpy_of_length_le message (MESSAGE_SIZE - 1) hm
    · have hje : j ≠ ⟨alarm_slot sim, alarm_slot_lt sim⟩ := fun h => hj (congrArg Fin.val h)
      simp only [hj, if_false, hje, iff_false]
      exact hnone j

/-- Instance of the amended C6: a warning raised twice in a pool of two alarms. -/
theorem add_alarm_twice_witness :
    "Spindle load above 80% threshold".length ≤ 79 ∧
    (∀ i : Fin MAX_DYNAMIC_ALARMS, (pool_two.dynamicAlarms i).active = true →
      (pool_two.dynamicAlarms i).message = "Spindle load above 80% threshold" →
      i.val < pool_two.dynamicAlarmCount) ∧
    count_message pool_two "Spindle load above 80% threshold" ≤ 1 ∧
    add_alarm 4000 (add_alarm 3000 pool_two "warning" "Spindle load above 80% threshold")
        "error" "Spindle load above 80% threshold"
      = add_alarm 3000 pool_two "warning" "Spindle load above 80% threshold" ∧
    count_message
      (add_alarm 4000 (add_alarm 3000 pool_two "warning" "Spindle load above 80% threshold")
        "error" "Spindle load above 80% threshold")
      "Spindle load above 80% threshold" = 1 :=
  ⟨by decide, by decide, by decide,
    (add_alarm_twice 3000 4000 pool_two "warning" "error" "Spindle load above 80% threshold"
      (by decide)).1,
    (add_alarm_twice 3000 4000 pool_two "warning" "error" "Spindle load above 80% threshold"
      (by decide)).2 (by decide) (by decide)⟩

/-- C6 fails as stated.  (i) With a message of 80 characters raised twice in the
zeroed state, the second call adds a second alarm (the state changes, two slots
are active with the same stored text) and no active alarm carries the message.
(ii) With the message active in a slot at or above `dynamicAlarmCount`, and
(iii) with the message already active in two slots, two active alarms carry it
after the two calls. -/
theorem add_alarm_twice_counterexample :
    ((add_alarm 2000 (add_alarm 1000 default "info" long_message) "info"
        long_message).dynamicAlarmCount = 2 ∧
      (add_alarm 1000 default "info" long_message).dynamicAlarmCount = 1 ∧
      live_count (add_alarm 2000 (add_alarm 1000 default "info" long_message) "info"
        long_message) = 2 ∧
      ((add_alarm 2000 (add_alarm 1000 default "info" long_message) "info"
          long_message).dynamicAlarms 0).message
        = ((add_alarm 2000 (add_alarm 1000 default "info" long_message) "info"
          long_message).dynamicAlarms 1).message ∧
      count_message (add_alarm 2000 (add_alarm 1000 default "info" long_message) "info"
        long_message) long_message = 0) ∧
    count_message (add_alarm 2000 (add_alarm 1000 pool_hidden "info" "X") "info" "X") "X" = 2 ∧
    count_message (add_alarm 2000 (add_alarm 1000 pool_dup "info" "X") "info" "X") "X" = 2 := by
  decide

/-! ## What the physics models do to the simulation state -/

theorem update_cnc_raises (now : Nat) (r : Draws) (demo : DemoProfile_t) (sim : SimState_t) :
    Raises (fun sev msg => (sev, msg) ∈ physics_alarms 0) sim (update_cnc now r demo sim).2 := by
  unfold update_cnc
  split <;> simp only [] <;> (try split_ifs) <;>
    repeat (first
      | exact Raises.refl _
      | apply Raises.targets
      | (apply Raises.alarm _ _ _ (by decide)))

theorem update_chiller_raises (now : Nat) (r : Draws) (demo : DemoProfile_t)
    (sim : SimState_t) :
    Raises (fun sev msg => (sev, msg) ∈ physics_alarms 1) sim
      (update_chiller now r demo sim).2 := by
  unfold update_chiller
  split <;> simp only [] <;> (try split_ifs) <;>
    repeat (first
      | exact Raises.refl _
      | apply Raises.targets
      | (apply Raises.alarm _ _ _ (by decide)))

theorem update_compressor_raises (now : Nat) (r : Draws) (demo : DemoProfile_t)
    (sim : SimState_t) :
    Raises (fun sev msg => (sev, msg) ∈ physics_alarms 2) sim
      (update_compressor now r demo sim).2 := by
  unfold update_compressor
  split <;> simp only [] <;> (try split_ifs) <;>
    repeat (first
      | exact Raises.refl _
      | apply Raises.targets
      | (apply Raises.alarm _ _ _ (by decide)))

theorem update_plc_raises (now : Nat) (r : Draws) (demo : DemoProfile_t) (sim : SimState_t) :
    Raises (fun sev msg => (sev, msg) ∈ physics_alarms 3) sim (update_plc now r demo sim).2 := by
  unfold update_plc
  split <;> simp only [] <;> (try split_ifs) <;>
    repeat (first
      | exact Raises.refl _
      | apply Raises.targets
      | (apply Raises.alarm _ _ _ (by decide)))

theorem run_physics_raises (demoIdx now : Nat) (r : Draws) (demo : DemoProfile_t)
    (sim : SimState_t) :
    Raises (fun sev msg => (sev, msg) ∈ physics_alarms demoIdx) sim
      (run_physics demoIdx now r demo sim).2 := by
  unfold run_physics
  split
  · exact update_cnc_raises now r demo sim
  · exact update_chiller_raises now r demo sim
  · exact update_compressor_raises now r demo sim
  · exact update_plc_raises now r demo sim
  · exact Raises.refl _

/-! ## `clear_fault_alarms` -/

theorem clear_fault_step_apply (alarms : Fin MAX_DYNAMIC_ALARMS → DynamicAlarm_t) (i : Nat)
    (j : Fin MAX_DYNAMIC_ALARMS) :
    clear_fault_step alarms i j =
      if ((load alarms i).active && !(load alarms i).acked
          && (load alarms i).severity == "error") = true
      then store alarms i { load alarms i with active := false } j else alarms j := by
  unfold clear_fault_step
  split_ifs <;> rfl

/-- The loop of `clear_fault_alarms` over the first `n` slots, slot by slot. -/
theorem clear_fold_apply (n : Nat) (alarms : Fin MAX_DYNAMIC_ALARMS → DynamicAlarm_t) :
    ∀ j : Fin MAX_DYNAMIC_ALARMS,
    ((List.range n).foldl clear_fault_step alarms) j =
      if j.val < n ∧
          ((alarms j).active && !(alarms j).acked && (alarms j).severity == "error") = true
      then { alarms j with active := false } else alarms j := by
  induction n with
  | zero =>
    intro j
    simp
  | succ n ih =>
    intro j
    rw [List.range_succ, List.foldl_append, List.foldl_cons, List.foldl_nil,
      clear_fault_step_apply]
    by_cases hn : n < MAX_DYNAMIC_ALARMS
    · have hload : load ((List.range n).foldl clear_fault_step alarms) n = alarms ⟨n, hn⟩ := by
        rw [load_of_lt _ hn, ih ⟨n, hn⟩, if_neg]
        rintro ⟨h, -⟩
        exact Nat.lt_irrefl _ h
      simp only [hload]
      by_cases hjn : j.val = n
      · have hj : j = ⟨n, hn⟩ := Fin.ext hjn
        subst hj
        by_cases hc : ((alarms ⟨n, hn⟩).active && !(alarms ⟨n, hn⟩).acked
            && (alarms ⟨n, hn⟩).severity == "error") = true
        · rw [if_pos hc, if_pos ⟨Nat.lt_succ_self n, hc⟩, store_apply, if_pos rfl]
        · rw [if_neg hc, if_neg (fun h => hc h.2), ih, if_neg (fun h => hc h.2)]
      · have hiff : j.val < n + 1 ↔ j.val < n := by omega
        simp only [hiff]
        by_cases hc : ((alarms ⟨n, hn⟩).active && !(alarms ⟨n, hn⟩).acked
            && (alarms ⟨n, hn⟩).severity == "error") = true
        · rw [if_pos hc, store_apply, if_neg hjn, ih]
        · rw [if_neg hc, ih]
    · have hload : load ((List.range n).foldl clear_fault_step alarms) n = default := by
        unfold load
        rw [dif_neg hn]
      have hd : ((default : DynamicAlarm_t).active && !(default : DynamicAlarm_t).acked
          && (default : DynamicAlarm_t).severity == "error") = false := rfl
      have hiff : j.val < n + 1 ↔ j.val < n := by
        have := j.isLt
        omega
      simp only [hload, hd, hiff]
      rw [if_neg (by simp), ih]

/-- What `clear_fault_alarms` does to slot `j`. -/
theorem clear_fault_alarms_apply (sim : SimState_t) (j : Fin MAX_DYNAMIC_ALARMS) :
    (clear_fault_alarms sim).dynamicAlarms j =
      if j.val < sim.dynamicAlarmCount ∧
          ((sim.dynamicAlarms j).active && !(sim.dynamicAlarms j).acked
            && (sim.dynamicAlarms j).severity == "error") = true
      then { sim.dynamicAlarms j with active := false } else sim.dynamicAlarms j :=
  clear_fold_apply sim.dynamicAlarmCount sim.dynamicAlarms j

/-! ## Preservation of the alarm-pool invariant -/

theorem pool_inv_of_eq {s s' : SimState_t} (ha : s'.dynamicAlarms = s.dynamicAlarms)
    (hc : s'.dynamicAlarmCount = s.dynamicAlarmCount) (h : PoolInv s) : PoolInv s' := by
  unfold PoolInv at h ⊢
  rw [ha, hc]
  exact h

theorem add_alarm_pool_inv (now : Nat) (s : SimState_t) (severity message : String)
    (hm : message.length ≤ 79) (h : PoolInv s) : PoolInv (add_alarm now s severity message) := by
  cases hact : alarm_already_active s message with
  | true =>
    rw [add_alarm_of_active now s severity message hact]
    exact h
  | false =>
    rw [add_alarm_of_not_active now s severity message hact]
    obtain ⟨hbelow, huniq⟩ := h
    have hlt := alarm_slot_lt s
    have hnone : ∀ i : Fin MAX_DYNAMIC_ALARMS, (s.dynamicAlarms i).active = true →
        (s.dynamicAlarms i).message ≠ message := by
      intro i hi1 hi2
      have : alarm_already_active s message = true := by
        rw [alarm_already_active_iff]
        exact ⟨i, hbelow i hi1, hi1, hi2⟩
      rw [hact] at this
      cases this
    have hstored : strncpy message (MESSAGE_SIZE - 1) = message :=
      strncpy_of_length_le message (MESSAGE_SIZE - 1) hm
    constructor
    · intro i hi
      simp only [store_apply] at hi
      show i.val < if alarm_slot s ≥ s.dynamicAlarmCount then (alarm_slot s + 1) % 256
        else s.dynamicAlarmCount
      simp only [MAX_DYNAMIC_ALARMS] at hlt
      by_cases hik : i.val = alarm_slot s
      · split_ifs <;> omega
      · rw [if_neg hik] at hi
        have := hbelow i hi
        split_ifs <;> omega
    · intro i j hi hj hij
      simp only [store_apply] at hi hj hij
      by_cases hik : i.val = alarm_slot s <;> by_cases hjk : j.val = alarm_slot s
      · exact Fin.ext (hik.trans hjk.symm)
      · rw [if_neg hjk] at hj
        rw [if_pos hik, if_neg hjk, hstored] at hij
        exact absurd hij.symm (hnone j hj)
      · rw [if_neg hik] at hi
        rw [if_neg hik, if_pos hjk, hstored] at hij
        exact absurd hij (hnone i hi)
      · rw [if_neg hik] at hi
        rw [if_neg hjk] at hj
        rw [if_neg hik, if_neg hjk] at hij
        exact huniq i j hi hj hij

/-- Clearing only switches `active` off: the fields of a slot other than `active`
are kept, and an active slot was active. -/
theorem clear_fault_alarms_slot (s : SimState_t) (j : Fin MAX_DYNAMIC_ALARMS) :
    ((clear_fault_alarms s).dynamicAlarms j).message = (s.dynamicAlarms j).message ∧
    (((clear_fault_alarms s).dynamicAlarms j).active = true →
      (s.dynamicAlarms j).active = true) := by
  rw [clear_fault_alarms_apply]
  split_ifs
  · exact ⟨rfl, fun h => by cases h⟩
  · exact ⟨rfl, fun h => h⟩

theorem clear_fault_alarms_pool_inv (s : SimState_t) (h : PoolInv s) :
    PoolInv (clear_fault_alarms s) := by
  obtain ⟨hbelow, huniq⟩ := h
  constructor
  · intro i hi
    exact hbelow i ((clear_fault_alarms_slot s i).2 hi)
  · intro i j hi hj hij
    rw [(clear_fault_alarms_slot s i).1, (clear_fault_alarms_slot s j).1] at hij
    exact huniq i j ((clear_fault_alarms_slot s i).2 hi) ((clear_fault_alarms_slot s j).2 hj) hij

theorem transition_state_pool_inv (now : Nat) (s : SimState_t) (h : PoolInv s) :
    PoolInv (transition_state now s) := by
  unfold transition_state
  simp only []
  split_ifs
  · apply clear_fault_alarms_pool_inv
    exact pool_inv_of_eq rfl rfl h
  · exact pool_inv_of_eq rfl rfl h
  · apply clear_fault_alarms_pool_inv
    exact pool_inv_of_eq rfl rfl h
  · exact pool_inv_of_eq rfl rfl h

theorem clock_step_pool_inv (now : Nat) (s : SimState_t) (h : PoolInv s) :
    PoolInv (clock_step now s) := by
  unfold clock_step
  simp only []
  split_ifs
  · apply transition_state_pool_inv
    exact pool_inv_of_eq rfl rfl h
  · exact pool_inv_of_eq rfl rfl h

theorem raises_pool_inv {M : String → String → Prop}
    (hM : ∀ sev msg, M sev msg → msg.length ≤ 79) {s s' : SimState_t}
    (hr : Raises M s s') (h : PoolInv s) : PoolInv s' := by
  induction hr with
  | refl => exact h
  | targets t0 t1 t2 health failure _ ih => exact pool_inv_of_eq rfl rfl ih
  | alarm now sev msg hmsg _ ih => exact add_alarm_pool_inv now _ sev msg (hM sev msg hmsg) ih

/-- Every message a physics model passes to `add_alarm` fits the slot, and so
does every severity. -/
theorem physics_alarms_fit (demoIdx : Nat) (sev msg : String)
    (h : (sev, msg) ∈ physics_alarms demoIdx) : sev.length ≤ 7 ∧ msg.length ≤ 79 := by
  have h4 : ∀ k : Fin 4, ∀ p ∈ physics_alarms k.val, p.1.length ≤ 7 ∧ p.2.length ≤ 79 := by
    decide
  by_cases hk : demoIdx < 4
  · exact h4 ⟨demoIdx, hk⟩ (sev, msg) h
  · have : physics_alarms demoIdx = [] := by
      unfold physics_alarms
      split <;> first | omega | rfl
    rw [this] at h
    cases h

/-! ## The scenario clock through one tick -/

theorem add_alarm_clock (now : Nat) (s : SimState_t) (severity message : String) :
    clock_of (add_alarm now s severity message) = clock_of s := by
  unfold add_alarm
  split_ifs <;> rfl

theorem raises_clock {M : String → String → Prop} {s s' : SimState_t} (hr : Raises M s s') :
    clock_of s' = clock_of s := by
  induction hr with
  | refl => rfl
  | targets t0 t1 t2 health failure _ ih => exact ih
  | alarm now sev msg _ _ ih => exact (add_alarm_clock now _ sev msg).trans ih

theorem smooth_sensor_clock (ds : DemoProfile_t × SimState_t) (i : Fin 3) :
    clock_of (smooth_sensor ds i).2 = clock_of ds.2 := rfl

theorem smooth_sensor_pool (ds : DemoProfile_t × SimState_t) (i : Fin 3) :
    (smooth_sensor ds i).2.dynamicAlarms = ds.2.dynamicAlarms ∧
    (smooth_sensor ds i).2.dynamicAlarmCount = ds.2.dynamicAlarmCount := ⟨rfl, rfl⟩

theorem ota_step_clock (now : Nat) (r : Draws) (s : SimState_t) :
    clock_of (ota_step now r s) = clock_of s := by
  unfold ota_step
  simp only []
  split_ifs
  · exact add_alarm_clock _ _ _ _
  · rfl
  · rfl

theorem ota_step_pool_inv (now : Nat) (r : Draws) (s : SimState_t) (h : PoolInv s) :
    PoolInv (ota_step now r s) := by
  unfold ota_step
  simp only []
  split_ifs
  · exact add_alarm_pool_inv _ _ _ _ (by decide) (pool_inv_of_eq rfl rfl h)
  · exact pool_inv_of_eq rfl rfl h
  · exact h

/-- The simulation state `sim_update` leaves in the active demo: the clock step,
the physics model, the three history pushes, the OTA block. -/
theorem update_profile_sim (demoIdx now : Nat) (r : Draws) (demo : DemoProfile_t)
    (sim : SimState_t) :
    (update_profile demoIdx now r demo sim).2 =
      ota_step now r
        (smooth_sensor (smooth_sensor (smooth_sensor
          (run_physics demoIdx now r demo (clock_step now sim)) 0) 1) 2).2 := rfl

/-- A tick leaves in the active demo the clock that `clock_step` computes. -/
theorem update_profile_clock (demoIdx now : Nat) (r : Draws) (demo : DemoProfile_t)
    (sim : SimState_t) :
    clock_of (update_profile demoIdx now r demo sim).2 = clock_of (clock_step now sim) := by
  rw [update_profile_sim, ota_step_clock, smooth_sensor_clock, smooth_sensor_clock,
    smooth_sensor_clock]
  exact raises_clock (run_physics_raises demoIdx now r demo (clock_step now sim))

theorem update_profile_pool_inv (demoIdx now : Nat) (r : Draws) (demo : DemoProfile_t)
    (sim : SimState_t) (h : PoolInv sim) :
    PoolInv (update_profile demoIdx now r demo sim).2 := by
  rw [update_profile_sim]
  apply ota_step_pool_inv
  apply pool_inv_of_eq (smooth_sensor_pool _ 2).1 (smooth_sensor_pool _ 2).2
  apply pool_inv_of_eq (smooth_sensor_pool _ 1).1 (smooth_sensor_pool _ 1).2
  apply pool_inv_of_eq (smooth_sensor_pool _ 0).1 (smooth_sensor_pool _ 0).2
  exact raises_pool_inv (fun sev msg hm => (physics_alarms_fit demoIdx sev msg hm).2)
    (run_physics_raises demoIdx now r demo (clock_step now sim))
    (clock_step_pool_inv now sim h)

theorem get_state_duration_pos (state : ScenarioState_t) : 0 < get_state_duration state := by
  cases state <;> decide

/-- The scenario clock after `clock_step`, from the clock before. -/
theorem clock_step_clock (now : Nat) (s : SimState_t) :
    clock_of (clock_step now s) =
      if (s.stateTimer + 1) % ULONG_MOD < get_state_duration s.scenarioState then
        (s.scenarioState, (s.stateTimer + 1) % ULONG_MOD, s.cycleCount)
      else
        (next_state s.scenarioState, 0,
          if next_state s.scenarioState = SCENARIO_NORMAL then (s.cycleCount + 1) % 256
          else s.cycleCount) := by
  unfold clock_step transition_state
  simp only []
  by_cases h : (s.stateTimer + 1) % ULONG_MOD < get_state_duration s.scenarioState
  · rw [if_neg (by omega), if_pos h]
    rfl
  · rw [if_pos (by omega), if_neg h]
    cases hs : s.scenarioState <;> simp [next_state, clock_of, clear_fault_alarms]

theorem clock_step_timer_inv (now : Nat) (s : SimState_t) : TimerInv (clock_step now s) := by
  have h := clock_step_clock now s
  unfold clock_of at h
  unfold TimerInv
  by_cases hlt : (s.stateTimer + 1) % ULONG_MOD < get_state_duration s.scenarioState
  · rw [if_pos hlt] at h
    have h1 := congrArg Prod.fst h
    have h2 := congrArg (fun p => p.2.1) h
    simp only at h1 h2
    rw [h1, h2]
    exact hlt
  · rw [if_neg hlt] at h
    have h2 := congrArg (fun p => p.2.1) h
    simp only at h2
    rw [h2]
    exact get_state_duration_pos _

theorem update_profile_timer_inv (demoIdx now : Nat) (r : Draws) (demo : DemoProfile_t)
    (sim : SimState_t) : TimerInv (update_profile demoIdx now r demo sim).2 := by
  have h := update_profile_clock demoIdx now r demo sim
  have ht := clock_step_timer_inv now sim
  unfold clock_of at h
  unfold TimerInv at ht ⊢
  have h1 := congrArg Prod.fst h
  have h2 := congrArg (fun p => p.2.1) h
  simp only at h1 h2
  rw [h1, h2]
  exact ht

/-! ## The invariant of the reachable states -/

theorem sim_update_initialized (now : Nat) (r : Draws) (w : World) :
    (sim_update now r w).engine.initialized = w.engine.initialized ∧
    (sim_update now r w).currentDemoIndex = w.currentDemoIndex := by
  unfold sim_update
  split_ifs <;> exact ⟨rfl, rfl⟩

/-- The simulation states after a tick: the active demo is updated, every other
demo is kept. -/
theorem sim_update_demos (now : Nat) (r : Draws) (w : World)
    (hinit : w.engine.initialized = true) (d : Fin DEMO_COUNT) :
    (sim_update now r w).engine.demos d =
      if d = w.currentDemoIndex then
        (update_profile w.currentDemoIndex.val now r (getDemo w)
          (w.engine.demos w.currentDemoIndex)).2
      else w.engine.demos d := by
  unfold sim_update
  rw [if_neg (by simp [hinit])]
  by_cases hd : d = w.currentDemoIndex
  · subst hd
    simp
  · simp [hd]

theorem pool_inv_of_slots {s s' : SimState_t}
    (hslot : ∀ j : Fin MAX_DYNAMIC_ALARMS,
      (s'.dynamicAlarms j).active = (s.dynamicAlarms j).active ∧
      (s'.dynamicAlarms j).message = (s.dynamicAlarms j).message)
    (hc : s'.dynamicAlarmCount = s.dynamicAlarmCount) (h : PoolInv s) : PoolInv s' := by
  obtain ⟨hbelow, huniq⟩ := h
  constructor
  · intro i hi
    rw [hc]
    rw [(hslot i).1] at hi
    exact hbelow i hi
  · intro i j hi hj hij
    rw [(hslot i).1] at hi
    rw [(hslot j).1] at hj
    rw [(hslot i).2, (hslot j).2] at hij
    exact huniq i j hi hj hij

theorem sim_ack_alarm_inv (index : Nat) (w : World) (h : WorldInv w) :
    WorldInv (sim_ack_alarm index w) := by
  unfold sim_ack_alarm
  split
  · exact h
  · next slot _ =>
    obtain ⟨hinit, hd⟩ := h
    refine ⟨hinit, ?_⟩
    intro d
    by_cases hdc : d = w.currentDemoIndex
    · rw [hdc]
      simp only [Function.update_same]
      refine ⟨@pool_inv_of_slots (w.engine.demos w.currentDemoIndex) _ ?_ rfl (hd _).1,
        (hd w.currentDemoIndex).2⟩
      intro j
      simp only [store_apply]
      by_cases hj : j.val = slot
      · rw [if_pos hj, ← hj, load_fin]
        exact ⟨rfl, rfl⟩
      · rw [if_neg hj]
        exact ⟨rfl, rfl⟩
    · simp only [Function.update_noteq hdc]
      exact hd d

theorem sim_start_ota_inv (now : Nat) (w : World) (h : WorldInv w) :
    WorldInv (sim_start_ota now w) := by
  unfold sim_start_ota
  obtain ⟨hinit, hd⟩ := h
  rw [if_neg (by simp [hinit])]
  refine ⟨hinit, ?_⟩
  intro d
  by_cases hdc : d = w.currentDemoIndex
  · rw [hdc]
    simp only [Function.update_same]
    constructor
    · exact add_alarm_pool_inv _ _ _ _ (by decide)
        (@pool_inv_of_eq (w.engine.demos w.currentDemoIndex) _ rfl rfl (hd _).1)
    · have hc := add_alarm_clock now
        { w.engine.demos w.currentDemoIndex with otaInProgress := true, otaProgress := 0 }
        "info" "Firmware update started - downloading v1.1.0"
      unfold clock_of at hc
      have h1 := congrArg Prod.fst hc
      have h2 := congrArg (fun p => p.2.1) hc
      simp only at h1 h2
      unfold TimerInv
      rw [h1, h2]
      exact (hd w.currentDemoIndex).2
  · simp only [Function.update_noteq hdc]
    exact hd d

theorem sim_update_inv (now : Nat) (r : Draws) (w : World) (h : WorldInv w) :
    WorldInv (sim_update now r w) := by
  obtain ⟨hinit, hd⟩ := h
  refine ⟨by rw [(sim_update_initialized now r w).1, hinit], ?_⟩
  intro d
  rw [sim_update_demos now r w hinit d]
  split_ifs
  · exact ⟨update_profile_pool_inv _ _ _ _ _ (hd _).1, update_profile_timer_inv _ _ _ _ _⟩
  · exact hd d

theorem sim_init_inv (now : Nat) (w : World) : WorldInv (sim_init now w) := by
  refine ⟨rfl, ?_⟩
  intro d
  refine ⟨⟨?_, ?_⟩, ?_⟩
  · intro i hi
    cases hi
  · intro i j hi
    cases hi
  · show 0 < 45
    decide

/-- Every reachable state of the globals satisfies the invariant. -/
theorem reachable_inv {w : World} (h : Reachable w) : WorldInv w := by
  induction h with
  | init now => exact sim_init_inv now boot
  | update now r _ ih => exact sim_update_inv now r _ ih
  | ack index _ ih => exact sim_ack_alarm_inv index _ ih
  | ota now _ ih => exact sim_start_ota_inv now _ ih
  | set index _ ih =>
    unfold setDemo
    split_ifs
    · exact ih
    · exact ih
  | next _ ih => exact ih

theorem reachable_run_updates {w : World} (h : Reachable w) (ticks : List (Nat × Draws)) :
    Reachable (run_updates w ticks) := by
  induction ticks generalizing w with
  | nil => exact h
  | cons t ts ih => exact ih (Reachable.update t.1 t.2 h)

/-! ## The counting loop of `sim_get_alarm_count` -/

/-- The loop over the first `n` slots counts the active slots below `n`. -/
theorem alarm_count_fold (alarms : Fin MAX_DYNAMIC_ALARMS → DynamicAlarm_t) (n : Nat) :
    (List.range n).foldl
        (fun count i => if (load alarms i).active then (count + 1) % 256 else count) 0
      = (Finset.univ.filter (fun i : Fin MAX_DYNAMIC_ALARMS =>
          i.val < n ∧ (alarms i).active = true)).card := by
  induction n with
  | zero => simp
  | succ n ih =>
    rw [List.range_succ, List.foldl_append, List.foldl_cons, List.foldl_nil, ih]
    by_cases hact : (load alarms n).active = true
    · have hn := load_active_lt alarms n hact
      rw [load_of_lt _ hn] at hact
      rw [if_pos (by rw [load_of_lt _ hn]; exact hact)]
      have hset : Finset.univ.filter (fun i : Fin MAX_DYNAMIC_ALARMS =>
            i.val < n + 1 ∧ (alarms i).active = true)
          = insert ⟨n, hn⟩ (Finset.univ.filter (fun i : Fin MAX_DYNAMIC_ALARMS =>
            i.val < n ∧ (alarms i).active = true)) := by
        ext j
        simp only [Finset.mem_filter, Finset.mem_univ, true_and, Finset.mem_insert]
        constructor
        · rintro ⟨h1, h2⟩
          by_cases hj : j.val = n
          · exact Or.inl (Fin.ext hj)
          · exact Or.inr ⟨by omega, h2⟩
        · rintro (h | ⟨h1, h2⟩)
          · rw [h]
            exact ⟨Nat.lt_succ_self n, hact⟩
          · exact ⟨by omega, h2⟩
      have hnot : (⟨n, hn⟩ : Fin MAX_DYNAMIC_ALARMS) ∉ Finset.univ.filter
          (fun i : Fin MAX_DYNAMIC_ALARMS => i.val < n ∧ (alarms i).active = true) := by
        simp
      rw [hset, Finset.card_insert_of_not_mem hnot]
      have hle := Finset.card_le_univ (insert (⟨n, hn⟩ : Fin MAX_DYNAMIC_ALARMS)
        (Finset.univ.filter
          (fun i : Fin MAX_DYNAMIC_ALARMS => i.val < n ∧ (alarms i).active = true)))
      rw [Finset.card_insert_of_not_mem hnot, Fintype.card_fin] at hle
      have h8 : MAX_DYNAMIC_ALARMS = 8 := rfl
      omega
    · rw [if_neg hact]
      congr 1
      ext j
      simp only [Finset.mem_filter, Finset.mem_univ, true_and]
      constructor
      · rintro ⟨h1, h2⟩
        exact ⟨by omega, h2⟩
      · rintro ⟨h1, h2⟩
        refine ⟨?_, h2⟩
        by_contra hlt
        have hj : j.val = n := by omega
        apply hact
        rw [← hj, load_fin]
        exact h2

/-- In a state whose active slots lie below the high-water mark, the counting
loop returns the live count. -/
theorem alarm_count_eq_live (sim : SimState_t)
    (hbelow : ∀ i : Fin MAX_DYNAMIC_ALARMS, (sim.dynamicAlarms i).active = true →
      i.val < sim.dynamicAlarmCount) :
    alarm_count sim = live_count sim := by
  unfold alarm_count
  rw [alarm_count_fold, live_count_eq_card]
  congr 1
  ext j
  simp only [Finset.mem_filter, Finset.mem_univ, true_and]
  exact ⟨fun h => h.2, fun h => ⟨hbelow j h, h⟩⟩

/-! ## Claims on the reachable states -/

theorem reachable_world_ota : Reachable world_ota :=
  reachable_run_updates (Reachable.ota 0 (Reachable.init 0)) _

theorem reachable_world_fault : Reachable world_fault :=
  reachable_run_updates (Reachable.init 0) _

theorem progress_of_unit (sim : SimState_t) (h : TimerInv sim) :
    0 ≤ progress_of sim ∧ progress_of sim < 1 := by
  have hpos : (0 : ℚ) < (get_state_duration sim.scenarioState : ℚ) := by
    exact_mod_cast get_state_duration_pos _
  unfold progress_of
  refine ⟨div_nonneg (Nat.cast_nonneg _) (le_of_lt hpos), ?_⟩
  rw [div_lt_one hpos]
  exact_mod_cast h

/-- C3: in every state reachable from `sim_init` by `sim_update`, `sim_ack_alarm`,
`sim_start_ota` and profile switches, every profile has
`stateTimer < dwell(scenarioState)`, so its progress value
`stateTimer / dwell(scenarioState)` lies in `[0, 1)`; and so does the progress
value the physics model computes in the next tick, after the clock step. -/
theorem reachable_timer_below_dwell (w : World) (h : Reachable w) (d : Fin DEMO_COUNT) :
    (w.engine.demos d).stateTimer < get_state_duration (w.engine.demos d).scenarioState ∧
    (0 ≤ progress_of (w.engine.demos d) ∧ progress_of (w.engine.demos d) < 1) ∧
    ∀ now : Nat, 0 ≤ progress_of (clock_step now (w.engine.demos d)) ∧
      progress_of (clock_step now (w.engine.demos d)) < 1 :=
  ⟨((reachable_inv h).2 d).2, progress_of_unit _ ((reachable_inv h).2 d).2,
    fun now => progress_of_unit _ (clock_step_timer_inv now _)⟩

/-- Instance of C3: the CNC profile 85 ticks after `sim_init`. -/
theorem reachable_timer_below_dwell_witness :
    Reachable world_fault ∧
    (world_fault.engine.demos 0).stateTimer
      < get_state_duration (world_fault.engine.demos 0).scenarioState ∧
    (0 ≤ progress_of (world_fault.engine.demos 0) ∧
      progress_of (world_fault.engine.demos 0) < 1) ∧
    ∀ now : Nat, 0 ≤ progress_of (clock_step now (world_fault.engine.demos 0)) ∧
      progress_of (clock_step now (world_fault.engine.demos 0)) < 1 :=
  ⟨reachable_world_fault, reachable_timer_below_dwell world_fault reachable_world_fault 0⟩

/-- C7: in every state reachable from `sim_init` by `sim_update`, `sim_ack_alarm`,
`sim_start_ota` and profile switches, no profile has two distinct active alarm
slots holding the same message text. -/
theorem reachable_no_duplicate_message (w : World) (h : Reachable w) (d : Fin DEMO_COUNT)
    (i j : Fin MAX_DYNAMIC_ALARMS) (hij : i ≠ j)
    (hi : ((w.engine.demos d).dynamicAlarms i).active = true)
    (hj : ((w.engine.demos d).dynamicAlarms j).active = true) :
    ((w.engine.demos d).dynamicAlarms i).message
      ≠ ((w.engine.demos d).dynamicAlarms j).message :=
  fun hmsg => hij (((reachable_inv h).2 d).1.2 i j hi hj hmsg)

/-- C10: in every reachable engine state, `sim_get_alarm_count` returns the number
of slots, among all 8 of the active profile, whose `active` flag is true. -/
theorem reachable_alarm_count (w : World) (h : Reachable w) :
    sim_get_alarm_count w = live_count (w.engine.demos w.currentDemoIndex) := by
  unfold sim_get_alarm_count
  rw [if_neg (by simp [(reachable_inv h).1])]
  exact alarm_count_eq_live _ ((reachable_inv h).2 _).1.1

/-- Instance of C10: the engine after a completed OTA run. -/
theorem reachable_alarm_count_witness :
    Reachable world_ota ∧
    sim_get_alarm_count world_ota = live_count (world_ota.engine.demos world_ota.currentDemoIndex) :=
  ⟨reachable_world_ota, reachable_alarm_count world_ota reachable_world_ota⟩

/-- Instance of C7: the two OTA alarms of the engine after a completed OTA run. -/
theorem reachable_no_duplicate_message_witness :
    Reachable world_ota ∧ (0 : Fin MAX_DYNAMIC_ALARMS) ≠ 1 ∧
    ((world_ota.engine.demos 0).dynamicAlarms 0).active = true ∧
    ((world_ota.engine.demos 0).dynamicAlarms 1).active = true ∧
    ((world_ota.engine.demos 0).dynamicAlarms 0).message
      ≠ ((world_ota.engine.demos 0).dynamicAlarms 1).message :=
  have h0 : ((world_ota.engine.demos 0).dynamicAlarms 0).active = true := by decide!
  have h1 : ((world_ota.engine.demos 0).dynamicAlarms 1).active = true := by decide!
  ⟨reachable_world_ota, by decide, h0, h1,
    reachable_no_duplicate_message world_ota reachable_world_ota 0 0 1 (by decide) h0 h1⟩

/-- The effect of `transition_state` on the alarm pool of a state whose active,
unacknowledged slots of severity "error" all lie below `dynamicAlarmCount`. -/
theorem transition_state_pool (now : Nat) (sim : SimState_t)
    (hbelow : ∀ i : Fin MAX_DYNAMIC_ALARMS, (sim.dynamicAlarms i).active = true →
      (sim.dynamicAlarms i).acked = false → (sim.dynamicAlarms i).severity = "error" →
      i.val < sim.dynamicAlarmCount) :
    (transition_state now sim).scenarioState = next_state sim.scenarioState ∧
    (next_state sim.scenarioState = SCENARIO_RECOVERY →
      ∀ j : Fin MAX_DYNAMIC_ALARMS,
        (((transition_state now sim).dynamicAlarms j).active = true ↔
          ((sim.dynamicAlarms j).active = true ∧
            ¬ ((sim.dynamicAlarms j).acked = false ∧ (sim.dynamicAlarms j).severity = "error"))) ∧
        ((transition_state now sim).dynamicAlarms j).severity = (sim.dynamicAlarms j).severity ∧
        ((transition_state now sim).dynamicAlarms j).message = (sim.dynamicAlarms j).message ∧
        ((transition_state now sim).dynamicAlarms j).time = (sim.dynamicAlarms j).time ∧
        ((transition_state now sim).dynamicAlarms j).acked = (sim.dynamicAlarms j).acked ∧
        ((transition_state now sim).dynamicAlarms j).triggerTime
          = (sim.dynamicAlarms j).triggerTime) ∧
    (next_state sim.scenarioState ≠ SCENARIO_RECOVERY →
      (transition_state now sim).dynamicAlarms = sim.dynamicAlarms) := by
  by_cases hrec : next_state sim.scenarioState = SCENARIO_RECOVERY
  · have hts : transition_state now sim = clear_fault_alarms
        { sim with scenarioState := SCENARIO_RECOVERY, stateEnteredAt := now, stateTimer := 0 } := by
      unfold transition_state
      simp [hrec]
    refine ⟨by rw [hts, hrec]; rfl, ?_, fun hne => absurd hrec hne⟩
    intro _ j
    rw [hts, clear_fault_alarms_apply]
    simp only []
    by_cases hc : ((sim.dynamicAlarms j).active && !(sim.dynamicAlarms j).acked
        && (sim.dynamicAlarms j).severity == "error") = true
    · have hc2 := hc
      simp only [Bool.and_eq_true, Bool.not_eq_true', beq_iff_eq] at hc2
      have hlt : j.val < sim.dynamicAlarmCount := hbelow j hc2.1.1 hc2.1.2 hc2.2
      rw [if_pos ⟨hlt, hc⟩]
      refine ⟨?_, rfl, rfl, rfl, rfl, rfl⟩
      constructor
      · intro hf
        cases hf
      · rintro ⟨-, hn⟩
        exact absurd ⟨hc2.1.2, hc2.2⟩ hn
    · rw [if_neg (fun hh => hc hh.2)]
      refine ⟨?_, rfl, rfl, rfl, rfl, rfl⟩
      simp only [Bool.and_eq_true, Bool.not_eq_true', beq_iff_eq] at hc
      constructor
      · intro ha
        exact ⟨ha, fun hn => hc ⟨⟨ha, hn.1⟩, hn.2⟩⟩
      · rintro ⟨ha, -⟩
        exact ha
  · have hts : (transition_state now sim).dynamicAlarms = sim.dynamicAlarms ∧
        (transition_state now sim).scenarioState = next_state sim.scenarioState := by
      unfold transition_state
      simp only [hrec, if_false]
      split_ifs <;> exact ⟨rfl, rfl⟩
    exact ⟨hts.2, fun h => absurd h hrec, fun _ => hts.1⟩

/-- C4: in every state reachable from `sim_init`, for every profile and whatever
the value of `stateTimer` (`sim_update` calls `transition_state` after the
increment of the timer), `transition_state` changes the alarm pool only when the
state entered is Recovery. In that case a slot is active afterwards iff it was
active before and is not both unacknowledged and of severity "error", and no
field of a slot other than `active` changes; when the state entered is Normal,
Degradation, Warning or Fault, every slot is left as it was. -/
theorem transition_state_alarms (w : World) (h : Reachable w) (d : Fin DEMO_COUNT)
    (now timer : Nat) :
    (transition_state now { w.engine.demos d with stateTimer := timer }).scenarioState
      = next_state (w.engine.demos d).scenarioState ∧
    (next_state (w.engine.demos d).scenarioState = SCENARIO_RECOVERY →
      ∀ j : Fin MAX_DYNAMIC_ALARMS,
        (((transition_state now
            { w.engine.demos d with stateTimer := timer }).dynamicAlarms j).active = true ↔
          (((w.engine.demos d).dynamicAlarms j).active = true ∧
            ¬ (((w.engine.demos d).dynamicAlarms j).acked = false ∧
              ((w.engine.demos d).dynamicAlarms j).severity = "error"))) ∧
        ((transition_state now
            { w.engine.demos d with stateTimer := timer }).dynamicAlarms j).severity
          = ((w.engine.demos d).dynamicAlarms j).severity ∧
        ((transition_state now
            { w.engine.demos d with stateTimer := timer }).dynamicAlarms j).message
          = ((w.engine.demos d).dynamicAlarms j).message ∧
        ((transition_state now
            { w.engine.demos d with stateTimer := timer }).dynamicAlarms j).time
          = ((w.engine.demos d).dynamicAlarms j).time ∧
        ((transition_state now
            { w.engine.demos d with stateTimer := timer }).dynamicAlarms j).acked
          = ((w.engine.demos d).dynamicAlarms j).acked ∧
        ((transition_state now
            { w.engine.demos d with stateTimer := timer }).dynamicAlarms j).triggerTime
          = ((w.engine.demos d).dynamicAlarms j).triggerTime) ∧
    (next_state (w.engine.demos d).scenarioState ≠ SCENARIO_RECOVERY →
      (transition_state now { w.engine.demos d with stateTimer := timer }).dynamicAlarms
        = (w.engine.demos d).dynamicAlarms) :=
  transition_state_pool now { w.engine.demos d with stateTimer := timer }
    (fun i hi _ _ => ((reachable_inv h).2 d).1.1 i hi)

/-- Instance of C4: the CNC profile in Fault, 85 ticks after `sim_init`, entering
Recovery: the two unacknowledged error alarms (slots 3 and 4) are cleared, the
three other alarms stay active. -/
theorem transition_state_alarms_witness :
    Reachable world_fault ∧
    next_state (world_fault.engine.demos 0).scenarioState = SCENARIO_RECOVERY ∧
    ((world_fault.engine.demos 0).dynamicAlarms 4).active = true ∧
    ∀ j : Fin MAX_DYNAMIC_ALARMS,
      (((transition_state 86000
          { world_fault.engine.demos 0 with stateTimer := 12 }).dynamicAlarms j).active = true ↔
        (((world_fault.engine.demos 0).dynamicAlarms j).active = true ∧
          ¬ (((world_fault.engine.demos 0).dynamicAlarms j).acked = false ∧
            ((world_fault.engine.demos 0).dynamicAlarms j).severity = "error"))) ∧
      ((transition_state 86000
          { world_fault.engine.demos 0 with stateTimer := 12 }).dynamicAlarms j).severity
        = ((world_fault.engine.demos 0).dynamicAlarms j).severity ∧
      ((transition_state 86000
          { world_fault.engine.demos 0 with stateTimer := 12 }).dynamicAlarms j).message
        = ((world_fault.engine.demos 0).dynamicAlarms j).message ∧
      ((transition_state 86000
          { world_fault.engine.demos 0 with stateTimer := 12 }).dynamicAlarms j).time
        = ((world_fault.engine.demos 0).dynamicAlarms j).time ∧
      ((transition_state 86000
          { world_fault.engine.demos 0 with stateTimer := 12 }).dynamicAlarms j).acked
        = ((world_fault.engine.demos 0).dynamicAlarms j).acked ∧
      ((transition_state 86000
          { world_fault.engine.demos 0 with stateTimer := 12 }).dynamicAlarms j).triggerTime
        = ((world_fault.engine.demos 0).dynamicAlarms j).triggerTime := by
  have hrec : next_state (world_fault.engine.demos 0).scenarioState = SCENARIO_RECOVERY := by
    decide!
  have hact : ((world_fault.engine.demos 0).dynamicAlarms 4).active = true := by decide!
  exact ⟨reachable_world_fault, hrec, hact,
    (transition_state_alarms world_fault reachable_world_fault 0 86000 12).2.1 hrec⟩

/-! ## The scenario clock over ticks -/

theorem clock_step_eq_tick (now : Nat) (s : SimState_t) :
    clock_of (clock_step now s) = clock_tick (clock_of s) :=
  clock_step_clock now s

/-- One `sim_update` advances the scenario clock of the active profile by `clock_tick`. -/
theorem sim_update_clock_tick (now : Nat) (r : Draws) (w : World)
    (hinit : w.engine.initialized = true) :
    clock_of ((sim_update now r w).engine.demos w.currentDemoIndex)
      = clock_tick (clock_of (w.engine.demos w.currentDemoIndex)) := by
  rw [sim_update_demos now r w hinit, if_pos rfl, update_profile_clock, clock_step_eq_tick]

theorem run_updates_cons (w : World) (t : Nat × Draws) (ts : List (Nat × Draws)) :
    run_updates w (t :: ts) = run_updates (sim_update t.1 t.2 w) ts := rfl

theorem run_updates_index (w : World) (ticks : List (Nat × Draws)) :
    (run_updates w ticks).currentDemoIndex = w.currentDemoIndex := by
  induction ticks generalizing w with
  | nil => rfl
  | cons t ts ih => rw [run_updates_cons, ih, (sim_update_initialized t.1 t.2 w).2]

/-- A run of ticks advances the scenario clock of the active profile once per tick. -/
theorem run_updates_clock (w : World) (hinit : w.engine.initialized = true)
    (ticks : List (Nat × Draws)) :
    clock_of ((run_updates w ticks).engine.demos w.currentDemoIndex)
      = clock_tick^[ticks.length] (clock_of (w.engine.demos w.currentDemoIndex)) := by
  induction ticks generalizing w with
  | nil => rfl
  | cons t ts ih =>
    have hidx := (sim_update_initialized t.1 t.2 w).2
    have hini := (sim_update_initialized t.1 t.2 w).1
    have h := ih (sim_update t.1 t.2 w) (by rw [hini, hinit])
    rw [hidx] at h
    rw [run_updates_cons, h, sim_update_clock_tick t.1 t.2 w hinit, List.length_cons,
      Function.iterate_succ_apply]

theorem get_state_duration_le (state : ScenarioState_t) : get_state_duration state ≤ 45 := by
  cases state <;> decide

theorem clock_tick_stay (state : ScenarioState_t) (t c : Nat)
    (h : t + 1 < get_state_duration state) : clock_tick (state, t, c) = (state, t + 1, c) := by
  have hle := get_state_duration_le state
  have hm : (t + 1) % ULONG_MOD = t + 1 := Nat.mod_eq_of_lt (by simp only [ULONG_MOD]; omega)
  unfold clock_tick
  simp only [hm]
  rw [if_pos h]

theorem clock_tick_move (state : ScenarioState_t) (t c : Nat)
    (h : t + 1 = get_state_duration state) :
    clock_tick (state, t, c) =
      (next_state state, 0,
        if next_state state = SCENARIO_NORMAL then (c + 1) % 256 else c) := by
  have hle := get_state_duration_le state
  have hm : (t + 1) % ULONG_MOD = t + 1 := Nat.mod_eq_of_lt (by simp only [ULONG_MOD]; omega)
  unfold clock_tick
  simp only [hm]
  rw [if_neg (by omega)]

theorem scenario_at_normal (k : Nat) (h : k < 45) : scenario_at k = (SCENARIO_NORMAL, k) := by
  unfold scenario_at
  rw [if_pos h]

theorem scenario_at_degradation (k : Nat) (h1 : 45 ≤ k) (h2 : k < 65) :
    scenario_at k = (SCENARIO_DEGRADATION, k - 45) := by
  unfold scenario_at
  rw [if_neg (by omega), if_pos h2]

theorem scenario_at_warning (k : Nat) (h1 : 65 ≤ k) (h2 : k < 80) :
    scenario_at k = (SCENARIO_WARNING, k - 65) := by
  unfold scenario_at
  rw [if_neg (by omega), if_neg (by omega), if_pos h2]

theorem scenario_at_fault (k : Nat) (h1 : 80 ≤ k) (h2 : k < 92) :
    scenario_at k = (SCENARIO_FAULT, k - 80) := by
  unfold scenario_at
  rw [if_neg (by omega), if_neg (by omega), if_neg (by omega), if_pos h2]

theorem scenario_at_recovery (k : Nat) (h1 : 92 ≤ k) :
    scenario_at k = (SCENARIO_RECOVERY, k - 92) := by
  unfold scenario_at
  rw [if_neg (by omega), if_neg (by omega), if_neg (by omega), if_neg (by omega)]

/-- One clock tick inside the 102-tick cycle moves to the next position and keeps
the cycle counter. -/
theorem clock_tick_scenario_at (k c : Nat) (hk : k < 101) :
    clock_tick ((scenario_at k).1, (scenario_at k).2, c)
      = ((scenario_at (k + 1)).1, (scenario_at (k + 1)).2, c) := by
  by_cases h1 : k < 44
  · rw [scenario_at_normal k (by omega), scenario_at_normal (k + 1) (by omega)]
    exact clock_tick_stay _ _ _ (by show k + 1 < 45; omega)
  by_cases h1e : k = 44
  · subst h1e
    rfl
  by_cases h2 : k < 64
  · rw [scenario_at_degradation k (by omega) (by omega),
      scenario_at_degradation (k + 1) (by omega) (by omega)]
    rw [clock_tick_stay _ _ _ (by show k - 45 + 1 < 20; omega)]
    simp only [Prod.mk.injEq, true_and, and_true]
    omega
  by_cases h2e : k = 64
  · subst h2e
    rfl
  by_cases h3 : k < 79
  · rw [scenario_at_warning k (by omega) (by omega),
      scenario_at_warning (k + 1) (by omega) (by omega)]
    rw [clock_tick_stay _ _ _ (by show k - 65 + 1 < 15; omega)]
    simp only [Prod.mk.injEq, true_and, and_true]
    omega
  by_cases h3e : k = 79
  · subst h3e
    rfl
  by_cases h4 : k < 91
  · rw [scenario_at_fault k (by omega) (by omega),
      scenario_at_fault (k + 1) (by omega) (by omega)]
    rw [clock_tick_stay _ _ _ (by show k - 80 + 1 < 12; omega)]
    simp only [Prod.mk.injEq, true_and, and_true]
    omega
  by_cases h4e : k = 91
  · subst h4e
    rfl
  rw [scenario_at_recovery k (by omega), scenario_at_recovery (k + 1) (by omega)]
  rw [clock_tick_stay _ _ _ (by show k - 92 + 1 < 10; omega)]
  simp only [Prod.mk.injEq, true_and, and_true]
  omega

/-- The scenario clock `k ≤ 101` ticks after Normal with timer 0. -/
theorem clock_tick_iterate (c : Nat) (k : Nat) (hk : k ≤ 101) :
    clock_tick^[k] (SCENARIO_NORMAL, 0, c) = ((scenario_at k).1, (scenario_at k).2, c) := by
  induction k with
  | zero => rfl
  | succ k ih =>
    rw [Function.iterate_succ_apply', ih (by omega), clock_tick_scenario_at k c (by omega)]

/-- The 102nd tick re-enters Normal and increments the cycle counter. -/
theorem clock_tick_full_cycle (c : Nat) :
    clock_tick^[102] (SCENARIO_NORMAL, 0, c) = (SCENARIO_NORMAL, 0, (c + 1) % 256) := by
  rw [Function.iterate_succ_apply', clock_tick_iterate c 101 (Nat.le_refl _)]
  rfl

/-- C1: for every profile state in Normal with `stateTimer = 0` (the engine being
initialized) and every sequence of clock values and random draws, 102 calls of
`sim_update` with the same active profile end in Normal with `stateTimer = 0`
and `cycleCount` one more than at the start, modulo 256; after each of the
first 101 of those ticks `cycleCount` still has its starting value. -/
theorem full_cycle_increments_once (w : World) (ticks : List (Nat × Draws))
    (hinit : w.engine.initialized = true)
    (hs : (w.engine.demos w.currentDemoIndex).scenarioState = SCENARIO_NORMAL)
    (ht : (w.engine.demos w.currentDemoIndex).stateTimer = 0)
    (hlen : ticks.length = 102) :
    ((run_updates w ticks).engine.demos w.currentDemoIndex).scenarioState = SCENARIO_NORMAL ∧
    ((run_updates w ticks).engine.demos w.currentDemoIndex).stateTimer = 0 ∧
    ((run_updates w ticks).engine.demos w.currentDemoIndex).cycleCount
      = ((w.engine.demos w.currentDemoIndex).cycleCount + 1) % 256 ∧
    ∀ k, k ≤ 101 →
      ((run_updates w (ticks.take k)).engine.demos w.currentDemoIndex).cycleCount
        = (w.engine.demos w.currentDemoIndex).cycleCount := by
  have hstart : clock_of (w.engine.demos w.currentDemoIndex)
      = (SCENARIO_NORMAL, 0, (w.engine.demos w.currentDemoIndex).cycleCount) := by
    unfold clock_of
    rw [hs, ht]
  have hend := run_updates_clock w hinit ticks
  rw [hlen, hstart, clock_tick_full_cycle] at hend
  unfold clock_of at hend
  refine ⟨congrArg Prod.fst hend, congrArg (fun p => p.2.1) hend,
    congrArg (fun p => p.2.2) hend, ?_⟩
  intro k hk
  have hmid := run_updates_clock w hinit (ticks.take k)
  have hlk : (ticks.take k).length = k := by
    rw [List.length_take, hlen]
    omega
  rw [hlk, hstart, clock_tick_iterate _ k hk] at hmid
  unfold clock_of at hmid
  exact congrArg (fun p => p.2.2) hmid

/-- Instance of C1: 102 ticks right after `sim_init`. -/
theorem full_cycle_increments_once_witness :
    ((run_updates (sim_init 0 boot) (List.replicate 102 (1000, default))).engine.demos
        (sim_init 0 boot).currentDemoIndex).scenarioState = SCENARIO_NORMAL ∧
    ((run_updates (sim_init 0 boot) (List.replicate 102 (1000, default))).engine.demos
        (sim_init 0 boot).currentDemoIndex).stateTimer = 0 ∧
    ((run_updates (sim_init 0 boot) (List.replicate 102 (1000, default))).engine.demos
        (sim_init 0 boot).currentDemoIndex).cycleCount
      = (((sim_init 0 boot).engine.demos (sim_init 0 boot).currentDemoIndex).cycleCount + 1)
        % 256 ∧
    ∀ k, k ≤ 101 →
      ((run_updates (sim_init 0 boot)
          ((List.replicate 102 (1000, default)).take k)).engine.demos
          (sim_init 0 boot).currentDemoIndex).cycleCount
        = ((sim_init 0 boot).engine.demos (sim_init 0 boot).currentDemoIndex).cycleCount :=
  full_cycle_increments_once (sim_init 0 boot) (List.replicate 102 (1000, default))
    rfl rfl rfl (List.length_replicate 102 _)

/-- C2: one `sim_update` on the active profile, in state `s` with timer `t` and
the engine initialized, is the advance of the scenario clock.  With `t + 1` the
incremented `unsigned long` timer (`t + 1` itself unless `t = 2^32 - 1`): if
`t + 1 < dwell(s)` the state stays `s`, `stateTimer` becomes `t + 1` and
`cycleCount` is unchanged; otherwise the state becomes the successor of `s`,
`stateTimer` becomes 0 and `cycleCount` is incremented (`uint8_t`) iff the new
state is Normal.  The dwell durations are 45, 20, 15, 12, 10 and the successors
run Normal, Degradation, Warning, Fault, Recovery, Normal. -/
theorem sim_update_scenario_clock (now : Nat) (r : Draws) (w : World)
    (hinit : w.engine.initialized = true) :
    (get_state_duration SCENARIO_NORMAL = 45 ∧ get_state_duration SCENARIO_DEGRADATION = 20 ∧
      get_state_duration SCENARIO_WARNING = 15 ∧ get_state_duration SCENARIO_FAULT = 12 ∧
      get_state_duration SCENARIO_RECOVERY = 10) ∧
    (next_state SCENARIO_NORMAL = SCENARIO_DEGRADATION ∧
      next_state SCENARIO_DEGRADATION = SCENARIO_WARNING ∧
      next_state SCENARIO_WARNING = SCENARIO_FAULT ∧
      next_state SCENARIO_FAULT = SCENARIO_RECOVERY ∧
      next_state SCENARIO_RECOVERY = SCENARIO_NORMAL) ∧
    (((w.engine.demos w.currentDemoIndex).stateTimer + 1) % 2 ^ 32
        < get_state_duration (w.engine.demos w.currentDemoIndex).scenarioState →
      ((sim_update now r w).engine.demos w.currentDemoIndex).scenarioState
        = (w.engine.demos w.currentDemoIndex).scenarioState ∧
      ((sim_update now r w).engine.demos w.currentDemoIndex).stateTimer
        = ((w.engine.demos w.currentDemoIndex).stateTimer + 1) % 2 ^ 32 ∧
      ((sim_update now r w).engine.demos w.currentDemoIndex).cycleCount
        = (w.engine.demos w.currentDemoIndex).cycleCount) ∧
    (¬ ((w.engine.demos w.currentDemoIndex).stateTimer + 1) % 2 ^ 32
        < get_state_duration (w.engine.demos w.currentDemoIndex).scenarioState →
      ((sim_update now r w).engine.demos w.currentDemoIndex).scenarioState
        = next_state (w.engine.demos w.currentDemoIndex).scenarioState ∧
      ((sim_update now r w).engine.demos w.currentDemoIndex).stateTimer = 0 ∧
      (((sim_update now r w).engine.demos w.currentDemoIndex).scenarioState = SCENARIO_NORMAL →
        ((sim_update now r w).engine.demos w.currentDemoIndex).cycleCount
          = ((w.engine.demos w.currentDemoIndex).cycleCount + 1) % 256) ∧
      (((sim_update now r w).engine.demos w.currentDemoIndex).scenarioState ≠ SCENARIO_NORMAL →
        ((sim_update now r w).engine.demos w.currentDemoIndex).cycleCount
          = (w.engine.demos w.currentDemoIndex).cycleCount)) := by
  have h := sim_update_clock_tick now r w hinit
  unfold clock_of clock_tick at h
  simp only [ULONG_MOD] at h
  refine ⟨⟨rfl, rfl, rfl, rfl, rfl⟩, ⟨rfl, rfl, rfl, rfl, rfl⟩, ?_, ?_⟩
  · intro hlt
    rw [if_pos hlt] at h
    exact ⟨congrArg Prod.fst h, congrArg (fun p => p.2.1) h, congrArg (fun p => p.2.2) h⟩
  · intro hge
    rw [if_neg hge] at h
    have h1 : ((sim_update now r w).engine.demos w.currentDemoIndex).scenarioState
        = next_state (w.engine.demos w.currentDemoIndex).scenarioState := congrArg Prod.fst h
    have h3 := congrArg (fun p => p.2.2) h
    simp only at h3
    refine ⟨h1, congrArg (fun p => p.2.1) h, ?_, ?_⟩
    · intro hn
      rw [h1] at hn
      rw [h3, if_pos hn]
    · intro hn
      rw [h1] at hn
      rw [h3, if_neg hn]

/-- Instance of C2: the first tick after `sim_init`. -/
theorem sim_update_scenario_clock_witness :
    (sim_init 0 boot).engine.initialized = true ∧
    ((sim_update 1000 default (sim_init 0 boot)).engine.demos
        (sim_init 0 boot).currentDemoIndex).scenarioState = SCENARIO_NORMAL ∧
    ((sim_update 1000 default (sim_init 0 boot)).engine.demos
        (sim_init 0 boot).currentDemoIndex).stateTimer = 1 ∧
    ((sim_update 1000 default (sim_init 0 boot)).engine.demos
        (sim_init 0 boot).currentDemoIndex).cycleCount = 0 :=
  ⟨rfl, (sim_update_scenario_clock 1000 default (sim_init 0 boot) rfl).2.2.1 (by decide)⟩

/-! ## Frame of the commands: the inactive profiles -/

/-- C20: `sim_update`, `sim_ack_alarm` and `sim_start_ota` modify only the
simulation state and the profile record of the active profile index: for every
index `d` other than the active one, `engine.demos[d]` and `demoProfiles[d]` are
the same before and after the call, and the active index itself is kept. -/
theorem inactive_profiles_untouched (w : World) (d : Fin DEMO_COUNT)
    (hd : d ≠ w.currentDemoIndex) (now : Nat) (r : Draws) (index : Nat) :
    ((sim_update now r w).engine.demos d = w.engine.demos d ∧
      (sim_update now r w).demoProfiles d = w.demoProfiles d ∧
      (sim_update now r w).currentDemoIndex = w.currentDemoIndex) ∧
    ((sim_ack_alarm index w).engine.demos d = w.engine.demos d ∧
      (sim_ack_alarm index w).demoProfiles d = w.demoProfiles d ∧
      (sim_ack_alarm index w).currentDemoIndex = w.currentDemoIndex) ∧
    ((sim_start_ota now w).engine.demos d = w.engine.demos d ∧
      (sim_start_ota now w).demoProfiles d = w.demoProfiles d ∧
      (sim_start_ota now w).currentDemoIndex = w.currentDemoIndex) := by
  refine ⟨?_, ?_, ?_⟩
  · unfold sim_update
    split_ifs
    · exact ⟨rfl, rfl, rfl⟩
    · exact ⟨Function.update_noteq hd _ _, Function.update_noteq hd _ _, rfl⟩
  · unfold sim_ack_alarm
    split
    · exact ⟨rfl, rfl, rfl⟩
    · exact ⟨Function.update_noteq hd _ _, rfl, rfl⟩
  · unfold sim_start_ota
    split_ifs
    · exact ⟨rfl, rfl, rfl⟩
    · exact ⟨Function.update_noteq hd _ _, rfl, rfl⟩

/-- Instance of C20: the chiller profile while the CNC profile is active, in the
engine 85 ticks after `sim_init`. -/
theorem inactive_profiles_untouched_witness :
    (1 : Fin DEMO_COUNT) ≠ world_fault.currentDemoIndex ∧
    ((sim_update 86000 default world_fault).engine.demos 1 = world_fault.engine.demos 1 ∧
      (sim_update 86000 default world_fault).demoProfiles 1 = world_fault.demoProfiles 1 ∧
      (sim_update 86000 default world_fault).currentDemoIndex = world_fault.currentDemoIndex) ∧
    ((sim_ack_alarm 4 world_fault).engine.demos 1 = world_fault.engine.demos 1 ∧
      (sim_ack_alarm 4 world_fault).demoProfiles 1 = world_fault.demoProfiles 1 ∧
      (sim_ack_alarm 4 world_fault).currentDemoIndex = world_fault.currentDemoIndex) ∧
    ((sim_start_ota 86000 world_fault).engine.demos 1 = world_fault.engine.demos 1 ∧
      (sim_start_ota 86000 world_fault).demoProfiles 1 = world_fault.demoProfiles 1 ∧
      (sim_start_ota 86000 world_fault).currentDemoIndex = world_fault.currentDemoIndex) :=
  have hd : (1 : Fin DEMO_COUNT) ≠ world_fault.currentDemoIndex := by
    rw [show world_fault.currentDemoIndex = 0 from run_updates_index _ _]
    decide
  ⟨hd, inactive_profiles_untouched world_fault 1 hd 86000 default 4⟩

/-! ## The smoothing step -/

theorem approach_between (value target rate : ℚ) (h0 : 0 < rate) (h1 : rate < 1)
    (hv : value < target) :
    value < approach value target rate ∧ approach value target rate < target := by
  have he : approach value target rate = value + (target - value) * rate := rfl
  rw [he]
  have hd : 0 < target - value := by linarith
  constructor
  · nlinarith [mul_pos hd h0]
  · nlinarith [mul_pos hd (by linarith : (0 : ℚ) < 1 - rate)]

theorem approach_iter_succ (target rate : ℚ) (n : Nat) (value : ℚ) :
    approach_iter target rate (n + 1) value
      = approach (approach_iter target rate n value) target rate := by
  unfold approach_iter
  rw [Function.iterate_succ_apply']

theorem approach_iter_lt (target rate : ℚ) (h0 : 0 < rate) (h1 : rate < 1) (value : ℚ)
    (hv : value < target) (n : Nat) : approach_iter target rate n value < target := by
  induction n with
  | zero => exact hv
  | succ n ih =>
    rw [approach_iter_succ]
    exact (approach_between _ target rate h0 h1 ih).2

/-- C14: in exact arithmetic `approach(0, 100, 15/100) = 15`; and for every rate
with `0 < rate < 1` and every `value < target`, `approach(value, target, rate)`
is `value + (target - value) * rate`, strictly greater than `value` and strictly
less than `target`, so the iterates are strictly increasing and stay below
`target`. -/
theorem approach_monotone_bounded (value target rate : ℚ) (h0 : 0 < rate) (h1 : rate < 1)
    (hv : value < target) :
    approach 0 100 (15 / 100) = 15 ∧
    approach value target rate = value + (target - value) * rate ∧
    value < approach value target rate ∧ approach value target rate < target ∧
    ∀ n : Nat,
      approach_iter target rate n value < approach_iter target rate (n + 1) value ∧
      approach_iter target rate (n + 1) value < target := by
  refine ⟨by unfold approach; norm_num, rfl, (approach_between value target rate h0 h1 hv).1,
    (approach_between value target rate h0 h1 hv).2, ?_⟩
  intro n
  rw [approach_iter_succ]
  exact approach_between _ target rate h0 h1 (approach_iter_lt target rate h0 h1 value hv n)

/-- Instance of C14: the sensor smoother from 0 toward 100. -/
theorem approach_monotone_bounded_witness :
    (0 : ℚ) < 15 / 100 ∧ (15 / 100 : ℚ) < 1 ∧ (0 : ℚ) < 100 ∧
    approach 0 100 (15 / 100) = 15 ∧
    approach 0 100 (15 / 100) = 0 + (100 - 0) * (15 / 100) ∧
    0 < approach 0 100 (15 / 100) ∧ approach 0 100 (15 / 100) < 100 ∧
    ∀ n : Nat,
      approach_iter 100 (15 / 100) n 0 < approach_iter 100 (15 / 100) (n + 1) 0 ∧
      approach_iter 100 (15 / 100) (n + 1) 0 < 100 :=
  ⟨by norm_num, by norm_num, by norm_num,
    approach_monotone_bounded 0 100 (15 / 100) (by norm_num) (by norm_num) (by norm_num)⟩

/-! ## Fields the steps of a tick leave alone -/

/-- `add_alarm` touches the alarm pool only. -/
theorem add_alarm_frame (now : Nat) (s : SimState_t) (severity message : String) :
    (add_alarm now s severity message).history = s.history ∧
    (add_alarm now s severity message).otaInProgress = s.otaInProgress ∧
    (add_alarm now s severity message).otaProgress = s.otaProgress ∧
    (add_alarm now s severity message).sensorTargets = s.sensorTargets ∧
    (add_alarm now s severity message).targetHealthScore = s.targetHealthScore ∧
    (add_alarm now s severity message).targetFailureProb = s.targetFailureProb := by
  unfold add_alarm
  split_ifs <;> exact ⟨rfl, rfl, rfl, rfl, rfl, rfl⟩

/-- A physics model leaves the history buffers and the OTA counter alone. -/
theorem raises_frame {M : String → String → Prop} {s s' : SimState_t} (hr : Raises M s s') :
    s'.history = s.history ∧ s'.otaInProgress = s.otaInProgress ∧
    s'.otaProgress = s.otaProgress := by
  induction hr with
  | refl => exact ⟨rfl, rfl, rfl⟩
  | targets t0 t1 t2 health failure _ ih => exact ih
  | alarm now sev msg _ _ ih =>
    exact ⟨(add_alarm_frame now _ sev msg).1.trans ih.1,
      (add_alarm_frame now _ sev msg).2.1.trans ih.2.1,
      (add_alarm_frame now _ sev msg).2.2.1.trans ih.2.2⟩

/-- The clock step leaves the history buffers and the OTA counter alone. -/
theorem clock_step_frame (now : Nat) (s : SimState_t) :
    (clock_step now s).history = s.history ∧
    (clock_step now s).otaInProgress = s.otaInProgress ∧
    (clock_step now s).otaProgress = s.otaProgress := by
  unfold clock_step transition_state clear_fault_alarms
  simp only []
  split_ifs <;> exact ⟨rfl, rfl, rfl⟩

theorem set_insight0_frame (demo : DemoProfile_t) (severity : InsightSeverity_t)
    (title description timeframe : String) :
    (set_insight0 demo severity title description timeframe).sensors = demo.sensors ∧
    (set_insight0 demo severity title description timeframe).ai.healthScore
      = demo.ai.healthScore ∧
    (set_insight0 demo severity title description timeframe).ai.failureProbability
      = demo.ai.failureProbability := ⟨rfl, rfl, rfl⟩

/-- The physics models leave the sensor records, the health score and the
failure probability of the profile alone: they only set the targets. -/
theorem run_physics_profile_frame (demoIdx now : Nat) (r : Draws) (demo : DemoProfile_t)
    (sim : SimState_t) :
    (run_physics demoIdx now r demo sim).1.sensors = demo.sensors ∧
    (run_physics demoIdx now r demo sim).1.ai.healthScore = demo.ai.healthScore ∧
    (run_physics demoIdx now r demo sim).1.ai.failureProbability
      = demo.ai.failureProbability := by
  unfold run_physics
  split
  · unfold update_cnc
    split <;> simp only [] <;> (try split_ifs) <;> trivial
  · unfold update_chiller
    split <;> simp only [] <;> (try split_ifs) <;> trivial
  · unfold update_compressor
    split <;> simp only [] <;> (try split_ifs) <;> trivial
  · unfold update_plc
    split <;> simp only [] <;> (try split_ifs) <;> trivial
  · exact ⟨rfl, rfl, rfl⟩

/-! ## Sensor smoothing and clamping -/

theorem clampf_mem (val lo hi : ℚ) (h : lo ≤ hi) :
    lo ≤ clampf val lo hi ∧ clampf val lo hi ≤ hi := by
  unfold clampf
  split_ifs with h1 h2
  · exact ⟨le_refl _, h⟩
  · exact ⟨h, le_refl _⟩
  · exact ⟨not_lt.mp h1, not_lt.mp h2⟩

theorem clampf_of_mem (val lo hi : ℚ) (h1 : lo ≤ val) (h2 : val ≤ hi) :
    clampf val lo hi = val := by
  unfold clampf
  rw [if_neg (not_lt.mpr h1), if_neg (not_lt.mpr h2)]

/-- A step of rate 0.15 lands between the current value and the target. -/
theorem approach_sensor_between (value target : ℚ) :
    min value target ≤ approach value target 0.15 ∧
    approach value target 0.15 ≤ max value target := by
  have he : approach value target 0.15 = value + (target - value) * 0.15 := rfl
  rw [he]
  rcases le_total value target with h | h
  · rw [min_eq_left h, max_eq_right h]
    constructor <;> norm_num <;> linarith
  · rw [min_eq_right h, max_eq_left h]
    constructor <;> norm_num <;> linarith

/-- The three iterations of the smoothing loop: sensor by sensor, the new value,
the untouched bounds, the history push; the rest of the profile and of the
simulation state is kept. -/
theorem smooth_sensors_apply (demo : DemoProfile_t) (sim : SimState_t) (i : Fin 3) :
    ((smooth_sensor (smooth_sensor (smooth_sensor (demo, sim) 0) 1) 2).1.sensors i).value
      = smoothed_value (demo.sensors i) (sim.sensorTargets i) ∧
    ((smooth_sensor (smooth_sensor (smooth_sensor (demo, sim) 0) 1) 2).1.sensors i).min
      = (demo.sensors i).min ∧
    ((smooth_sensor (smooth_sensor (smooth_sensor (demo, sim) 0) 1) 2).1.sensors i).max
      = (demo.sensors i).max ∧
    (smooth_sensor (smooth_sensor (smooth_sensor (demo, sim) 0) 1) 2).2.history i
      = history_push (sim.history i) (smoothed_value (demo.sensors i) (sim.sensorTargets i)) := by
  fin_cases i <;> simp [smooth_sensor, smoothed_value, Function.update]

theorem smooth_sensors_frame (demo : DemoProfile_t) (sim : SimState_t) :
    (smooth_sensor (smooth_sensor (smooth_sensor (demo, sim) 0) 1) 2).1.ai = demo.ai ∧
    (smooth_sensor (smooth_sensor (smooth_sensor (demo, sim) 0) 1) 2).1.vision = demo.vision ∧
    (smooth_sensor (smooth_sensor (smooth_sensor (demo, sim) 0) 1) 2).1.kpis = demo.kpis ∧
    (smooth_sensor (smooth_sensor (smooth_sensor (demo, sim) 0) 1) 2).2.otaInProgress
      = sim.otaInProgress ∧
    (smooth_sensor (smooth_sensor (smooth_sensor (demo, sim) 0) 1) 2).2.otaProgress
      = sim.otaProgress ∧
    (smooth_sensor (smooth_sensor (smooth_sensor (demo, sim) 0) 1) 2).2.targetHealthScore
      = sim.targetHealthScore ∧
    (smooth_sensor (smooth_sensor (smooth_sensor (demo, sim) 0) 1) 2).2.targetFailureProb
      = sim.targetFailureProb ∧
    (smooth_sensor (smooth_sensor (smooth_sensor (demo, sim) 0) 1) 2).2.scenarioState
      = sim.scenarioState :=
  ⟨rfl, rfl, rfl, rfl, rfl, rfl, rfl, rfl⟩

theorem ota_step_history (now : Nat) (r : Draws) (s : SimState_t) :
    (ota_step now r s).history = s.history := by
  unfold ota_step
  simp only []
  split_ifs
  · exact (add_alarm_frame _ _ _ _).1
  · rfl
  · rfl

/-- The profile record a tick leaves: the sensors after the smoothing loop. -/
theorem update_profile_sensors (demoIdx now : Nat) (r : Draws) (demo : DemoProfile_t)
    (sim : SimState_t) :
    (update_profile demoIdx now r demo sim).1.sensors =
      (smooth_sensor (smooth_sensor (smooth_sensor
        (run_physics demoIdx now r demo (clock_step now sim)) 0) 1) 2).1.sensors := rfl

/-- C15: for a sensor with `min ≤ max`, whatever the current value and the
target, `clampf(approach(value, clampf(target, min, max), 0.15), min, max)` lies
in `[min, max]`; when the current value lies in `[min, max]` it lies between the
current value and the clamped target, so the outer clamp changes nothing.  In
`sim_update` the new value of sensor `i` is this expression at the target the
physics model has just set, the bounds are kept, and the value pushed into
`history[i]` on that tick is the new sensor value. -/
theorem smoothing_step_clamped (demoIdx now : Nat) (r : Draws) (demo : DemoProfile_t)
    (sim : SimState_t) (i : Fin 3) (hmm : (demo.sensors i).min ≤ (demo.sensors i).max) :
    (∀ value target : ℚ,
      ((demo.sensors i).min
          ≤ clampf (approach value (clampf target (demo.sensors i).min (demo.sensors i).max) 0.15)
              (demo.sensors i).min (demo.sensors i).max ∧
        clampf (approach value (clampf target (demo.sensors i).min (demo.sensors i).max) 0.15)
            (demo.sensors i).min (demo.sensors i).max ≤ (demo.sensors i).max) ∧
      ((demo.sensors i).min ≤ value → value ≤ (demo.sensors i).max →
        clampf (approach value (clampf target (demo.sensors i).min (demo.sensors i).max) 0.15)
            (demo.sensors i).min (demo.sensors i).max
          = approach value (clampf target (demo.sensors i).min (demo.sensors i).max) 0.15 ∧
        min value (clampf target (demo.sensors i).min (demo.sensors i).max)
          ≤ approach value (clampf target (demo.sensors i).min (demo.sensors i).max) 0.15 ∧
        approach value (clampf target (demo.sensors i).min (demo.sensors i).max) 0.15
          ≤ max value (clampf target (demo.sensors i).min (demo.sensors i).max))) ∧
    ((update_profile demoIdx now r demo sim).1.sensors i).value
      = clampf (approach (demo.sensors i).value
          (clampf ((run_physics demoIdx now r demo (clock_step now sim)).2.sensorTargets i)
            (demo.sensors i).min (demo.sensors i).max) 0.15)
          (demo.sensors i).min (demo.sensors i).max ∧
    ((update_profile demoIdx now r demo sim).1.sensors i).min = (demo.sensors i).min ∧
    ((update_profile demoIdx now r demo sim).1.sensors i).max = (demo.sensors i).max ∧
    (update_profile demoIdx now r demo sim).2.history i
      = history_push (sim.history i) ((update_profile demoIdx now r demo sim).1.sensors i).value := by
  have hphys := run_physics_profile_frame demoIdx now r demo (clock_step now sim)
  have hsm := smooth_sensors_apply (run_physics demoIdx now r demo (clock_step now sim)).1
    (run_physics demoIdx now r demo (clock_step now sim)).2 i
  rw [hphys.1] at hsm
  have hhist : (run_physics demoIdx now r demo (clock_step now sim)).2.history = sim.history :=
    (raises_frame (run_physics_raises demoIdx now r demo (clock_step now sim))).1.trans
      (clock_step_frame now sim).1
  refine ⟨?_, ?_, ?_, ?_, ?_⟩
  · intro value target
    have hct := clampf_mem target _ _ hmm
    refine ⟨clampf_mem _ _ _ hmm, ?_⟩
    intro hv1 hv2
    have hb := approach_sensor_between value
      (clampf target (demo.sensors i).min (demo.sensors i).max)
    refine ⟨clampf_of_mem _ _ _ ?_ ?_, hb.1, hb.2⟩
    · exact le_trans (le_min hv1 hct.1) hb.1
    · exact le_trans hb.2 (max_le hv2 hct.2)
  · rw [update_profile_sensors]
    exact hsm.1
  · rw [update_profile_sensors]
    exact hsm.2.1
  · rw [update_profile_sensors]
    exact hsm.2.2.1
  · rw [update_profile_sim, ota_step_history, update_profile_sensors, hsm.1]
    rw [← hhist]
    exact hsm.2.2.2

/-- Instance of C15: sensor 0 of the CNC profile on the first tick after
`sim_init`, from 67.2 toward the target 52. -/
theorem smoothing_step_clamped_witness :
    (profile_cnc.sensors 0).min ≤ (profile_cnc.sensors 0).max ∧
    ((update_profile 0 1000 default profile_cnc (init_state 0 profile_cnc)).1.sensors 0).value
      = 64.92 := by
  refine ⟨by simp [profile_cnc], ?_⟩
  rw [(smoothing_step_clamped 0 1000 default profile_cnc (init_state 0 profile_cnc) 0
    (by simp [profile_cnc])).2.1]
  have h0 : (default : Draws).noise0 = 0 := rfl
  simp [run_physics, update_cnc, clock_step, init_state, get_state_duration,
    SCENARIO_NORMAL_DURATION_S, set_targets, profile_cnc, noise, random_range, clampf,
    approach, h0]
  norm_num

/-! ## The enumeration of the active alarms -/

theorem active_before_succ (sim : SimState_t) (k : Nat) :
    active_before sim (k + 1)
      = active_before sim k + if (load sim.dynamicAlarms k).active then 1 else 0 := by
  unfold active_before
  rw [List.range_succ, List.filter_append, List.length_append]
  by_cases h : (load sim.dynamicAlarms k).active = true
  · simp [h]
  · simp [h]

theorem active_before_mono (sim : SimState_t) {a b : Nat} (h : a ≤ b) :
    active_before sim a ≤ active_before sim b := by
  induction b with
  | zero =>
    have : a = 0 := by omega
    rw [this]
  | succ b ih =>
    by_cases hab : a = b + 1
    · rw [hab]
    · have := ih (by omega)
      rw [active_before_succ]
      omega

theorem active_before_le (sim : SimState_t) (k : Nat) :
    active_before sim k ≤ k ∧ active_before sim k ≤ MAX_DYNAMIC_ALARMS := by
  induction k with
  | zero => exact ⟨Nat.le_refl _, Nat.zero_le _⟩
  | succ k ih =>
    rw [active_before_succ]
    by_cases h : (load sim.dynamicAlarms k).active = true
    · have hk := load_active_lt _ _ h
      rw [if_pos h]
      have h8 : MAX_DYNAMIC_ALARMS = 8 := rfl
      omega
    · rw [if_neg h]
      omega

/-- The loop of `sim_get_alarm`, entered at slot `lo` with the count of the active
slots below `lo`, returns the slot that is active and has `index` active slots
before it. -/
theorem alarm_scan_eq_some (sim : SimState_t) (index n lo k : Nat) :
    alarm_scan (fun i => (load sim.dynamicAlarms i).active) index lo n (active_before sim lo)
        = some k ↔
      lo ≤ k ∧ k < lo + n ∧ (load sim.dynamicAlarms k).active = true ∧
        active_before sim k = index := by
  induction n generalizing lo with
  | zero =>
    constructor
    · intro h
      cases h
    · rintro ⟨h1, h2, -⟩
      omega
  | succ n ih =>
    unfold alarm_scan
    by_cases hact : (load sim.dynamicAlarms lo).active = true
    · have hsucc : active_before sim (lo + 1) = active_before sim lo + 1 := by
        rw [active_before_succ, if_pos hact]
      have hmod : (active_before sim lo + 1) % 256 = active_before sim (lo + 1) := by
        rw [hsucc]
        have := (active_before_le sim (lo + 1)).2
        have h8 : MAX_DYNAMIC_ALARMS = 8 := rfl
        exact Nat.mod_eq_of_lt (by omega)
      simp only [hact, if_true]
      by_cases hidx : active_before sim lo = index
      · rw [if_pos hidx]
        constructor
        · intro h
          have hk : lo = k := Option.some.inj h
          rw [← hk]
          exact ⟨Nat.le_refl _, by omega, hact, hidx⟩
        · rintro ⟨h1, h2, h3, h4⟩
          by_cases hk : lo = k
          · rw [hk]
          · have := active_before_mono sim (show lo + 1 ≤ k by omega)
            omega
      · rw [if_neg hidx, hmod, ih (lo + 1)]
        constructor
        · rintro ⟨h1, h2, h3, h4⟩
          exact ⟨by omega, by omega, h3, h4⟩
        · rintro ⟨h1, h2, h3, h4⟩
          have hk : lo ≠ k := by
            intro hlk
            rw [← hlk] at h4
            exact hidx h4
          exact ⟨by omega, by omega, h3, h4⟩
    · have hsucc : active_before sim (lo + 1) = active_before sim lo := by
        rw [active_before_succ, if_neg hact]
        rfl
      simp only [hact]
      rw [if_neg (by simp), ← hsucc, ih (lo + 1)]
      constructor
      · rintro ⟨h1, h2, h3, h4⟩
        exact ⟨by omega, by omega, h3, h4⟩
      · rintro ⟨h1, h2, h3, h4⟩
        have hk : lo ≠ k := by
          intro hlk
          rw [← hlk] at h3
          exact hact h3
        exact ⟨by omega, by omega, h3, h4⟩

/-- The counting loop of `sim_get_alarm_count` returns the number of active slots
below the high-water mark. -/
theorem alarm_count_eq_active_before (sim : SimState_t) :
    alarm_count sim = active_before sim sim.dynamicAlarmCount := by
  unfold alarm_count
  induction sim.dynamicAlarmCount with
  | zero => rfl
  | succ n ih =>
    rw [List.range_succ, List.foldl_append, List.foldl_cons, List.foldl_nil, ih,
      active_before_succ]
    by_cases hact : (load sim.dynamicAlarms n).active = true
    · rw [if_pos hact, if_pos hact]
      have := (active_before_le sim (n + 1)).2
      rw [active_before_succ, if_pos hact] at this
      have h8 : MAX_DYNAMIC_ALARMS = 8 := rfl
      exact Nat.mod_eq_of_lt (by omega)
    · rw [if_neg hact, if_neg hact]
      rfl

/-- Every count below the number of active slots under `n` is the position of
one of them. -/
theorem active_before_reached (sim : SimState_t) (index n : Nat) :
    index < active_before sim n ↔
      ∃ k, k < n ∧ (load sim.dynamicAlarms k).active = true ∧ active_before sim k = index := by
  constructor
  · intro h
    induction n with
    | zero => exact absurd h (Nat.not_lt_zero _)
    | succ n ih =>
      by_cases hn : index < active_before sim n
      · obtain ⟨k, hk, h1, h2⟩ := ih hn
        exact ⟨k, by omega, h1, h2⟩
      · rw [active_before_succ] at h
        by_cases hact : (load sim.dynamicAlarms n).active = true
        · rw [if_pos hact] at h
          exact ⟨n, Nat.lt_succ_self n, hact, by omega⟩
        · rw [if_neg hact] at h
          omega
  · rintro ⟨k, hk, hact, hidx⟩
    have h1 := active_before_mono sim (show k + 1 ≤ n by omega)
    rw [active_before_succ, if_pos hact] at h1
    omega

/-- Getter `sim_get_alarm` returns slot `k` exactly when the engine is initialized
and `k` is the active slot below the high-water mark with `index` active slots
before it. -/
theorem sim_get_alarm_eq_some (w : World) (index k : Nat) :
    sim_get_alarm w index = some k ↔
      w.engine.initialized = true ∧
      k < (w.engine.demos w.currentDemoIndex).dynamicAlarmCount ∧
      (load (w.engine.demos w.currentDemoIndex).dynamicAlarms k).active = true ∧
      active_before (w.engine.demos w.currentDemoIndex) k = index := by
  unfold sim_get_alarm
  by_cases hinit : w.engine.initialized = true
  · rw [if_neg (by simp [hinit])]
    have h := alarm_scan_eq_some (w.engine.demos w.currentDemoIndex) index
      (w.engine.demos w.currentDemoIndex).dynamicAlarmCount 0 k
    have h0 : active_before (w.engine.demos w.currentDemoIndex) 0 = 0 := rfl
    rw [h0] at h
    simp only []
    rw [h]
    constructor
    · rintro ⟨-, h2, h3, h4⟩
      exact ⟨hinit, by omega, h3, h4⟩
    · rintro ⟨-, h2, h3, h4⟩
      exact ⟨Nat.zero_le _, by omega, h3, h4⟩
  · rw [if_pos (by simpa using hinit)]
    constructor
    · intro h
      cases h
    · rintro ⟨h, -⟩
      exact absurd h hinit

theorem sim_get_alarm_count_eq (w : World) :
    sim_get_alarm_count w =
      if w.engine.initialized = true then
        active_before (w.engine.demos w.currentDemoIndex)
          (w.engine.demos w.currentDemoIndex).dynamicAlarmCount
      else 0 := by
  unfold sim_get_alarm_count
  by_cases hinit : w.engine.initialized = true
  · rw [if_neg (by simp [hinit]), if_pos hinit, alarm_count_eq_active_before]
  · rw [if_pos (by simpa using hinit), if_neg hinit]

/-- Getter `sim_get_alarm` answers exactly the indices below `sim_get_alarm_count`. -/
theorem sim_get_alarm_isSome (w : World) (index : Nat) :
    (sim_get_alarm w index).isSome = true ↔
      w.engine.initialized = true ∧ index < sim_get_alarm_count w := by
  rw [Option.isSome_iff_exists, sim_get_alarm_count_eq]
  by_cases hinit : w.engine.initialized = true
  · rw [if_pos hinit, active_before_reached]
    constructor
    · rintro ⟨k, hk⟩
      rw [sim_get_alarm_eq_some] at hk
      exact ⟨hinit, k, hk.2.1, hk.2.2.1, hk.2.2.2⟩
    · rintro ⟨-, k, h1, h2, h3⟩
      exact ⟨k, (sim_get_alarm_eq_some w index k).mpr ⟨hinit, h1, h2, h3⟩⟩
  · rw [if_neg hinit]
    constructor
    · rintro ⟨k, hk⟩
      rw [sim_get_alarm_eq_some] at hk
      exact absurd hk.1 hinit
    · rintro ⟨h, -⟩
      exact absurd h hinit

/-- C13: the accessors return a sentinel instead of failing.  `sim_get_alarm(i)`
is non-null iff the engine is initialized and `i < sim_get_alarm_count()`, and the
alarm it returns is an active slot of the pool; `sim_get_history(s)` is non-null
iff the engine is initialized and `s < 3`; before `sim_init` (engine not
initialized, as at program start) `sim_get_scenario` returns Normal,
`sim_get_alarm_count` and `sim_ota_progress` return 0, `sim_ota_active` returns
false, and `sim_update`, `sim_start_ota` and `sim_ack_alarm` change nothing. -/
theorem accessors_return_sentinels (w : World) (i s : Nat) :
    ((sim_get_alarm w i).isSome = true ↔
      (w.engine.initialized = true ∧ i < sim_get_alarm_count w)) ∧
    (∀ k, sim_get_alarm w i = some k →
      k < MAX_DYNAMIC_ALARMS ∧
      (load (w.engine.demos w.currentDemoIndex).dynamicAlarms k).active = true) ∧
    ((sim_get_history w s).isSome = true ↔ (w.engine.initialized = true ∧ s < 3)) ∧
    boot.engine.initialized = false ∧
    (w.engine.initialized = false →
      sim_get_scenario w = SCENARIO_NORMAL ∧ sim_get_alarm_count w = 0 ∧
      sim_ota_progress w = 0 ∧ sim_ota_active w = false ∧
      sim_get_alarm w i = none ∧ sim_get_history w s = none ∧ sim_get_state w = none ∧
      ∀ (now : Nat) (r : Draws) (index : Nat),
        sim_update now r w = w ∧ sim_start_ota now w = w ∧ sim_ack_alarm index w = w) := by
  refine ⟨sim_get_alarm_isSome w i, ?_, ?_, rfl, ?_⟩
  · intro k hk
    rw [sim_get_alarm_eq_some] at hk
    exact ⟨load_active_lt _ _ hk.2.2.1, hk.2.2.1⟩
  · unfold sim_get_history
    by_cases hinit : w.engine.initialized = true
    · by_cases hs : s < 3
      · rw [dif_neg (by simp [hinit, hs])]
        simp [hinit, hs]
      · rw [dif_pos (Or.inr (by omega))]
        simp [hs]
    · rw [dif_pos (Or.inl (by simpa using hinit))]
      simp [hinit]
  · intro hinit
    have hno : ∀ index, sim_get_alarm w index = none := by
      intro index
      unfold sim_get_alarm
      rw [if_pos (by simp [hinit])]
    refine ⟨?_, ?_, ?_, ?_, hno i, ?_, ?_, ?_⟩
    · unfold sim_get_scenario
      rw [if_pos (by simp [hinit])]
    · unfold sim_get_alarm_count
      rw [if_pos (by simp [hinit])]
    · unfold sim_ota_progress
      rw [if_pos (by simp [hinit])]
    · unfold sim_ota_active
      rw [if_pos (by simp [hinit])]
    · unfold sim_get_history
      rw [dif_pos (Or.inl (by simp [hinit]))]
    · unfold sim_get_state
      rw [if_pos (by simp [hinit])]
    · intro now r index
      refine ⟨?_, ?_, ?_⟩
      · unfold sim_update
        rw [if_pos (by simp [hinit])]
      · unfold sim_start_ota
        rw [if_pos (by simp [hinit])]
      · unfold sim_ack_alarm
        rw [hno index]

/-- Instance of C13 before `sim_init`: the globals at program start. -/
theorem accessors_return_sentinels_witness :
    boot.engine.initialized = false ∧
    sim_get_scenario boot = SCENARIO_NORMAL ∧ sim_get_alarm_count boot = 0 ∧
    sim_ota_progress boot = 0 ∧ sim_ota_active boot = false ∧
    sim_get_alarm boot 0 = none ∧ sim_get_history boot 0 = none ∧ sim_get_state boot = none ∧
    ∀ (now : Nat) (r : Draws) (index : Nat),
      sim_update now r boot = boot ∧ sim_start_ota now boot = boot ∧
      sim_ack_alarm index boot = boot :=
  ⟨rfl, (accessors_return_sentinels boot 0 0).2.2.2.2 rfl⟩

/-! ## `sim_ack_alarm` -/

theorem store_eq_update {α : Type} {n : Nat} (a : Fin n → α) (k : Fin n) (v : α) :
    store a k.val v = Function.update a k v := by
  funext j
  rw [store_apply]
  by_cases hj : j = k
  · rw [hj, if_pos rfl, Function.update_same]
  · rw [if_neg (fun h => hj (Fin.ext h)), Function.update_noteq hj]

/-- When `sim_get_alarm` finds slot `k`, `sim_ack_alarm` acknowledges that slot. -/
theorem sim_ack_alarm_of_some (w : World) (index : Nat) (k : Fin MAX_DYNAMIC_ALARMS)
    (h : sim_get_alarm w index = some k.val) : sim_ack_alarm index w = ack_slot w k := by
  unfold sim_ack_alarm ack_slot
  rw [h]
  simp only [load_fin, store_eq_update]

theorem sim_ack_alarm_of_none (w : World) (index : Nat) (h : sim_get_alarm w index = none) :
    sim_ack_alarm index w = w := by
  unfold sim_ack_alarm
  rw [h]

theorem ack_slot_demo (w : World) (k : Fin MAX_DYNAMIC_ALARMS) :
    (ack_slot w k).engine.demos w.currentDemoIndex =
      { w.engine.demos w.currentDemoIndex with
        dynamicAlarms := Function.update (w.engine.demos w.currentDemoIndex).dynamicAlarms k
          { (w.engine.demos w.currentDemoIndex).dynamicAlarms k with acked := true } } := by
  unfold ack_slot
  simp only [Function.update_same]

/-- Acknowledging a slot changes no `active` flag. -/
theorem ack_slot_active (w : World) (k : Fin MAX_DYNAMIC_ALARMS) (j : Nat) :
    (load ((ack_slot w k).engine.demos w.currentDemoIndex).dynamicAlarms j).active
      = (load (w.engine.demos w.currentDemoIndex).dynamicAlarms j).active := by
  rw [ack_slot_demo]
  by_cases hj : j < MAX_DYNAMIC_ALARMS
  · rw [load_of_lt _ hj, load_of_lt _ hj]
    simp only []
    by_cases hjk : (⟨j, hj⟩ : Fin MAX_DYNAMIC_ALARMS) = k
    · rw [hjk, Function.update_same]
    · rw [Function.update_noteq hjk]
  · unfold load
    rw [dif_neg hj, dif_neg hj]

theorem active_before_congr (s s' : SimState_t)
    (h : ∀ j, (load s'.dynamicAlarms j).active = (load s.dynamicAlarms j).active) (k : Nat) :
    active_before s' k = active_before s k := by
  unfold active_before
  congr 2
  funext j
  exact h j

theorem sim_get_alarm_ack_slot (w : World) (k : Fin MAX_DYNAMIC_ALARMS) (index : Nat) :
    sim_get_alarm (ack_slot w k) index = sim_get_alarm w index := by
  apply Option.ext
  intro a
  rw [Option.mem_def, Option.mem_def, sim_get_alarm_eq_some, sim_get_alarm_eq_some]
  have hidx : (ack_slot w k).currentDemoIndex = w.currentDemoIndex := rfl
  rw [hidx, ack_slot_active,
    active_before_congr _ _ (fun j => ack_slot_active w k j)]
  have hc : ((ack_slot w k).engine.demos w.currentDemoIndex).dynamicAlarmCount
      = (w.engine.demos w.currentDemoIndex).dynamicAlarmCount := by
    rw [ack_slot_demo]
  rw [hc]
  rfl

theorem ack_slot_idem (w : World) (k : Fin MAX_DYNAMIC_ALARMS) :
    ack_slot (ack_slot w k) k = ack_slot w k := by
  unfold ack_slot
  simp only [Function.update_same, Function.update_idem]

/-- The effect of `sim_ack_alarm` on any state of the globals, by the value of
`sim_get_alarm_count()`. -/
theorem sim_ack_alarm_spec (w : World) (i : Nat) :
    (i < sim_get_alarm_count w →
      ∃ k : Fin MAX_DYNAMIC_ALARMS,
        ((w.engine.demos w.currentDemoIndex).dynamicAlarms k).active = true ∧
        active_before (w.engine.demos w.currentDemoIndex) k.val = i ∧
        sim_ack_alarm i w = ack_slot w k ∧
        ((sim_ack_alarm i w).engine.demos w.currentDemoIndex).dynamicAlarms k
          = { (w.engine.demos w.currentDemoIndex).dynamicAlarms k with acked := true } ∧
        (∀ j : Fin MAX_DYNAMIC_ALARMS, j ≠ k →
          ((sim_ack_alarm i w).engine.demos w.currentDemoIndex).dynamicAlarms j
            = (w.engine.demos w.currentDemoIndex).dynamicAlarms j) ∧
        live_count ((sim_ack_alarm i w).engine.demos w.currentDemoIndex)
          = live_count (w.engine.demos w.currentDemoIndex) ∧
        sim_get_alarm_count (sim_ack_alarm i w) = sim_get_alarm_count w) ∧
    (¬ i < sim_get_alarm_count w → sim_ack_alarm i w = w) ∧
    sim_ack_alarm i (sim_ack_alarm i w) = sim_ack_alarm i w := by
  refine ⟨?_, ?_, ?_⟩
  · intro hi
    have hsome : (sim_get_alarm w i).isSome = true := by
      rw [sim_get_alarm_isSome]
      refine ⟨?_, hi⟩
      by_contra hinit
      rw [sim_get_alarm_count_eq, if_neg hinit] at hi
      exact Nat.not_lt_zero _ hi
    obtain ⟨k, hk⟩ := Option.isSome_iff_exists.mp hsome
    have hspec := (sim_get_alarm_eq_some w i k).mp hk
    have hk8 := load_active_lt _ _ hspec.2.2.1
    have hack := sim_ack_alarm_of_some w i ⟨k, hk8⟩ hk
    have hact : ((w.engine.demos w.currentDemoIndex).dynamicAlarms ⟨k, hk8⟩).active = true := by
      have h3 := hspec.2.2.1
      rw [load_of_lt _ hk8] at h3
      exact h3
    refine ⟨⟨k, hk8⟩, hact, hspec.2.2.2, hack, ?_, ?_, ?_, ?_⟩
    · rw [hack, ack_slot_demo]
      simp only [Function.update_same]
    · intro j hj
      rw [hack, ack_slot_demo]
      simp only [Function.update_noteq hj]
    · rw [hack]
      apply live_count_congr
      intro j
      have := ack_slot_active w ⟨k, hk8⟩ j.val
      rw [load_fin, load_fin] at this
      exact this
    · rw [hack, sim_get_alarm_count_eq, sim_get_alarm_count_eq]
      have hidx : (ack_slot w ⟨k, hk8⟩).currentDemoIndex = w.currentDemoIndex := rfl
      have hini : (ack_slot w ⟨k, hk8⟩).engine.initialized = w.engine.initialized := rfl
      rw [hidx, hini, active_before_congr _ _ (fun j => ack_slot_active w ⟨k, hk8⟩ j)]
      have hc : ((ack_slot w ⟨k, hk8⟩).engine.demos w.currentDemoIndex).dynamicAlarmCount
          = (w.engine.demos w.currentDemoIndex).dynamicAlarmCount := by
        rw [ack_slot_demo]
      rw [hc]
  · intro hi
    apply sim_ack_alarm_of_none
    cases hg : sim_get_alarm w i with
    | none => rfl
    | some k =>
      have hsome : (sim_get_alarm w i).isSome = true := by
        rw [hg]
        rfl
      rw [sim_get_alarm_isSome] at hsome
      exact absurd hsome.2 hi
  · cases hg : sim_get_alarm w i with
    | none =>
      rw [sim_ack_alarm_of_none w i hg, sim_ack_alarm_of_none w i hg]
    | some k =>
      have hspec := (sim_get_alarm_eq_some w i k).mp hg
      have hk8 := load_active_lt _ _ hspec.2.2.1
      have hack := sim_ack_alarm_of_some w i ⟨k, hk8⟩ hg
      rw [hack]
      have hg2 : sim_get_alarm (ack_slot w ⟨k, hk8⟩) i = some k := by
        rw [sim_get_alarm_ack_slot, hg]
      rw [sim_ack_alarm_of_some (ack_slot w ⟨k, hk8⟩) i ⟨k, hk8⟩ hg2, ack_slot_idem]

/-- In every reachable state `sim_get_alarm_count` returns the number of active
slots of the active profile. -/
theorem sim_get_alarm_count_live {w : World} (h : Reachable w) :
    sim_get_alarm_count w = live_count (w.engine.demos w.currentDemoIndex) := by
  unfold sim_get_alarm_count
  rw [if_neg (by simp [(reachable_inv h).1])]
  exact alarm_count_eq_live _ ((reachable_inv h).2 _).1.1

/-- C12: in every state reachable from `sim_init` (the engine is initialized) and
for every index `i`: if `i` is less than the live alarm count, the number of
active slots of the active profile, `sim_ack_alarm(i)` sets `acked = true` on the
`i`-th active alarm, counting only active slots in slot order, and changes
nothing else (the alarm stays active; the other slots, the live count and the
rest of the state are kept); if `i` is at least the live count it leaves the
whole state unchanged. `sim_ack_alarm` is idempotent. -/
theorem sim_ack_alarm_effect (w : World) (h : Reachable w) (i : Nat) :
    w.engine.initialized = true ∧
    (i < live_count (w.engine.demos w.currentDemoIndex) →
      ∃ k : Fin MAX_DYNAMIC_ALARMS,
        ((w.engine.demos w.currentDemoIndex).dynamicAlarms k).active = true ∧
        active_before (w.engine.demos w.currentDemoIndex) k.val = i ∧
        sim_ack_alarm i w = ack_slot w k ∧
        ((sim_ack_alarm i w).engine.demos w.currentDemoIndex).dynamicAlarms k
          = { (w.engine.demos w.currentDemoIndex).dynamicAlarms k with acked := true } ∧
        (∀ j : Fin MAX_DYNAMIC_ALARMS, j ≠ k →
          ((sim_ack_alarm i w).engine.demos w.currentDemoIndex).dynamicAlarms j
            = (w.engine.demos w.currentDemoIndex).dynamicAlarms j) ∧
        live_count ((sim_ack_alarm i w).engine.demos w.currentDemoIndex)
          = live_count (w.engine.demos w.currentDemoIndex) ∧
        sim_get_alarm_count (sim_ack_alarm i w) = sim_get_alarm_count w) ∧
    (¬ i < live_count (w.engine.demos w.currentDemoIndex) → sim_ack_alarm i w = w) ∧
    sim_ack_alarm i (sim_ack_alarm i w) = sim_ack_alarm i w := by
  have hspec := sim_ack_alarm_spec w i
  rw [sim_get_alarm_count_live h] at hspec
  refine ⟨(reachable_inv h).1, ?_, hspec.2.1, hspec.2.2⟩
  intro hi
  obtain ⟨k, h1, h2, h3, h4, h5, h6, h7⟩ := hspec.1 hi
  refine ⟨k, h1, h2, h3, h4, h5, h6, ?_⟩
  rw [sim_get_alarm_count_live h]
  exact h7

/-- Instance of C12: acknowledging the fault alarm (index 4, slot 4) of the CNC
profile 85 ticks after `sim_init`, five alarms being active. -/
theorem sim_ack_alarm_effect_witness :
    Reachable world_fault ∧
    4 < live_count (world_fault.engine.demos world_fault.currentDemoIndex) ∧
    ∃ k : Fin MAX_DYNAMIC_ALARMS,
      ((world_fault.engine.demos world_fault.currentDemoIndex).dynamicAlarms k).active = true ∧
      active_before (world_fault.engine.demos world_fault.currentDemoIndex) k.val = 4 ∧
      sim_ack_alarm 4 world_fault = ack_slot world_fault k ∧
      ((sim_ack_alarm 4 world_fault).engine.demos world_fault.currentDemoIndex).dynamicAlarms k
        = { (world_fault.engine.demos world_fault.currentDemoIndex).dynamicAlarms k with
            acked := true } ∧
      (∀ j : Fin MAX_DYNAMIC_ALARMS, j ≠ k →
        ((sim_ack_alarm 4 world_fault).engine.demos world_fault.currentDemoIndex).dynamicAlarms j
          = (world_fault.engine.demos world_fault.currentDemoIndex).dynamicAlarms j) ∧
      live_count ((sim_ack_alarm 4 world_fault).engine.demos world_fault.currentDemoIndex)
        = live_count (world_fault.engine.demos world_fault.currentDemoIndex) ∧
      sim_get_alarm_count (sim_ack_alarm 4 world_fault) = sim_get_alarm_count world_fault :=
  have h4 : 4 < live_count (world_fault.engine.demos world_fault.currentDemoIndex) := by
    decide!
  ⟨reachable_world_fault, h4,
    (sim_ack_alarm_effect world_fault reachable_world_fault 4).2.1 h4⟩

theorem ticks_from_reachable {w : World} (h : Reachable w) (start n : Nat) :
    Reachable (run_updates w (ticks_from start n)) :=
  reachable_run_updates h _

/-- C11 fails on the code at a reachable state.  On the CNC profile, after
`sim_init`, 85 ticks, the acknowledgement of the fault alarm and 10 more ticks,
five alarms are active; `sim_get_alarm(3)` is slot 3, "System recovery in
progress", inserted at clock 92000 into the slot that `clear_fault_alarms`
freed, and `sim_get_alarm(4)` is slot 4, the fault alarm inserted at clock 80000:
the enumeration lists the later insertion before the earlier one. -/
theorem alarm_enumeration_not_insertion_order :
    Reachable world_acked ∧
    sim_get_alarm_count world_acked = 5 ∧
    sim_get_alarm world_acked 3 = some 3 ∧
    sim_get_alarm world_acked 4 = some 4 ∧
    ((world_acked.engine.demos world_acked.currentDemoIndex).dynamicAlarms 3).message
      = "System recovery in progress" ∧
    ((world_acked.engine.demos world_acked.currentDemoIndex).dynamicAlarms 3).triggerTime
      = 92000 ∧
    ((world_acked.engine.demos world_acked.currentDemoIndex).dynamicAlarms 4).message
      = "FAULT: Spindle overload protection tripped" ∧
    ((world_acked.engine.demos world_acked.currentDemoIndex).dynamicAlarms 4).triggerTime
      = 80000 :=
  ⟨ticks_from_reachable (Reachable.ack 4 (ticks_from_reachable (Reachable.init 0) 0 85)) 85 10,
    by decide!⟩

/-! ## The AI targets and the smoothed AI values -/

theorem truncToInt_of_nonneg (x : ℚ) (h : 0 ≤ x) : truncToInt x = ⌊x⌋ := by
  unfold truncToInt
  rw [if_pos h]

/-- The integer part of `progress * k` for a progress in `[0, 1)`. -/
theorem trunc_progress (p : ℚ) (k : Nat) (h0 : 0 ≤ p) (h1 : p < 1) :
    0 ≤ truncToInt (p * (k : ℚ)) ∧ truncToInt (p * (k : ℚ)) ≤ (k : Int) := by
  have hk : (0 : ℚ) ≤ (k : ℚ) := Nat.cast_nonneg k
  have hx : 0 ≤ p * (k : ℚ) := mul_nonneg h0 hk
  rw [truncToInt_of_nonneg _ hx]
  refine ⟨Int.floor_nonneg.mpr hx, ?_⟩
  have h2 : ((⌊p * (k : ℚ)⌋ : Int) : ℚ) ≤ ((k : Int) : ℚ) := by
    have := Int.floor_le (p * (k : ℚ))
    have h3 : p * (k : ℚ) ≤ (k : ℚ) := by nlinarith
    push_cast
    linarith
  exact_mod_cast h2

theorem set_targets_ok (s : SimState_t) (t0 t1 t2 : ℚ) (health : Int) (failure : ℚ)
    (hh0 : 0 ≤ health) (hh1 : health ≤ 100) (hf0 : 0 ≤ failure) (hf1 : failure ≤ 100) :
    TargetsOk (set_targets s t0 t1 t2 health failure) := by
  refine ⟨?_, hf0, hf1⟩
  show toUInt8 health ≤ 100
  unfold toUInt8
  omega

theorem add_alarm_targets_ok (now : Nat) (s : SimState_t) (severity message : String)
    (h : TargetsOk s) : TargetsOk (add_alarm now s severity message) := by
  have hf := add_alarm_frame now s severity message
  unfold TargetsOk
  rw [hf.2.2.2.2.1, hf.2.2.2.2.2]
  exact h

theorem update_cnc_targets_ok (now : Nat) (r : Draws) (demo : DemoProfile_t)
    (sim : SimState_t) (h : TimerInv sim) : TargetsOk (update_cnc now r demo sim).2 := by
  have hp := progress_of_unit sim h
  have t15 := trunc_progress (progress_of sim) 15 hp.1 hp.2
  have t45 := trunc_progress (progress_of sim) 45 hp.1 hp.2
  simp only [Nat.cast_ofNat] at t15 t45
  unfold update_cnc
  split <;> simp only [] <;> (try split_ifs) <;>
    (repeat' apply add_alarm_targets_ok) <;>
    apply set_targets_ok <;>
    first
      | omega
      | (norm_num; try linarith [hp.1, hp.2])

theorem update_chiller_targets_ok (now : Nat) (r : Draws) (demo : DemoProfile_t)
    (sim : SimState_t) (h : TimerInv sim) : TargetsOk (update_chiller now r demo sim).2 := by
  have hp := progress_of_unit sim h
  have t15 := trunc_progress (progress_of sim) 15 hp.1 hp.2
  have t18 := trunc_progress (progress_of sim) 18 hp.1 hp.2
  have t20 := trunc_progress (progress_of sim) 20 hp.1 hp.2
  have t53 := trunc_progress (progress_of sim) 53 hp.1 hp.2
  simp only [Nat.cast_ofNat] at t15 t18 t20 t53
  unfold update_chiller
  split <;> simp only [] <;> (try split_ifs) <;>
    (repeat' apply add_alarm_targets_ok) <;>
    apply set_targets_ok <;>
    first
      | omega
      | (norm_num; try linarith [hp.1, hp.2])

theorem update_compressor_targets_ok (now : Nat) (r : Draws) (demo : DemoProfile_t)
    (sim : SimState_t) (h : TimerInv sim) :
    TargetsOk (update_compressor now r demo sim).2 := by
  have hp := progress_of_unit sim h
  have t14 := trunc_progress (progress_of sim) 14 hp.1 hp.2
  have t20 := trunc_progress (progress_of sim) 20 hp.1 hp.2
  have t25 := trunc_progress (progress_of sim) 25 hp.1 hp.2
  have t59 := trunc_progress (progress_of sim) 59 hp.1 hp.2
  simp only [Nat.cast_ofNat] at t14 t20 t25 t59
  unfold update_compressor
  split <;> simp only [] <;> (try split_ifs) <;>
    (repeat' apply add_alarm_targets_ok) <;>
    apply set_targets_ok <;>
    first
      | omega
      | (norm_num; try linarith [hp.1, hp.2])

theorem update_plc_targets_ok (now : Nat) (r : Draws) (demo : DemoProfile_t)
    (sim : SimState_t) (h : TimerInv sim) : TargetsOk (update_plc now r demo sim).2 := by
  have hp := progress_of_unit sim h
  have t15 := trunc_progress (progress_of sim) 15 hp.1 hp.2
  have t20 := trunc_progress (progress_of sim) 20 hp.1 hp.2
  have t57 := trunc_progress (progress_of sim) 57 hp.1 hp.2
  simp only [Nat.cast_ofNat] at t15 t20 t57
  unfold update_plc
  split <;> simp only [] <;> (try split_ifs) <;>
    (repeat' apply add_alarm_targets_ok) <;>
    apply set_targets_ok <;>
    first
      | omega
      | (norm_num; try linarith [hp.1, hp.2])

/-- Each of the four physics models sets `targetHealthScore` and
`targetFailureProb` inside `[0, 100]`, the integer expression of the health
target staying in `[0, 100]` before its conversion to `uint8_t`. -/
theorem run_physics_targets_ok (demoIdx : Fin DEMO_COUNT) (now : Nat) (r : Draws)
    (demo : DemoProfile_t) (sim : SimState_t) (h : TimerInv sim) :
    TargetsOk (run_physics demoIdx.val now r demo sim).2 := by
  fin_cases demoIdx
  · exact update_cnc_targets_ok now r demo sim h
  · exact update_chiller_targets_ok now r demo sim h
  · exact update_compressor_targets_ok now r demo sim h
  · exact update_plc_targets_ok now r demo sim h

/-- The health-score step in natural numbers: `(88 h + 12 T) / 100`, rounded down. -/
theorem health_step_eq (h T : Nat) (hh : h ≤ 255) (hT : T ≤ 255) :
    health_step h T = (88 * h + 12 * T) / 100 := by
  unfold health_step
  have he : approach (h : ℚ) (T : ℚ) 0.12 = ((88 * h + 12 * T : Nat) : ℚ) / ((100 : Nat) : ℚ) := by
    have : approach (h : ℚ) (T : ℚ) 0.12 = (h : ℚ) + ((T : ℚ) - (h : ℚ)) * 0.12 := rfl
    rw [this]
    push_cast
    norm_num
    ring
  have hnn : (0 : ℚ) ≤ ((88 * h + 12 * T : Nat) : ℚ) / ((100 : Nat) : ℚ) :=
    div_nonneg (Nat.cast_nonneg _) (Nat.cast_nonneg _)
  rw [he, truncToInt_of_nonneg _ hnn, Rat.floor_natCast_div_natCast]
  unfold toUInt8
  omega

theorem health_step_between (h T : Nat) (hh : h ≤ 100) (hT : T ≤ 100) :
    min h T ≤ health_step h T ∧ health_step h T ≤ max h T := by
  rw [health_step_eq h T (by omega) (by omega)]
  rcases Nat.le_total h T with hle | hle
  · rw [Nat.min_eq_left hle, Nat.max_eq_right hle]
    omega
  · rw [Nat.min_eq_right hle, Nat.max_eq_left hle]
    omega

/-- The smoothed AI values a tick leaves in the profile: the health step and the
failure-probability step toward the targets the physics model has just set. -/
theorem update_profile_ai (demoIdx now : Nat) (r : Draws) (demo : DemoProfile_t)
    (sim : SimState_t) :
    (update_profile demoIdx now r demo sim).1.ai.healthScore
      = health_step demo.ai.healthScore
          (run_physics demoIdx now r demo (clock_step now sim)).2.targetHealthScore ∧
    (update_profile demoIdx now r demo sim).1.ai.failureProbability
      = approach demo.ai.failureProbability
          (run_physics demoIdx now r demo (clock_step now sim)).2.targetFailureProb 0.1 := by
  have hphys := run_physics_profile_frame demoIdx now r demo (clock_step now sim)
  constructor
  · rw [← hphys.2.1]
    rfl
  · rw [← hphys.2.2]
    rfl

theorem ota_step_targets_ok (now : Nat) (r : Draws) (s : SimState_t) (h : TargetsOk s) :
    TargetsOk (ota_step now r s) := by
  unfold ota_step
  simp only []
  split_ifs
  · exact add_alarm_targets_ok _ _ _ _ h
  · exact h
  · exact h

theorem update_profile_targets_ok (demoIdx : Fin DEMO_COUNT) (now : Nat) (r : Draws)
    (demo : DemoProfile_t) (sim : SimState_t) :
    TargetsOk (update_profile demoIdx.val now r demo sim).2 := by
  rw [update_profile_sim]
  apply ota_step_targets_ok
  exact run_physics_targets_ok demoIdx now r demo (clock_step now sim)
    (clock_step_timer_inv now sim)

theorem approach_failure_between (fp target : ℚ) (h0 : 0 ≤ fp) (h1 : fp ≤ 100)
    (t0 : 0 ≤ target) (t1 : target ≤ 100) :
    0 ≤ approach fp target 0.1 ∧ approach fp target 0.1 ≤ 100 := by
  have he : approach fp target 0.1 = fp + (target - fp) * 0.1 := rfl
  rw [he]
  constructor <;> norm_num <;> linarith

theorem profile_table_ai (d : Fin DEMO_COUNT) :
    (demoProfiles_table d).ai.healthScore ≤ 100 ∧
    0 ≤ (demoProfiles_table d).ai.failureProbability ∧
    (demoProfiles_table d).ai.failureProbability ≤ 100 := by
  fin_cases d <;>
    simp [demoProfiles_table, profile_cnc, profile_chiller, profile_compressor, profile_plc] <;>
    norm_num

theorem sim_init_ai_inv (now : Nat) : AiInv (sim_init now boot) := by
  intro d
  exact ⟨profile_table_ai d, profile_table_ai d⟩

theorem sim_update_profiles (now : Nat) (r : Draws) (w : World)
    (hinit : w.engine.initialized = true) (d : Fin DEMO_COUNT) :
    (sim_update now r w).demoProfiles d =
      if d = w.currentDemoIndex then
        (update_profile w.currentDemoIndex.val now r (getDemo w)
          (w.engine.demos w.currentDemoIndex)).1
      else w.demoProfiles d := by
  unfold sim_update
  rw [if_neg (by simp [hinit])]
  by_cases hd : d = w.currentDemoIndex
  · subst hd
    simp
  · simp [hd]

theorem sim_update_ai_inv (now : Nat) (r : Draws) (w : World)
    (hinit : w.engine.initialized = true) (h : AiInv w) : AiInv (sim_update now r w) := by
  intro d
  rw [sim_update_profiles now r w hinit d, sim_update_demos now r w hinit d]
  by_cases hd : d = w.currentDemoIndex
  · rw [if_pos hd, if_pos hd]
    have hT := run_physics_targets_ok w.currentDemoIndex now r (getDemo w)
      (clock_step now (w.engine.demos w.currentDemoIndex)) (clock_step_timer_inv now _)
    have hai := update_profile_ai w.currentDemoIndex.val now r (getDemo w)
      (w.engine.demos w.currentDemoIndex)
    have hold := (h w.currentDemoIndex).1
    refine ⟨⟨?_, ?_⟩, update_profile_targets_ok w.currentDemoIndex now r _ _⟩
    · rw [hai.1]
      have hb := health_step_between (getDemo w).ai.healthScore _ hold.1 hT.1
      exact le_trans hb.2 (max_le hold.1 hT.1)
    · rw [hai.2]
      exact approach_failure_between _ _ hold.2.1 hold.2.2 hT.2.1 hT.2.2
  · rw [if_neg hd, if_neg hd]
    exact h d

theorem sim_ack_alarm_ai_inv (index : Nat) (w : World) (h : AiInv w) :
    AiInv (sim_ack_alarm index w) := by
  unfold sim_ack_alarm
  split
  · exact h
  · intro d
    refine ⟨(h d).1, ?_⟩
    by_cases hd : d = w.currentDemoIndex
    · rw [hd]
      simp only [Function.update_same]
      exact (h w.currentDemoIndex).2
    · simp only [Function.update_noteq hd]
      exact (h d).2

theorem sim_start_ota_ai_inv (now : Nat) (w : World) (h : AiInv w) :
    AiInv (sim_start_ota now w) := by
  unfold sim_start_ota
  split_ifs
  · exact h
  · intro d
    refine ⟨(h d).1, ?_⟩
    by_cases hd : d = w.currentDemoIndex
    · rw [hd]
      simp only [Function.update_same]
      exact add_alarm_targets_ok _ _ _ _ (h w.currentDemoIndex).2
    · simp only [Function.update_noteq hd]
      exact (h d).2

theorem reachable_ai_inv {w : World} (h : Reachable w) : AiInv w := by
  induction h with
  | init now => exact sim_init_ai_inv now
  | @update now r w hw ih => exact sim_update_ai_inv now r w (reachable_inv hw).1 ih
  | ack index _ ih => exact sim_ack_alarm_ai_inv index _ ih
  | ota now _ ih => exact sim_start_ota_ai_inv now _ ih
  | set index _ ih =>
    unfold setDemo
    split_ifs
    · exact ih
    · exact ih
  | next _ ih => exact ih

/-- C16: for each of the four profiles, in every state reachable from `sim_init`
(after any number of `sim_update` calls, for all random draws, whatever commands
and profile switches come between), `ai.healthScore` and `ai.failureProbability`
lie in `[0, 100]`; the targets `targetHealthScore` and `targetFailureProb` lie in
`[0, 100]` too. -/
theorem reachable_ai_bounds (w : World) (h : Reachable w) (d : Fin DEMO_COUNT) :
    (0 ≤ (w.demoProfiles d).ai.healthScore ∧ (w.demoProfiles d).ai.healthScore ≤ 100) ∧
    (0 ≤ (w.demoProfiles d).ai.failureProbability ∧
      (w.demoProfiles d).ai.failureProbability ≤ 100) ∧
    (w.engine.demos d).targetHealthScore ≤ 100 ∧
    (0 ≤ (w.engine.demos d).targetFailureProb ∧ (w.engine.demos d).targetFailureProb ≤ 100) :=
  ⟨⟨Nat.zero_le _, ((reachable_ai_inv h) d).1.1⟩, ((reachable_ai_inv h) d).1.2,
    ((reachable_ai_inv h) d).2.1, ((reachable_ai_inv h) d).2.2⟩

/-- Instance of C16: the CNC profile in Recovery, 95 ticks after `sim_init`. -/
theorem reachable_ai_bounds_witness :
    Reachable world_acked ∧
    (0 ≤ (world_acked.demoProfiles 0).ai.healthScore ∧
      (world_acked.demoProfiles 0).ai.healthScore ≤ 100) ∧
    (0 ≤ (world_acked.demoProfiles 0).ai.failureProbability ∧
      (world_acked.demoProfiles 0).ai.failureProbability ≤ 100) ∧
    (world_acked.engine.demos 0).targetHealthScore ≤ 100 ∧
    (0 ≤ (world_acked.engine.demos 0).targetFailureProb ∧
      (world_acked.engine.demos 0).targetFailureProb ≤ 100) :=
  have hr : Reachable world_acked :=
    ticks_from_reachable (Reachable.ack 4 (ticks_from_reachable (Reachable.init 0) 0 85)) 85 10
  ⟨hr, reachable_ai_bounds world_acked hr 0⟩

/-! ## The health-score step under a constant target -/

/-- One health-score step, by the position of the score relative to the target. -/
theorem health_step_cases (h T : Nat) (hh : h ≤ 100) (hT : T ≤ 100) :
    (T < h → T ≤ health_step h T ∧ health_step h T ≤ h - 1) ∧
    (h = T → health_step h T = h) ∧
    (h < T → T - h ≤ 8 → health_step h T = h) ∧
    (9 ≤ T - h → h < health_step h T ∧ health_step h T ≤ T) := by
  rw [health_step_eq h T (by omega) (by omega)]
  refine ⟨?_, ?_, ?_, ?_⟩ <;> intros <;> omega

theorem health_iter_succ (T n h : Nat) :
    health_iter T (n + 1) h = health_iter T n (health_step h T) := by
  unfold health_iter
  rw [Function.iterate_succ_apply]

theorem health_iter_fixed (T v : Nat) (hv : health_step v T = v) (m : Nat) :
    health_iter T m v = v := by
  unfold health_iter
  exact @Function.iterate_fixed Nat (fun x => health_step x T) v hv m

theorem health_iter_add (T m n h : Nat) :
    health_iter T (m + n) h = health_iter T m (health_iter T n h) := by
  unfold health_iter
  rw [Function.iterate_add_apply]

/-- A score that reaches a fixed point of the step after `n` steps keeps it. -/
theorem health_iter_stays (T n h v : Nat) (hn : health_iter T n h = v)
    (hv : health_step v T = v) (m : Nat) (hm : n ≤ m) : health_iter T m h = v := by
  have hsplit : m = (m - n) + n := by omega
  rw [hsplit, health_iter_add, hn, health_iter_fixed T v hv]

theorem health_iter_from_above (T : Nat) (hT : T ≤ 100) (d : Nat) :
    ∀ h, h ≤ 100 → T ≤ h → h - T ≤ d → ∃ n, n ≤ h - T ∧ health_iter T n h = T := by
  induction d with
  | zero =>
    intro h _ hle hd
    have : h = T := by omega
    exact ⟨0, Nat.zero_le _, this⟩
  | succ d ih =>
    intro h hh hle hd
    by_cases heq : h = T
    · exact ⟨0, Nat.zero_le _, heq⟩
    · have hstep := (health_step_cases h T hh hT).1 (by omega)
      obtain ⟨n, hn, hit⟩ := ih (health_step h T) (by omega) hstep.1 (by omega)
      exact ⟨n + 1, by omega, by rw [health_iter_succ, hit]⟩

theorem health_iter_from_below (T : Nat) (hT : T ≤ 100) (d : Nat) :
    ∀ h, h ≤ T → T - h ≤ d →
      ∃ n v, n ≤ T - h ∧ health_iter T n h = v ∧ health_step v T = v ∧ T ≤ v + 8 ∧ v ≤ T := by
  induction d with
  | zero =>
    intro h hle hd
    have heq : h = T := by omega
    exact ⟨0, h, Nat.zero_le _, rfl, (health_step_cases h T (by omega) hT).2.1 heq,
      by omega, hle⟩
  | succ d ih =>
    intro h hle hd
    by_cases hnear : T - h ≤ 8
    · refine ⟨0, h, Nat.zero_le _, rfl, ?_, by omega, hle⟩
      by_cases heq : h = T
      · exact (health_step_cases h T (by omega) hT).2.1 heq
      · exact (health_step_cases h T (by omega) hT).2.2.1 (by omega) hnear
    · have hstep := (health_step_cases h T (by omega) hT).2.2.2 (by omega)
      obtain ⟨n, v, hn, hit, hfix, hv1, hv2⟩ := ih (health_step h T) hstep.2 (by omega)
      exact ⟨n + 1, v, by omega, by rw [health_iter_succ, hit], hfix, hv1, hv2⟩

/-- C17, amended: under a constant target `T` in `[0, 100]`, the health-score step
`h <- (uint8)approach(h, T, 0.12)` from a score `h` in `[0, 100]` settles after
finitely many steps: at `T` itself, within `h - T` steps, when `h ≥ T`; at a value
`v` with `T - 8 ≤ v ≤ T`, within `T - h` steps, when `h < T`, and `v` is `h`
itself as soon as `T - h ≤ 8`. -/
theorem health_score_settles (h T : Nat) (hh : h ≤ 100) (hT : T ≤ 100) :
    (T ≤ h → ∃ n, n ≤ h - T ∧ ∀ m, n ≤ m → health_iter T m h = T) ∧
    (h < T → ∃ n v, n ≤ T - h ∧ T ≤ v + 8 ∧ v ≤ T ∧ ∀ m, n ≤ m → health_iter T m h = v) ∧
    (h < T → T - h ≤ 8 → ∀ m, health_iter T m h = h) := by
  refine ⟨?_, ?_, ?_⟩
  · intro hle
    obtain ⟨n, hn, hit⟩ := health_iter_from_above T hT (h - T) h hh hle (Nat.le_refl _)
    exact ⟨n, hn, health_iter_stays T n h T hit ((health_step_cases T T hT hT).2.1 rfl)⟩
  · intro hlt
    obtain ⟨n, v, hn, hit, hfix, hv1, hv2⟩ :=
      health_iter_from_below T hT (T - h) h (by omega) (Nat.le_refl _)
    exact ⟨n, v, hn, hv1, hv2, health_iter_stays T n h v hit hfix⟩
  · intro hlt hnear m
    exact health_iter_fixed T h ((health_step_cases h T hh hT).2.2.1 hlt hnear) m

/-- Instance of the amended C17: the score 40 under the target 90 settles at a
value in `[82, 90]`, and the score 95 under the target 90 settles at 90. -/
theorem health_score_settles_witness :
    (∃ n v, n ≤ 90 - 40 ∧ 90 ≤ v + 8 ∧ v ≤ 90 ∧ ∀ m, n ≤ m → health_iter 90 m 40 = v) ∧
    (∃ n, n ≤ 95 - 90 ∧ ∀ m, n ≤ m → health_iter 90 m 95 = 90) :=
  ⟨(health_score_settles 40 90 (by decide) (by decide)).2.1 (by decide),
    (health_score_settles 95 90 (by decide) (by decide)).1 (by decide)⟩

/-- The health target a tick leaves in the simulation state is the one its physics
model set. -/
theorem update_profile_target (demoIdx now : Nat) (r : Draws) (demo : DemoProfile_t)
    (sim : SimState_t) :
    (update_profile demoIdx now r demo sim).2.targetHealthScore
      = (run_physics demoIdx now r demo (clock_step now sim)).2.targetHealthScore := by
  rw [update_profile_sim]
  have hs := (smooth_sensors_frame (run_physics demoIdx now r demo (clock_step now sim)).1
    (run_physics demoIdx now r demo (clock_step now sim)).2).2.2.2.2.2.1
  rw [← hs]
  unfold ota_step
  simp only []
  split_ifs
  · exact (add_alarm_frame now _ "info" _).2.2.2.2.1
  · rfl
  · rfl

theorem update_cnc_normal_target (now : Nat) (r : Draws) (demo : DemoProfile_t)
    (sim : SimState_t) (h : sim.scenarioState = SCENARIO_NORMAL) :
    (update_cnc now r demo sim).2.targetHealthScore = 90 := by
  unfold update_cnc
  simp only [h]
  rfl

/-- One tick of the CNC profile inside the Normal state: a health score of 87 stays
87 under the target 90 the tick sets. -/
theorem cnc_normal_tick (now : Nat) (r : Draws) (w : World) (k c : Nat)
    (hinit : w.engine.initialized = true) (hidx : w.currentDemoIndex = 0)
    (hclock : clock_of (w.engine.demos 0) = (SCENARIO_NORMAL, k, c))
    (hh : (w.demoProfiles 0).ai.healthScore = 87) (hk : k + 1 < 45) :
    (sim_update now r w).engine.initialized = true ∧
    (sim_update now r w).currentDemoIndex = 0 ∧
    clock_of ((sim_update now r w).engine.demos 0) = (SCENARIO_NORMAL, k + 1, c) ∧
    ((sim_update now r w).demoProfiles 0).ai.healthScore = 87 ∧
    ((sim_update now r w).engine.demos 0).targetHealthScore = 90 := by
  have hi := sim_update_initialized now r w
  have hc := sim_update_clock_tick now r w hinit
  rw [hidx, hclock, clock_tick_stay SCENARIO_NORMAL k c hk] at hc
  have hstate : (clock_step now (w.engine.demos 0)).scenarioState = SCENARIO_NORMAL := by
    have h1 := clock_step_eq_tick now (w.engine.demos 0)
    rw [hclock, clock_tick_stay SCENARIO_NORMAL k c hk] at h1
    exact congrArg Prod.fst h1
  have hp := sim_update_profiles now r w hinit 0
  rw [if_pos hidx.symm, hidx] at hp
  have hd := sim_update_demos now r w hinit 0
  rw [if_pos hidx.symm, hidx] at hd
  have hphys : (run_physics (0 : Fin DEMO_COUNT).val now r (getDemo w)
      (clock_step now (w.engine.demos 0))).2.targetHealthScore = 90 :=
    update_cnc_normal_target now r (getDemo w) _ hstate
  have hget : (getDemo w).ai.healthScore = 87 := by
    unfold getDemo
    rw [hidx]
    exact hh
  refine ⟨by rw [hi.1, hinit], by rw [hi.2, hidx], hc, ?_, ?_⟩
  · rw [hp, (update_profile_ai _ now r (getDemo w) (w.engine.demos 0)).1, hphys, hget,
      health_step_eq 87 90 (by omega) (by omega)]
  · rw [hd, update_profile_target, hphys]

/-- A run of ticks of the CNC profile inside the Normal state keeps a health score
of 87 under the target 90. -/
theorem cnc_normal_run (ticks : List (Nat × Draws)) :
    ∀ (w : World) (k c : Nat), w.engine.initialized = true → w.currentDemoIndex = 0 →
      clock_of (w.engine.demos 0) = (SCENARIO_NORMAL, k, c) →
      (w.demoProfiles 0).ai.healthScore = 87 →
      (w.engine.demos 0).targetHealthScore = 90 → k + ticks.length < 45 →
      ((run_updates w ticks).demoProfiles 0).ai.healthScore = 87 ∧
      ((run_updates w ticks).engine.demos 0).targetHealthScore = 90 := by
  induction ticks with
  | nil =>
    intro w k c _ _ _ hh ht _
    exact ⟨hh, ht⟩
  | cons t ts ih =>
    intro w k c hinit hidx hclock hh _ hlen
    rw [List.length_cons] at hlen
    obtain ⟨h1, h2, h3, h4, h5⟩ := cnc_normal_tick t.1 t.2 w k c hinit hidx hclock hh (by omega)
    rw [run_updates_cons]
    exact ih _ (k + 1) c h1 h2 h3 h4 h5 (by omega)

/-- C17, counterexample: the step from the score 87 toward the target 90 computes
`(uint8)87.36 = 87`, so the score is 87 after every number of steps and never
reaches 90. In the engine: the CNC profile starts with the score 87, every tick of
the Normal state sets the target 90, and after each of the first 44 calls of
`sim_update` that follow `sim_init` the score is still 87 under the target 90. -/
theorem health_score_settles_counterexample :
    health_step 87 90 = 87 ∧ (∀ n, health_iter 90 n 87 = 87) ∧
    (boot.demoProfiles 0).ai.healthScore = 87 ∧
    ∀ (now : Nat) (t : Nat × Draws) (ts : List (Nat × Draws)), ts.length < 44 →
      ((run_updates (sim_init now boot) (t :: ts)).demoProfiles 0).ai.healthScore = 87 ∧
      ((run_updates (sim_init now boot) (t :: ts)).engine.demos 0).targetHealthScore = 90 := by
  have hstep : health_step 87 90 = 87 := by
    rw [health_step_eq 87 90 (by omega) (by omega)]
  refine ⟨hstep, fun n => health_iter_fixed 90 87 hstep n, rfl, ?_⟩
  intro now t ts hlen
  obtain ⟨h1, h2, h3, h4, h5⟩ :=
    cnc_normal_tick t.1 t.2 (sim_init now boot) 0 0 rfl rfl rfl rfl (by omega)
  rw [run_updates_cons]
  exact cnc_normal_run ts _ 1 0 h1 h2 h3 h4 h5 (by omega)

/-! ## The OTA run -/

theorem ota_step_ota (now : Nat) (r : Draws) (s : SimState_t) :
    ota_of (ota_step now r s) = ota_next r (ota_of s) := by
  unfold ota_step ota_next ota_of
  simp only []
  by_cases hp : s.otaInProgress = true
  · rw [if_pos hp, if_pos hp]
    by_cases hq : toUInt8 ((s.otaProgress : Int) + (2 + random_range r.ota 0 3)) ≥ 100
    · rw [if_pos hq, if_pos hq, (add_alarm_frame now _ "info" _).2.1,
        (add_alarm_frame now _ "info" _).2.2.1]
    · rw [if_neg hq, if_neg hq, hp]
  · rw [if_neg hp, if_neg hp]

/-- A tick changes the OTA fields of the active profile as the OTA block does. -/
theorem update_profile_ota (demoIdx now : Nat) (r : Draws) (demo : DemoProfile_t)
    (sim : SimState_t) :
    ota_of (update_profile demoIdx now r demo sim).2 = ota_next r (ota_of sim) := by
  rw [update_profile_sim, ota_step_ota]
  have hs := smooth_sensors_frame (run_physics demoIdx now r demo (clock_step now sim)).1
    (run_physics demoIdx now r demo (clock_step now sim)).2
  have hr := raises_frame (run_physics_raises demoIdx now r demo (clock_step now sim))
  have hc := clock_step_frame now sim
  have h : ota_of (smooth_sensor (smooth_sensor (smooth_sensor
      (run_physics demoIdx now r demo (clock_step now sim)) 0) 1) 2).2 = ota_of sim := by
    unfold ota_of
    rw [hs.2.2.2.1, hs.2.2.2.2.1, hr.2.1, hr.2.2, hc.2.1, hc.2.2]
  rw [h]

theorem random_range_ota (raw : Nat) :
    ∃ d : Nat, d ≤ 2 ∧ random_range raw 0 3 = (d : Int) := by
  refine ⟨raw % 3, by omega, ?_⟩
  unfold random_range
  rw [if_neg (by decide)]
  push_cast
  omega

/-- The OTA block while the download runs: it adds 2, 3 or 4 without wrapping and
ends the download once the sum is 100 or more. -/
theorem ota_next_cases (r : Draws) (p : Bool × Nat) (h1 : p.1 = true) (h2 : p.2 < 100) :
    (ota_next r p = (false, 100) ∧ 100 ≤ p.2 + 4) ∨
    (∃ q, ota_next r p = (true, q) ∧ p.2 + 2 ≤ q ∧ q ≤ p.2 + 4 ∧ q < 100) := by
  obtain ⟨d, hd, hr⟩ := random_range_ota r.ota
  have hq : toUInt8 ((p.2 : Int) + (2 + random_range r.ota 0 3)) = p.2 + 2 + d := by
    unfold toUInt8
    rw [hr]
    omega
  unfold ota_next
  rw [if_pos h1, hq]
  by_cases hge : p.2 + 2 + d ≥ 100
  · rw [if_pos hge]
    exact Or.inl ⟨rfl, by omega⟩
  · rw [if_neg hge]
    exact Or.inr ⟨p.2 + 2 + d, rfl, by omega, by omega, by omega⟩

theorem ota_next_done (r : Draws) (p : Bool × Nat) (h : p.1 = false) : ota_next r p = p := by
  unfold ota_next
  rw [if_neg (by simp [h])]

/-- The OTA fields along a run of the OTA block that starts at `(true, 0)`. -/
theorem ota_sequence (g : Nat → Bool × Nat) (r : Nat → Draws) (h0 : g 0 = (true, 0))
    (hs : ∀ k, g (k + 1) = ota_next (r k) (g k)) :
    ∃ n, 25 ≤ n ∧ n ≤ 50 ∧ (∀ k, k < n → (g k).1 = true ∧ (g k).2 < 100) ∧
      (∀ k, n ≤ k → g k = (false, 100)) ∧ (∀ k, k < n → (g k).2 < (g (k + 1)).2) ∧
      ∀ k, (g k).2 ≤ 100 := by
  have hinv : ∀ k, ((g k).1 = true ∧ 2 * k ≤ (g k).2 ∧ (g k).2 ≤ 4 * k ∧ (g k).2 < 100) ∨
      (g k = (false, 100) ∧ 25 ≤ k) := by
    intro k
    induction k with
    | zero => exact Or.inl (by rw [h0]; simp)
    | succ k ih =>
      rcases ih with ⟨h1, h2, h3, h4⟩ | ⟨h1, h2⟩
      · rcases ota_next_cases (r k) (g k) h1 h4 with ⟨hn, hb⟩ | ⟨q, hn, hq1, hq2, hq3⟩
        · exact Or.inr ⟨by rw [hs, hn], by omega⟩
        · refine Or.inl ?_
          rw [hs, hn]
          exact ⟨rfl, by simp only []; omega, by simp only []; omega, hq3⟩
      · exact Or.inr ⟨by rw [hs, ota_next_done _ _ (by rw [h1]), h1], by omega⟩
  have hex : ∃ k, (g k).1 = false := by
    refine ⟨50, ?_⟩
    rcases hinv 50 with ⟨_, h2, _, h4⟩ | ⟨h1, _⟩
    · omega
    · rw [h1]
  have hlive : ∀ k, k < Nat.find hex → (g k).1 = true ∧ 2 * k ≤ (g k).2 ∧ (g k).2 ≤ 4 * k ∧
      (g k).2 < 100 := by
    intro k hk
    rcases hinv k with h | ⟨h1, _⟩
    · exact h
    · exact absurd (by rw [h1]) (Nat.find_min hex hk)
  have hdone : ∀ k, Nat.find hex ≤ k → g k = (false, 100) := by
    intro k hk
    induction k, hk using Nat.le_induction with
    | base =>
      rcases hinv (Nat.find hex) with ⟨h1, _⟩ | ⟨h1, _⟩
      · exact absurd (Nat.find_spec hex) (by rw [h1]; simp)
      · exact h1
    | succ m hm ih => rw [hs, ih, ota_next_done _ _ rfl]
  refine ⟨Nat.find hex, ?_, ?_, ?_, hdone, ?_, ?_⟩
  · rcases hinv (Nat.find hex) with ⟨h1, _⟩ | ⟨_, h2⟩
    · exact absurd (Nat.find_spec hex) (by rw [h1]; simp)
    · exact h2
  · apply Nat.find_min' hex
    rcases hinv 50 with ⟨_, h2, _, h4⟩ | ⟨h1, _⟩
    · omega
    · rw [h1]
  · intro k hk
    exact ⟨(hlive k hk).1, (hlive k hk).2.2.2⟩
  · intro k hk
    obtain ⟨h1, _, _, h4⟩ := hlive k hk
    rcases ota_next_cases (r k) (g k) h1 h4 with ⟨hn, _⟩ | ⟨q, hn, hq1, _, _⟩
    · rw [hs, hn]
      exact h4
    · rw [hs, hn]
      simp only []
      omega
  · intro k
    rcases hinv k with ⟨_, _, _, h4⟩ | ⟨h1, _⟩
    · omega
    · rw [h1]

theorem run_seq_initialized (w : World) (ticks : Nat → Nat × Draws) (k : Nat) :
    (run_seq w ticks k).engine.initialized = w.engine.initialized ∧
    (run_seq w ticks k).currentDemoIndex = w.currentDemoIndex := by
  induction k with
  | zero => exact ⟨rfl, rfl⟩
  | succ k ih =>
    have h := sim_update_initialized (ticks k).1 (ticks k).2 (run_seq w ticks k)
    exact ⟨h.1.trans ih.1, h.2.trans ih.2⟩

theorem sim_start_ota_initialized (now : Nat) (w : World) :
    (sim_start_ota now w).engine.initialized = w.engine.initialized ∧
    (sim_start_ota now w).currentDemoIndex = w.currentDemoIndex := by
  unfold sim_start_ota
  split_ifs <;> exact ⟨rfl, rfl⟩

/-- On an initialized engine `sim_start_ota` sets the two OTA fields of the active
profile to `true` and 0. -/
theorem sim_start_ota_ota (now : Nat) (w : World) (hinit : w.engine.initialized = true) :
    ota_of ((sim_start_ota now w).engine.demos w.currentDemoIndex) = (true, 0) := by
  unfold sim_start_ota ota_of
  rw [if_neg (by simp [hinit])]
  simp only [Function.update_same]
  rw [(add_alarm_frame now _ "info" _).2.1, (add_alarm_frame now _ "info" _).2.2.1]

/-- Each tick of an OTA run applies the OTA block to the OTA fields. -/
theorem ota_run_succ (now : Nat) (w : World) (hinit : w.engine.initialized = true)
    (ticks : Nat → Nat × Draws) (k : Nat) :
    ota_of (ota_run now w ticks (k + 1)) = ota_next (ticks k).2 (ota_of (ota_run now w ticks k)) := by
  have hi := run_seq_initialized (sim_start_ota now w) ticks k
  have hs := sim_start_ota_initialized now w
  have hidx : (run_seq (sim_start_ota now w) ticks k).currentDemoIndex = w.currentDemoIndex :=
    hi.2.trans hs.2
  have hini : (run_seq (sim_start_ota now w) ticks k).engine.initialized = true := by
    rw [hi.1, hs.1, hinit]
  have hd := sim_update_demos (ticks k).1 (ticks k).2 (run_seq (sim_start_ota now w) ticks k)
    hini w.currentDemoIndex
  rw [if_pos hidx.symm, hidx] at hd
  unfold ota_run
  have hrun : run_seq (sim_start_ota now w) ticks (k + 1)
      = sim_update (ticks k).1 (ticks k).2 (run_seq (sim_start_ota now w) ticks k) := rfl
  rw [hrun, hd, update_profile_ota]

/-- C18: on an initialized engine, after `sim_start_ota` (which leaves
`otaInProgress = true` and `otaProgress = 0` in the active profile) and for every
sequence of clock values and random draws, there is a tick number `n` with
`25 ≤ n ≤ 50` such that: after each of the first `n - 1` ticks (and before the
first) `otaInProgress` is true and `otaProgress < 100`; after tick `n` and after
every later tick `otaProgress = 100` and `otaInProgress = false`; `otaProgress`
strictly increases at each of the `n` ticks; and `otaProgress ≤ 100` after every
tick. -/
theorem ota_run_completes (now : Nat) (w : World) (hinit : w.engine.initialized = true)
    (ticks : Nat → Nat × Draws) :
    (ota_run now w ticks 0).otaInProgress = true ∧ (ota_run now w ticks 0).otaProgress = 0 ∧
    ∃ n, 25 ≤ n ∧ n ≤ 50 ∧
      (∀ k, k < n → (ota_run now w ticks k).otaInProgress = true ∧
        (ota_run now w ticks k).otaProgress < 100) ∧
      (∀ k, n ≤ k → (ota_run now w ticks k).otaProgress = 100 ∧
        (ota_run now w ticks k).otaInProgress = false) ∧
      (∀ k, k < n →
        (ota_run now w ticks k).otaProgress < (ota_run now w ticks (k + 1)).otaProgress) ∧
      ∀ k, (ota_run now w ticks k).otaProgress ≤ 100 := by
  have h0 : ota_of (ota_run now w ticks 0) = (true, 0) := sim_start_ota_ota now w hinit
  obtain ⟨n, hn1, hn2, hlive, hdone, hinc, hle⟩ :=
    ota_sequence (fun k => ota_of (ota_run now w ticks k)) (fun k => (ticks k).2) h0
      (ota_run_succ now w hinit ticks)
  refine ⟨congrArg Prod.fst h0, congrArg Prod.snd h0, n, hn1, hn2, hlive, ?_, hinc, hle⟩
  intro k hk
  exact ⟨congrArg Prod.snd (hdone k hk), congrArg Prod.fst (hdone k hk)⟩

/-- Instance of C18: an OTA run started on the engine right after `sim_init`, every
tick at clock 0 with all raw draws 0. -/
theorem ota_run_completes_witness :
    (sim_init 0 boot).engine.initialized = true ∧
    ∃ n, 25 ≤ n ∧ n ≤ 50 ∧
      (∀ k, k < n → (ota_run 0 (sim_init 0 boot) (fun _ => (0, default)) k).otaInProgress = true ∧
        (ota_run 0 (sim_init 0 boot) (fun _ => (0, default)) k).otaProgress < 100) ∧
      (∀ k, n ≤ k → (ota_run 0 (sim_init 0 boot) (fun _ => (0, default)) k).otaProgress = 100 ∧
        (ota_run 0 (sim_init 0 boot) (fun _ => (0, default)) k).otaInProgress = false) ∧
      (∀ k, k < n → (ota_run 0 (sim_init 0 boot) (fun _ => (0, default)) k).otaProgress
        < (ota_run 0 (sim_init 0 boot) (fun _ => (0, default)) (k + 1)).otaProgress) ∧
      ∀ k, (ota_run 0 (sim_init 0 boot) (fun _ => (0, default)) k).otaProgress ≤ 100 :=
  ⟨rfl, (ota_run_completes 0 (sim_init 0 boot) rfl (fun _ => (0, default))).2.2⟩

/-! ## The alarms a profile can hold -/

theorem physics_alarms_of_ge (demoIdx : Nat) (h : ¬ demoIdx < 4) : physics_alarms demoIdx = [] := by
  unfold physics_alarms
  split <;> first | omega | rfl

theorem profile_alarms_facts (demoIdx : Nat) :
    (profile_alarms demoIdx).length ≤ 8 ∧
    (∀ p ∈ profile_alarms demoIdx, p.1.length ≤ 7 ∧ p.2.length ≤ 79) ∧
    (∀ p ∈ profile_alarms demoIdx, p.2 = ota_done_message → p.1 = "info") ∧
    (∀ p ∈ physics_alarms demoIdx, p.2 ≠ ota_done_message) := by
  have h4 : ∀ k : Fin 4, (profile_alarms k.val).length ≤ 8 ∧
      (∀ p ∈ profile_alarms k.val, p.1.length ≤ 7 ∧ p.2.length ≤ 79) ∧
      (∀ p ∈ profile_alarms k.val, p.2 = ota_done_message → p.1 = "info") ∧
      (∀ p ∈ physics_alarms k.val, p.2 ≠ ota_done_message) := by
    decide
  by_cases hk : demoIdx < 4
  · exact h4 ⟨demoIdx, hk⟩
  · unfold profile_alarms
    rw [physics_alarms_of_ge demoIdx hk]
    decide

theorem msg_inv_of_slots {s s' : SimState_t} (demoIdx : Nat)
    (hslot : ∀ j : Fin MAX_DYNAMIC_ALARMS, (s'.dynamicAlarms j).active = true →
      (s.dynamicAlarms j).active = true ∧
      (s'.dynamicAlarms j).severity = (s.dynamicAlarms j).severity ∧
      (s'.dynamicAlarms j).message = (s.dynamicAlarms j).message)
    (h : MsgInv demoIdx s) : MsgInv demoIdx s' := by
  intro i hi
  obtain ⟨h1, h2, h3⟩ := hslot i hi
  rw [h2, h3]
  exact h i h1

theorem add_alarm_msg_inv (now : Nat) (s : SimState_t) (severity message : String)
    (demoIdx : Nat) (hin : (severity, message) ∈ profile_alarms demoIdx)
    (h : MsgInv demoIdx s) : MsgInv demoIdx (add_alarm now s severity message) := by
  cases hact : alarm_already_active s message with
  | true =>
    rw [add_alarm_of_active now s severity message hact]
    exact h
  | false =>
    rw [add_alarm_of_not_active now s severity message hact]
    have hfit := (profile_alarms_facts demoIdx).2.1 _ hin
    intro i hi
    simp only [store_apply] at hi ⊢
    by_cases hik : i.val = alarm_slot s
    · simp only [if_pos hik]
      rw [strncpy_of_length_le severity (SEVERITY_SIZE - 1) hfit.1,
        strncpy_of_length_le message (MESSAGE_SIZE - 1) hfit.2]
      exact hin
    · rw [if_neg hik] at hi
      simp only [if_neg hik]
      exact h i hi

/-- The clock step on one alarm slot: message and severity are kept, an active slot
was active, and an active slot whose severity is not "error" stays active. -/
theorem clock_step_slot (now : Nat) (s : SimState_t) (j : Fin MAX_DYNAMIC_ALARMS) :
    ((clock_step now s).dynamicAlarms j).message = (s.dynamicAlarms j).message ∧
    ((clock_step now s).dynamicAlarms j).severity = (s.dynamicAlarms j).severity ∧
    (((clock_step now s).dynamicAlarms j).active = true → (s.dynamicAlarms j).active = true) ∧
    ((s.dynamicAlarms j).active = true → (s.dynamicAlarms j).severity ≠ "error" →
      ((clock_step now s).dynamicAlarms j).active = true) := by
  have hclear : ∀ t : SimState_t, t.dynamicAlarms = s.dynamicAlarms →
      ((clear_fault_alarms t).dynamicAlarms j).message = (s.dynamicAlarms j).message ∧
      ((clear_fault_alarms t).dynamicAlarms j).severity = (s.dynamicAlarms j).severity ∧
      (((clear_fault_alarms t).dynamicAlarms j).active = true →
        (s.dynamicAlarms j).active = true) ∧
      ((s.dynamicAlarms j).active = true → (s.dynamicAlarms j).severity ≠ "error" →
        ((clear_fault_alarms t).dynamicAlarms j).active = true) := by
    intro t ht
    rw [clear_fault_alarms_apply, ht]
    by_cases hc : j.val < t.dynamicAlarmCount ∧
        ((s.dynamicAlarms j).active && !(s.dynamicAlarms j).acked
          && (s.dynamicAlarms j).severity == "error") = true
    · rw [if_pos hc]
      refine ⟨rfl, rfl, fun h => absurd h (by simp), fun _ hsev => ?_⟩
      have := hc.2
      simp only [Bool.and_eq_true, beq_iff_eq] at this
      exact absurd this.2 hsev
    · rw [if_neg hc]
      exact ⟨rfl, rfl, fun h => h, fun h _ => h⟩
  unfold clock_step transition_state
  simp only []
  split_ifs
  · exact hclear _ rfl
  · exact ⟨rfl, rfl, fun h => h, fun h _ => h⟩
  · exact hclear _ rfl
  · exact ⟨rfl, rfl, fun h => h, fun h _ => h⟩
  · exact ⟨rfl, rfl, fun h => h, fun h _ => h⟩

theorem clock_step_msg_inv (now : Nat) (s : SimState_t) (demoIdx : Nat)
    (h : MsgInv demoIdx s) : MsgInv demoIdx (clock_step now s) :=
  msg_inv_of_slots demoIdx (fun j hj =>
    ⟨(clock_step_slot now s j).2.2.1 hj, (clock_step_slot now s j).2.1,
      (clock_step_slot now s j).1⟩) h

theorem raises_msg_inv {M : String → String → Prop} (demoIdx : Nat)
    (hM : ∀ sev msg, M sev msg → (sev, msg) ∈ profile_alarms demoIdx) {s s' : SimState_t}
    (hr : Raises M s s') (h : MsgInv demoIdx s) : MsgInv demoIdx s' := by
  induction hr with
  | refl => exact h
  | targets t0 t1 t2 health failure _ ih => exact ih
  | alarm now sev msg hmsg _ ih => exact add_alarm_msg_inv now _ sev msg demoIdx (hM sev msg hmsg) ih

theorem ota_step_msg_inv (now : Nat) (r : Draws) (s : SimState_t) (demoIdx : Nat)
    (h : MsgInv demoIdx s) : MsgInv demoIdx (ota_step now r s) := by
  unfold ota_step
  simp only []
  split_ifs
  · apply add_alarm_msg_inv
    · unfold profile_alarms ota_alarms
      simp
    · exact h
  · exact h
  · exact h

theorem update_profile_msg_inv (demoIdx now : Nat) (r : Draws) (demo : DemoProfile_t)
    (sim : SimState_t) (h : MsgInv demoIdx sim) :
    MsgInv demoIdx (update_profile demoIdx now r demo sim).2 := by
  rw [update_profile_sim]
  apply ota_step_msg_inv
  have hphys : MsgInv demoIdx (run_physics demoIdx now r demo (clock_step now sim)).2 :=
    raises_msg_inv demoIdx
      (fun sev msg hm => by
        unfold profile_alarms
        exact List.mem_append_left _ hm)
      (run_physics_raises demoIdx now r demo (clock_step now sim))
      (clock_step_msg_inv now sim demoIdx h)
  exact hphys

theorem sim_ack_alarm_msg_inv (index : Nat) (w : World)
    (h : ∀ d : Fin DEMO_COUNT, MsgInv d.val (w.engine.demos d)) (d : Fin DEMO_COUNT) :
    MsgInv d.val ((sim_ack_alarm index w).engine.demos d) := by
  unfold sim_ack_alarm
  split
  · exact h d
  · next slot _ =>
    by_cases hdc : d = w.currentDemoIndex
    · rw [hdc]
      simp only [Function.update_same]
      refine @msg_inv_of_slots (w.engine.demos w.currentDemoIndex) _ _ ?_ (h _)
      intro j
      simp only [store_apply]
      by_cases hj : j.val = slot
      · rw [if_pos hj, ← hj, load_fin]
        exact fun hact => ⟨hact, rfl, rfl⟩
      · rw [if_neg hj]
        exact fun hact => ⟨hact, rfl, rfl⟩
    · simp only [Function.update_noteq hdc]
      exact h d

theorem sim_start_ota_msg_inv (now : Nat) (w : World)
    (h : ∀ d : Fin DEMO_COUNT, MsgInv d.val (w.engine.demos d)) (d : Fin DEMO_COUNT) :
    MsgInv d.val ((sim_start_ota now w).engine.demos d) := by
  unfold sim_start_ota
  split_ifs
  · exact h d
  · by_cases hdc : d = w.currentDemoIndex
    · rw [hdc]
      simp only [Function.update_same]
      apply add_alarm_msg_inv
      · unfold profile_alarms ota_alarms
        simp
      · exact h w.currentDemoIndex
    · simp only [Function.update_noteq hdc]
      exact h d

theorem sim_update_msg_inv (now : Nat) (r : Draws) (w : World)
    (h : ∀ d : Fin DEMO_COUNT, MsgInv d.val (w.engine.demos d)) (d : Fin DEMO_COUNT) :
    MsgInv d.val ((sim_update now r w).engine.demos d) := by
  by_cases hinit : w.engine.initialized = true
  · rw [sim_update_demos now r w hinit d]
    split_ifs with hd
    · rw [hd]
      exact update_profile_msg_inv _ _ _ _ _ (h _)
    · exact h d
  · unfold sim_update
    rw [if_pos (by simpa using hinit)]
    exact h d

/-- In every reachable state, every active alarm of every profile holds the
arguments of one of the `add_alarm` calls of that profile. -/
theorem reachable_msg_inv {w : World} (h : Reachable w) :
    ∀ d : Fin DEMO_COUNT, MsgInv d.val (w.engine.demos d) := by
  induction h with
  | init now =>
    intro d i hi
    cases hi
  | update now r _ ih => exact sim_update_msg_inv now r _ ih
  | ack index _ ih => exact sim_ack_alarm_msg_inv index _ ih
  | ota now _ ih => exact sim_start_ota_msg_inv now _ ih
  | set index _ ih =>
    unfold setDemo
    split_ifs
    · exact ih
    · exact ih
  | next _ ih => exact ih

/-! ## The OTA completion alarm -/

theorem count_message_zero_iff (sim : SimState_t) (m : String) :
    count_message sim m = 0 ↔
      ∀ i : Fin MAX_DYNAMIC_ALARMS, (sim.dynamicAlarms i).active = true →
        (sim.dynamicAlarms i).message ≠ m := by
  rw [count_message_eq_card, Finset.card_eq_zero, Finset.filter_eq_empty_iff]
  constructor
  · intro h i hi hm
    exact h (Finset.mem_univ i) ⟨hi, hm⟩
  · intro h i _ hi
    exact h i hi.1 hi.2

theorem count_message_eq_one (sim : SimState_t) (m : String) (hp : PoolInv sim)
    (h : ∃ i : Fin MAX_DYNAMIC_ALARMS, (sim.dynamicAlarms i).active = true ∧
      (sim.dynamicAlarms i).message = m) : count_message sim m = 1 := by
  obtain ⟨i, hi, hm⟩ := h
  rw [count_message_eq_card, Finset.card_eq_one]
  refine ⟨i, ?_⟩
  ext j
  rw [Finset.mem_filter, Finset.mem_singleton]
  constructor
  · rintro ⟨-, hj, hjm⟩
    exact hp.2 j i hj hi (hjm.trans hm.symm)
  · intro hji
    rw [hji]
    exact ⟨Finset.mem_univ i, hi, hm⟩

theorem add_alarm_no_done (now : Nat) (s : SimState_t) (severity message : String)
    (hne : message ≠ ota_done_message) (hlen : message.length ≤ 79) (h : NoDone s) :
    NoDone (add_alarm now s severity message) := by
  cases hact : alarm_already_active s message with
  | true =>
    rw [add_alarm_of_active now s severity message hact]
    exact h
  | false =>
    rw [add_alarm_of_not_active now s severity message hact]
    intro i hi
    simp only [store_apply] at hi ⊢
    by_cases hik : i.val = alarm_slot s
    · simp only [if_pos hik]
      rw [strncpy_of_length_le message (MESSAGE_SIZE - 1) hlen]
      exact hne
    · rw [if_neg hik] at hi
      simp only [if_neg hik]
      exact h i hi

theorem clock_step_no_done (now : Nat) (s : SimState_t) (h : NoDone s) :
    NoDone (clock_step now s) := by
  intro i hi
  rw [(clock_step_slot now s i).1]
  exact h i ((clock_step_slot now s i).2.2.1 hi)

theorem raises_no_done {M : String → String → Prop}
    (hM : ∀ sev msg, M sev msg → msg ≠ ota_done_message ∧ msg.length ≤ 79) {s s' : SimState_t}
    (hr : Raises M s s') (h : NoDone s) : NoDone s' := by
  induction hr with
  | refl => exact h
  | targets t0 t1 t2 health failure _ ih => exact ih
  | alarm now sev msg hmsg _ ih =>
    exact add_alarm_no_done now _ sev msg (hM sev msg hmsg).1 (hM sev msg hmsg).2 ih

/-- Before the OTA block, a tick leaves the two OTA fields as they were. -/
theorem physics_ota (demoIdx now : Nat) (r : Draws) (demo : DemoProfile_t) (sim : SimState_t) :
    ota_of (smooth_sensor (smooth_sensor (smooth_sensor
      (run_physics demoIdx now r demo (clock_step now sim)) 0) 1) 2).2 = ota_of sim := by
  have hs := smooth_sensors_frame (run_physics demoIdx now r demo (clock_step now sim)).1
    (run_physics demoIdx now r demo (clock_step now sim)).2
  have hr := raises_frame (run_physics_raises demoIdx now r demo (clock_step now sim))
  have hc := clock_step_frame now sim
  unfold ota_of
  rw [hs.2.2.2.1, hs.2.2.2.2.1, hr.2.1, hr.2.2, hc.2.1, hc.2.2]

theorem ota_fires_eq (r : Draws) (s : SimState_t) :
    ota_fires r s = ((ota_of s).1 && !(ota_next r (ota_of s)).1) := by
  unfold ota_fires ota_next ota_of
  simp only []
  cases hp : s.otaInProgress with
  | false => simp
  | true =>
    by_cases hq : toUInt8 ((s.otaProgress : Int) + (2 + random_range r.ota 0 3)) ≥ 100
    · simp [hq]
    · simp [hq]

/-- When its condition fails, the OTA block leaves the alarm pool alone. -/
theorem ota_step_quiet (now : Nat) (r : Draws) (s : SimState_t) (h : ota_fires r s = false) :
    (ota_step now r s).dynamicAlarms = s.dynamicAlarms := by
  unfold ota_fires at h
  unfold ota_step
  simp only []
  by_cases hp : s.otaInProgress = true
  · rw [if_pos hp]
    rw [hp] at h
    have hq : ¬ toUInt8 ((s.otaProgress : Int) + (2 + random_range r.ota 0 3)) ≥ 100 := by
      simpa using h
    rw [if_neg hq]
  · rw [if_neg hp]

/-- A tick whose OTA block does not fire raises no completion alarm. -/
theorem update_profile_no_done (demoIdx now : Nat) (r : Draws) (demo : DemoProfile_t)
    (sim : SimState_t) (hfire : ota_fires r sim = false) (h : NoDone sim) :
    NoDone (update_profile demoIdx now r demo sim).2 := by
  have hphys : NoDone (run_physics demoIdx now r demo (clock_step now sim)).2 :=
    raises_no_done
      (fun sev msg hm => ⟨(profile_alarms_facts demoIdx).2.2.2 (sev, msg) hm,
        (physics_alarms_fit demoIdx sev msg hm).2⟩)
      (run_physics_raises demoIdx now r demo (clock_step now sim))
      (clock_step_no_done now sim h)
  have hmid : NoDone (smooth_sensor (smooth_sensor (smooth_sensor
      (run_physics demoIdx now r demo (clock_step now sim)) 0) 1) 2).2 := hphys
  have hf : ota_fires r (smooth_sensor (smooth_sensor (smooth_sensor
      (run_physics demoIdx now r demo (clock_step now sim)) 0) 1) 2).2 = false := by
    rw [ota_fires_eq, physics_ota, ← ota_fires_eq, hfire]
  rw [update_profile_sim]
  intro i hi
  rw [ota_step_quiet _ _ _ hf] at hi ⊢
  exact hmid i hi

/-- In a pool that satisfies the invariants, a message of the profile that is not
yet active finds a free slot: the profile has at most eight messages, each in at
most one active slot. -/
theorem free_slot_of_new_message (demoIdx : Nat) (s : SimState_t) (severity message : String)
    (hp : PoolInv s) (hm : MsgInv demoIdx s)
    (hin : (severity, message) ∈ profile_alarms demoIdx)
    (hact : alarm_already_active s message = false) :
    ∃ i : Fin MAX_DYNAMIC_ALARMS, (s.dynamicAlarms i).active = false := by
  by_contra hnone
  have hall : ∀ i : Fin MAX_DYNAMIC_ALARMS, (s.dynamicAlarms i).active = true := by
    intro i
    by_contra hi
    exact hnone ⟨i, by simpa using hi⟩
  have hmaps : ∀ i ∈ (Finset.univ : Finset (Fin MAX_DYNAMIC_ALARMS)),
      (s.dynamicAlarms i).message
        ∈ (((profile_alarms demoIdx).map Prod.snd).toFinset.erase message) := by
    intro i _
    rw [Finset.mem_erase, List.mem_toFinset, List.mem_map]
    refine ⟨?_, ⟨_, hm i (hall i), rfl⟩⟩
    intro heq
    have : alarm_already_active s message = true := by
      rw [alarm_already_active_iff]
      exact ⟨i, hp.1 i (hall i), hall i, heq⟩
    rw [hact] at this
    cases this
  have hinj : Set.InjOn (fun i : Fin MAX_DYNAMIC_ALARMS => (s.dynamicAlarms i).message)
      (Finset.univ : Finset (Fin MAX_DYNAMIC_ALARMS)) := by
    intro i _ j _ hij
    exact hp.2 i j (hall i) (hall j) hij
  have hcard := Finset.card_le_card_of_injOn _ hmaps hinj
  have hmem : message ∈ ((profile_alarms demoIdx).map Prod.snd).toFinset := by
    rw [List.mem_toFinset, List.mem_map]
    exact ⟨_, hin, rfl⟩
  have h1 := Finset.card_erase_of_mem hmem
  have h2 := List.toFinset_card_le ((profile_alarms demoIdx).map Prod.snd)
  have h3 := (profile_alarms_facts demoIdx).1
  rw [List.length_map] at h2
  rw [Finset.card_univ, Fintype.card_fin] at hcard
  have h8 : MAX_DYNAMIC_ALARMS = 8 := rfl
  omega

/-- In a pool that satisfies the invariants, `add_alarm` with a message of the
profile keeps an active completion alarm: it never evicts. -/
theorem add_alarm_has_done (now : Nat) (s : SimState_t) (severity message : String)
    (demoIdx : Nat) (hp : PoolInv s) (hm : MsgInv demoIdx s)
    (hin : (severity, message) ∈ profile_alarms demoIdx) (h : HasDone s) :
    HasDone (add_alarm now s severity message) := by
  cases hact : alarm_already_active s message with
  | true =>
    rw [add_alarm_of_active now s severity message hact]
    exact h
  | false =>
    obtain ⟨k, hk, hfree, -⟩ :=
      alarm_slot_free s (free_slot_of_new_message demoIdx s severity message hp hm hin hact)
    rw [add_alarm_of_not_active now s severity message hact]
    obtain ⟨i, hi, him⟩ := h
    have hik : ¬ i.val = alarm_slot s := by
      intro heq
      have : i = k := Fin.ext (heq.trans hk)
      rw [this, hfree] at hi
      cases hi
    refine ⟨i, ?_, ?_⟩
    · simp only [store_apply, if_neg hik]
      exact hi
    · simp only [store_apply, if_neg hik]
      exact him

theorem clock_step_has_done (now : Nat) (s : SimState_t) (demoIdx : Nat)
    (hm : MsgInv demoIdx s) (h : HasDone s) : HasDone (clock_step now s) := by
  obtain ⟨i, hi, him⟩ := h
  have hsev : (s.dynamicAlarms i).severity = "info" :=
    (profile_alarms_facts demoIdx).2.2.1 _ (hm i hi) him
  refine ⟨i, (clock_step_slot now s i).2.2.2 hi ?_, (clock_step_slot now s i).1.trans him⟩
  rw [hsev]
  decide

theorem raises_has_done {M : String → String → Prop} (demoIdx : Nat)
    (hM : ∀ sev msg, M sev msg → (sev, msg) ∈ profile_alarms demoIdx) {s s' : SimState_t}
    (hr : Raises M s s') (hp : PoolInv s) (hm : MsgInv demoIdx s) (h : HasDone s) :
    HasDone s' := by
  induction hr with
  | refl => exact h
  | targets t0 t1 t2 health failure _ ih => exact ih
  | alarm now sev msg hmsg hr ih =>
    exact add_alarm_has_done now _ sev msg demoIdx
      (raises_pool_inv (fun sev msg hx => ((profile_alarms_facts demoIdx).2.1 _ (hM sev msg hx)).2)
        hr hp)
      (raises_msg_inv demoIdx hM hr hm) (hM sev msg hmsg) ih

theorem ota_done_mem (demoIdx : Nat) : ("info", ota_done_message) ∈ profile_alarms demoIdx := by
  unfold profile_alarms ota_alarms ota_done_message
  simp

/-- A tick keeps an active completion alarm. -/
theorem update_profile_has_done (demoIdx now : Nat) (r : Draws) (demo : DemoProfile_t)
    (sim : SimState_t) (hp : PoolInv sim) (hm : MsgInv demoIdx sim) (h : HasDone sim) :
    HasDone (update_profile demoIdx now r demo sim).2 := by
  have hM : ∀ sev msg, (sev, msg) ∈ physics_alarms demoIdx → (sev, msg) ∈ profile_alarms demoIdx :=
    fun sev msg hx => by
      unfold profile_alarms
      exact List.mem_append_left _ hx
  have hraise := run_physics_raises demoIdx now r demo (clock_step now sim)
  have hp1 := clock_step_pool_inv now sim hp
  have hm1 := clock_step_msg_inv now sim demoIdx hm
  have hp2 : PoolInv (run_physics demoIdx now r demo (clock_step now sim)).2 :=
    raises_pool_inv (fun sev msg hx => (physics_alarms_fit demoIdx sev msg hx).2) hraise hp1
  have hm2 : MsgInv demoIdx (run_physics demoIdx now r demo (clock_step now sim)).2 :=
    raises_msg_inv demoIdx hM hraise hm1
  have hd2 : HasDone (run_physics demoIdx now r demo (clock_step now sim)).2 :=
    raises_has_done demoIdx hM hraise hp1 hm1 (clock_step_has_done now sim demoIdx hm h)
  rw [update_profile_sim]
  unfold ota_step
  simp only []
  split_ifs
  · exact add_alarm_has_done now _ "info" _ demoIdx (pool_inv_of_eq rfl rfl hp2) hm2
      (ota_done_mem demoIdx) hd2
  · exact hd2
  · exact hd2

/-- A tick whose OTA block fires leaves an active completion alarm. -/
theorem update_profile_fires_has_done (demoIdx now : Nat) (r : Draws) (demo : DemoProfile_t)
    (sim : SimState_t) (hfire : ota_fires r sim = true) :
    HasDone (update_profile demoIdx now r demo sim).2 := by
  have hf : ota_fires r (smooth_sensor (smooth_sensor (smooth_sensor
      (run_physics demoIdx now r demo (clock_step now sim)) 0) 1) 2).2 = true := by
    rw [ota_fires_eq, physics_ota, ← ota_fires_eq, hfire]
  unfold ota_fires at hf
  rw [Bool.and_eq_true, decide_eq_true_iff] at hf
  rw [update_profile_sim]
  unfold ota_step
  simp only []
  rw [if_pos hf.1, if_pos hf.2]
  have hact := active_after_add_alarm now
    { (smooth_sensor (smooth_sensor (smooth_sensor
        (run_physics demoIdx now r demo (clock_step now sim)) 0) 1) 2).2 with
      otaProgress := 100, otaInProgress := false }
    "info" "Firmware update completed successfully (v1.1.0)" (by decide)
  rw [alarm_already_active_iff] at hact
  obtain ⟨i, -, hi, him⟩ := hact
  exact ⟨i, hi, him⟩

theorem reachable_run_seq {w : World} (h : Reachable w) (ticks : Nat → Nat × Draws) (k : Nat) :
    Reachable (run_seq w ticks k) := by
  induction k with
  | zero => exact h
  | succ k ih => exact Reachable.update (ticks k).1 (ticks k).2 ih

/-- Each tick of an OTA run applies the body of `sim_update` to the state of the
active profile. -/
theorem ota_run_step (now : Nat) (w : World) (hinit : w.engine.initialized = true)
    (ticks : Nat → Nat × Draws) (k : Nat) :
    ota_run now w ticks (k + 1) =
      (update_profile w.currentDemoIndex.val (ticks k).1 (ticks k).2
        (getDemo (run_seq (sim_start_ota now w) ticks k)) (ota_run now w ticks k)).2 := by
  have hi := run_seq_initialized (sim_start_ota now w) ticks k
  have hs := sim_start_ota_initialized now w
  have hidx : (run_seq (sim_start_ota now w) ticks k).currentDemoIndex = w.currentDemoIndex :=
    hi.2.trans hs.2
  have hini : (run_seq (sim_start_ota now w) ticks k).engine.initialized = true := by
    rw [hi.1, hs.1, hinit]
  have hd := sim_update_demos (ticks k).1 (ticks k).2 (run_seq (sim_start_ota now w) ticks k)
    hini w.currentDemoIndex
  rw [if_pos hidx.symm, hidx] at hd
  exact hd

/-- The invariants of the state of the active profile along an OTA run. -/
theorem ota_run_inv (now : Nat) (w : World) (hr : Reachable w) (ticks : Nat → Nat × Draws)
    (k : Nat) :
    PoolInv (ota_run now w ticks k) ∧ MsgInv w.currentDemoIndex.val (ota_run now w ticks k) := by
  have hreach := reachable_run_seq (Reachable.ota now hr) ticks k
  exact ⟨((reachable_inv hreach).2 w.currentDemoIndex).1,
    reachable_msg_inv hreach w.currentDemoIndex⟩

/-- On an initialized engine `sim_start_ota` raises no completion alarm. -/
theorem sim_start_ota_no_done (now : Nat) (w : World) (hinit : w.engine.initialized = true)
    (h : NoDone (w.engine.demos w.currentDemoIndex)) :
    NoDone ((sim_start_ota now w).engine.demos w.currentDemoIndex) := by
  unfold sim_start_ota
  rw [if_neg (by simp [hinit])]
  simp only [Function.update_same]
  exact add_alarm_no_done now _ "info" _ (by decide) (by decide) h

/-- C19: for an OTA run started with `sim_start_ota` from a reachable state whose
active profile holds no active completion alarm, and for every sequence of clock
values and random draws, there is a tick number `n` (between 25 and 50) such that
the OTA block of `sim_update` calls `add_alarm` with the completion message on
tick `n` and on no other tick; tick `n` is the one on which `otaProgress` reaches
100; no active alarm carries the completion message before tick `n`; and after
tick `n` and after every later tick exactly one active alarm carries it. -/
theorem ota_completion_alarm_once (now : Nat) (w : World) (hr : Reachable w)
    (hnone : count_message (w.engine.demos w.currentDemoIndex) ota_done_message = 0)
    (ticks : Nat → Nat × Draws) :
    ∃ n, 25 ≤ n ∧ n ≤ 50 ∧
      (∀ k, ota_fires (ticks k).2 (ota_run now w ticks k) = true ↔ k + 1 = n) ∧
      (∀ k, k < n → (ota_run now w ticks k).otaProgress < 100) ∧
      (ota_run now w ticks n).otaProgress = 100 ∧
      (∀ k, k < n → count_message (ota_run now w ticks k) ota_done_message = 0) ∧
      (∀ k, n ≤ k → count_message (ota_run now w ticks k) ota_done_message = 1) := by
  have hinit : w.engine.initialized = true := (reachable_inv hr).1
  have h0 : ota_of (ota_run now w ticks 0) = (true, 0) := sim_start_ota_ota now w hinit
  obtain ⟨n, hn1, hn2, hlive, hdone, -, -⟩ :=
    ota_sequence (fun k => ota_of (ota_run now w ticks k)) (fun k => (ticks k).2) h0
      (ota_run_succ now w hinit ticks)
  have hfire : ∀ k, ota_fires (ticks k).2 (ota_run now w ticks k) = true ↔ k + 1 = n := by
    intro k
    rw [ota_fires_eq, ← ota_run_succ now w hinit ticks k]
    rcases lt_trichotomy (k + 1) n with hlt | heq | hgt
    · have h1 := (hlive (k + 1) hlt).1
      simp only [] at h1
      rw [h1]
      simp
      omega
    · have h1 := (hlive k (by omega)).1
      have h2 := hdone (k + 1) (by omega)
      simp only [] at h1 h2
      rw [h1, h2]
      simp [heq]
    · have h1 := hdone k (by omega)
      simp only [] at h1
      rw [h1]
      simp
      omega
  have hbefore : ∀ k, k < n → NoDone (ota_run now w ticks k) := by
    intro k
    induction k with
    | zero =>
      intro _
      exact sim_start_ota_no_done now w hinit ((count_message_zero_iff _ _).1 hnone)
    | succ k ih =>
      intro hk
      rw [ota_run_step now w hinit ticks k]
      apply update_profile_no_done
      · by_contra hc
        rw [Bool.not_eq_false, hfire k] at hc
        omega
      · exact ih (by omega)
  have hafter : ∀ k, n ≤ k → HasDone (ota_run now w ticks k) := by
    intro k hk
    induction k, hk using Nat.le_induction with
    | base =>
      obtain ⟨m, hm⟩ : ∃ m, n = m + 1 := ⟨n - 1, by omega⟩
      rw [hm, ota_run_step now w hinit ticks m]
      exact update_profile_fires_has_done _ _ _ _ _ ((hfire m).2 hm.symm)
    | succ m _ ih =>
      rw [ota_run_step now w hinit ticks m]
      exact update_profile_has_done _ _ _ _ _ (ota_run_inv now w hr ticks m).1
        (ota_run_inv now w hr ticks m).2 ih
  refine ⟨n, hn1, hn2, hfire, fun k hk => (hlive k hk).2, ?_, ?_, ?_⟩
  · exact congrArg Prod.snd (hdone n (Nat.le_refl n))
  · intro k hk
    exact (count_message_zero_iff _ _).2 (hbefore k hk)
  · intro k hk
    exact count_message_eq_one _ _ (ota_run_inv now w hr ticks k).1 (hafter k hk)

/-- Instance of C19: an OTA run started on the engine right after `sim_init`, every
tick at clock 0 with all raw draws 0. -/
theorem ota_completion_alarm_once_witness :
    Reachable (sim_init 0 boot) ∧
    count_message ((sim_init 0 boot).engine.demos (sim_init 0 boot).currentDemoIndex)
      ota_done_message = 0 ∧
    ∃ n, 25 ≤ n ∧ n ≤ 50 ∧
      (∀ k, ota_fires (0, (default : Draws)).2
        (ota_run 0 (sim_init 0 boot) (fun _ => (0, default)) k) = true ↔ k + 1 = n) ∧
      (∀ k, k < n → (ota_run 0 (sim_init 0 boot) (fun _ => (0, default)) k).otaProgress < 100) ∧
      (ota_run 0 (sim_init 0 boot) (fun _ => (0, default)) n).otaProgress = 100 ∧
      (∀ k, k < n →
        count_message (ota_run 0 (sim_init 0 boot) (fun _ => (0, default)) k) ota_done_message
          = 0) ∧
      (∀ k, n ≤ k →
        count_message (ota_run 0 (sim_init 0 boot) (fun _ => (0, default)) k) ota_done_message
          = 1) :=
  ⟨Reachable.init 0, by decide,
    ota_completion_alarm_once 0 (sim_init 0 boot) (Reachable.init 0) (by decide)
      (fun _ => (0, default))⟩

/-! ## Closed form of the scenario clock -/

theorem clock_tick_cycles (q : Nat) :
    clock_tick^[102 * q] (SCENARIO_NORMAL, 0, 0) = (SCENARIO_NORMAL, 0, q % 256) := by
  induction q with
  | zero => rfl
  | succ q ih =>
    have h : 102 * (q + 1) = 102 + 102 * q := by ring
    rw [h, Function.iterate_add_apply, ih, clock_tick_full_cycle]
    congr 2
    omega

/-- The scenario clock `n` ticks after Normal with timer 0 and cycle counter 0. -/
theorem clock_tick_closed_form (n : Nat) :
    clock_tick^[n] (SCENARIO_NORMAL, 0, 0)
      = ((scenario_at (n % 102)).1, (scenario_at (n % 102)).2, (n / 102) % 256) := by
  have h : n = n % 102 + 102 * (n / 102) := (Nat.mod_add_div n 102).symm
  have hlt : n % 102 ≤ 101 := by omega
  nth_rewrite 1 [h]
  rw [Function.iterate_add_apply, clock_tick_cycles, clock_tick_iterate _ _ hlt]

/-- C24: after `sim_init` followed by `n` calls of `sim_update` on the same active
profile, with any clock values and random draws, and with `r = n mod 102`: the
profile is in Normal with `stateTimer = r` if `r < 45`, in Degradation with
`stateTimer = r - 45` if `45 ≤ r < 65`, in Warning with `stateTimer = r - 65` if
`65 ≤ r < 80`, in Fault with `stateTimer = r - 80` if `80 ≤ r < 92`, in Recovery
with `stateTimer = r - 92` if `92 ≤ r`, and `cycleCount = (n div 102) mod 256`. -/
theorem scenario_clock_closed_form (now : Nat) (w : World) (ticks : List (Nat × Draws)) :
    (ticks.length % 102 < 45 →
      ((run_updates (sim_init now w) ticks).engine.demos w.currentDemoIndex).scenarioState
        = SCENARIO_NORMAL ∧
      ((run_updates (sim_init now w) ticks).engine.demos w.currentDemoIndex).stateTimer
        = ticks.length % 102) ∧
    (45 ≤ ticks.length % 102 → ticks.length % 102 < 65 →
      ((run_updates (sim_init now w) ticks).engine.demos w.currentDemoIndex).scenarioState
        = SCENARIO_DEGRADATION ∧
      ((run_updates (sim_init now w) ticks).engine.demos w.currentDemoIndex).stateTimer
        = ticks.length % 102 - 45) ∧
    (65 ≤ ticks.length % 102 → ticks.length % 102 < 80 →
      ((run_updates (sim_init now w) ticks).engine.demos w.currentDemoIndex).scenarioState
        = SCENARIO_WARNING ∧
      ((run_updates (sim_init now w) ticks).engine.demos w.currentDemoIndex).stateTimer
        = ticks.length % 102 - 65) ∧
    (80 ≤ ticks.length % 102 → ticks.length % 102 < 92 →
      ((run_updates (sim_init now w) ticks).engine.demos w.currentDemoIndex).scenarioState
        = SCENARIO_FAULT ∧
      ((run_updates (sim_init now w) ticks).engine.demos w.currentDemoIndex).stateTimer
        = ticks.length % 102 - 80) ∧
    (92 ≤ ticks.length % 102 →
      ((run_updates (sim_init now w) ticks).engine.demos w.currentDemoIndex).scenarioState
        = SCENARIO_RECOVERY ∧
      ((run_updates (sim_init now w) ticks).engine.demos w.currentDemoIndex).stateTimer
        = ticks.length % 102 - 92) ∧
    ((run_updates (sim_init now w) ticks).engine.demos w.currentDemoIndex).cycleCount
      = (ticks.length / 102) % 256 := by
  have hrun := run_updates_clock (sim_init now w) rfl ticks
  have hstart : clock_of ((sim_init now w).engine.demos (sim_init now w).currentDemoIndex)
      = (SCENARIO_NORMAL, 0, 0) := rfl
  rw [hstart, clock_tick_closed_form] at hrun
  have hidx : (sim_init now w).currentDemoIndex = w.currentDemoIndex := rfl
  rw [hidx] at hrun
  unfold clock_of at hrun
  have h1 := congrArg Prod.fst hrun
  have h2 := congrArg (fun p => p.2.1) hrun
  have h3 := congrArg (fun p => p.2.2) hrun
  simp only [] at h1 h2 h3
  rw [h1, h2, h3]
  unfold scenario_at
  refine ⟨?_, ?_, ?_, ?_, ?_, rfl⟩
  · intro h
    rw [if_pos h]
    exact ⟨rfl, rfl⟩
  · intro ha hb
    rw [if_neg (by omega), if_pos hb]
    exact ⟨rfl, rfl⟩
  · intro ha hb
    rw [if_neg (by omega), if_neg (by omega), if_pos hb]
    exact ⟨rfl, rfl⟩
  · intro ha hb
    rw [if_neg (by omega), if_neg (by omega), if_neg (by omega), if_pos hb]
    exact ⟨rfl, rfl⟩
  · intro ha
    rw [if_neg (by omega), if_neg (by omega), if_neg (by omega), if_neg (by omega)]
    exact ⟨rfl, rfl⟩

/-- Instance of C24: 85 ticks after `sim_init` the CNC profile is in Fault with
`stateTimer = 5` and `cycleCount = 0`. -/
theorem scenario_clock_closed_form_witness :
    ((run_updates (sim_init 0 boot) (ticks_from 0 85)).engine.demos
        boot.currentDemoIndex).scenarioState = SCENARIO_FAULT ∧
    ((run_updates (sim_init 0 boot) (ticks_from 0 85)).engine.demos
        boot.currentDemoIndex).stateTimer = 5 ∧
    ((run_updates (sim_init 0 boot) (ticks_from 0 85)).engine.demos
        boot.currentDemoIndex).cycleCount = 0 := by
  have h := scenario_clock_closed_form 0 boot (ticks_from 0 85)
  have hlen : (ticks_from 0 85).length = 85 := by simp [ticks_from]
  rw [hlen] at h
  exact ⟨(h.2.2.2.1 (by decide) (by decide)).1, (h.2.2.2.1 (by decide) (by decide)).2,
    h.2.2.2.2.2⟩
/-! ## Asymmetry of the health-score step -/

theorem health_iter_ge_target (T : Nat) (hT : T ≤ 100) (n : Nat) :
    ∀ h, h ≤ 100 → T ≤ h → T ≤ health_iter T n h ∧ health_iter T n h ≤ h := by
  induction n with
  | zero =>
    intro h _ hle
    exact ⟨hle, Nat.le_refl _⟩
  | succ n ih =>
    intro h hh hle
    rw [health_iter_succ]
    by_cases heq : h = T
    · rw [(health_step_cases h T hh hT).2.1 heq]
      exact ih h hh hle
    · have hstep := (health_step_cases h T hh hT).1 (by omega)
      have := ih (health_step h T) (by omega) hstep.1
      exact ⟨this.1, by omega⟩

/-- C27: for integers `h` and `T` in `[0, 100]` the health-score step of
`sim_update`, `h' = (uint8)approach(h, T, 0.12) = trunc(h + (T - h) * 12/100)`,
satisfies: `T ≤ h' ≤ h - 1` if `h > T`; `h' = h` if `h = T`; `h' = h` if
`0 < T - h ≤ 8`; `h < h' ≤ T` if `T - h ≥ 9`. Under the constant target `T` a
score started at or above `T` never goes below `T`, reaches `T` after at most
`h - T` steps and stays there; a score started below `T` settles at a value in
`[T - 8, T]`, and does not move at all when `T - h ≤ 8`. -/
theorem health_step_asymmetric (h T : Nat) (hh : h ≤ 100) (hT : T ≤ 100) :
    health_step h T = (88 * h + 12 * T) / 100 ∧
    (T < h → T ≤ health_step h T ∧ health_step h T ≤ h - 1) ∧
    (h = T → health_step h T = h) ∧
    (h < T → T - h ≤ 8 → health_step h T = h) ∧
    (9 ≤ T - h → h < health_step h T ∧ health_step h T ≤ T) ∧
    (T ≤ h → (∀ n, T ≤ health_iter T n h) ∧
      ∃ n, n ≤ h - T ∧ ∀ m, n ≤ m → health_iter T m h = T) ∧
    (h < T → ∃ n v, T ≤ v + 8 ∧ v ≤ T ∧ ∀ m, n ≤ m → health_iter T m h = v) ∧
    (h < T → T - h ≤ 8 → ∀ m, health_iter T m h = h) := by
  have hc := health_step_cases h T hh hT
  refine ⟨health_step_eq h T (by omega) (by omega), hc.1, hc.2.1, hc.2.2.1, hc.2.2.2, ?_, ?_, ?_⟩
  · intro hle
    refine ⟨fun n => (health_iter_ge_target T hT n h hh hle).1, ?_⟩
    obtain ⟨n, hn, hit⟩ := health_iter_from_above T hT (h - T) h hh hle (Nat.le_refl _)
    exact ⟨n, hn, health_iter_stays T n h T hit ((health_step_cases T T hT hT).2.1 rfl)⟩
  · intro hlt
    obtain ⟨n, v, -, hit, hfix, hv1, hv2⟩ :=
      health_iter_from_below T hT (T - h) h (by omega) (Nat.le_refl _)
    exact ⟨n, v, hv1, hv2, health_iter_stays T n h v hit hfix⟩
  · intro hlt hnear m
    exact health_iter_fixed T h (hc.2.2.1 hlt hnear) m

/-- Instance of C27: the step from 87 toward 90 stays at 87, and the score 95 under
the target 90 reaches 90 within 5 steps. -/
theorem health_step_asymmetric_witness :
    health_step 87 90 = 87 ∧ (∀ m, health_iter 90 m 87 = 87) ∧
    ∃ n, n ≤ 95 - 90 ∧ ∀ m, n ≤ m → health_iter 90 m 95 = 90 :=
  ⟨(health_step_asymmetric 87 90 (by decide) (by decide)).2.2.2.1 (by decide) (by decide),
    (health_step_asymmetric 87 90 (by decide) (by decide)).2.2.2.2.2.2.2 (by decide) (by decide),
    ((health_step_asymmetric 95 90 (by decide) (by decide)).2.2.2.2.2.1 (by decide)).2⟩

/-! ## Insight confidence -/

theorem confidence_of_base (b : Int) (h1 : 40 ≤ b) (h2 : b ≤ 99) :
    toUInt8 (truncToInt (clampf (b : ℚ) 40.0 99.0)) = b.toNat := by
  have hq1 : (40.0 : ℚ) ≤ (b : ℚ) := by
    have : ((40 : Int) : ℚ) ≤ (b : ℚ) := by exact_mod_cast h1
    norm_num at this ⊢
    exact this
  have hq2 : (b : ℚ) ≤ (99.0 : ℚ) := by
    have : (b : ℚ) ≤ ((99 : Int) : ℚ) := by exact_mod_cast h2
    norm_num at this ⊢
    exact this
  rw [clampf_of_mem _ _ _ hq1 hq2, truncToInt_of_nonneg _ (by linarith), Int.floor_intCast]
  unfold toUInt8
  rw [Int.emod_eq_of_lt (by omega) (by omega)]

theorem base_confidence_range (state : ScenarioState_t) (raw : Nat) :
    (state = SCENARIO_FAULT → 88 ≤ base_confidence state raw ∧ base_confidence state raw ≤ 97) ∧
    (state = SCENARIO_WARNING →
      75 ≤ base_confidence state raw ∧ base_confidence state raw ≤ 89) ∧
    (state ≠ SCENARIO_FAULT → state ≠ SCENARIO_WARNING →
      55 ≤ base_confidence state raw ∧ base_confidence state raw ≤ 79) := by
  unfold base_confidence random_range
  refine ⟨?_, ?_, ?_⟩
  · intro h
    rw [if_pos h, if_neg (by decide)]
    omega
  · intro h
    rw [if_neg (by rw [h]; decide), if_pos h, if_neg (by decide)]
    omega
  · intro h1 h2
    rw [if_neg h1, if_neg h2, if_neg (by decide)]
    omega

theorem insight_confidence_eq (state : ScenarioState_t) (raw : Nat) :
    insight_confidence state raw = (base_confidence state raw).toNat ∧
    40 ≤ base_confidence state raw ∧ base_confidence state raw ≤ 99 := by
  have hr := base_confidence_range state raw
  have hb : 40 ≤ base_confidence state raw ∧ base_confidence state raw ≤ 99 := by
    by_cases h1 : state = SCENARIO_FAULT
    · have := hr.1 h1
      omega
    · by_cases h2 : state = SCENARIO_WARNING
      · have := hr.2.1 h2
        omega
      · have := hr.2.2 h1 h2
        omega
  refine ⟨?_, hb⟩
  have h := confidence_of_base (base_confidence state raw) hb.1 hb.2
  rw [← h]
  rfl

/-- The confidence a tick gives insight `i`: the confidence of the scenario state
the tick ends in, from the draw of that insight. -/
theorem update_profile_confidence (demoIdx now : Nat) (r : Draws) (demo : DemoProfile_t)
    (sim : SimState_t) (i : Fin 3) :
    ((update_profile demoIdx now r demo sim).1.ai.insights i).confidence
      = insight_confidence (update_profile demoIdx now r demo sim).2.scenarioState (r.conf i) := by
  have h : (update_profile demoIdx now r demo sim).2.scenarioState
      = (smooth_sensor (smooth_sensor (smooth_sensor
          (run_physics demoIdx now r demo (clock_step now sim)) 0) 1) 2).2.scenarioState := by
    rw [update_profile_sim]
    exact congrArg Prod.fst (ota_step_clock now r _)
  rw [h]
  rfl

/-- C22: after every `sim_update` on an initialized engine and for every random
draw, each of the three insight confidences of the active profile is the drawn
value `baseConf` itself (the clamp to `[40, 99]` and the cast do not alter it); it
lies in `[40, 99]`, in `[88, 97]` when the tick ends in Fault, in `[75, 89]` when
it ends in Warning, and in `[55, 79]` otherwise. -/
theorem insight_confidence_bands (now : Nat) (r : Draws) (w : World)
    (hinit : w.engine.initialized = true) (i : Fin 3) :
    ((((sim_update now r w).demoProfiles w.currentDemoIndex).ai.insights i).confidence : Int)
      = base_confidence ((sim_update now r w).engine.demos w.currentDemoIndex).scenarioState
          (r.conf i) ∧
    40 ≤ (((sim_update now r w).demoProfiles w.currentDemoIndex).ai.insights i).confidence ∧
    (((sim_update now r w).demoProfiles w.currentDemoIndex).ai.insights i).confidence ≤ 99 ∧
    (((sim_update now r w).engine.demos w.currentDemoIndex).scenarioState = SCENARIO_FAULT →
      88 ≤ (((sim_update now r w).demoProfiles w.currentDemoIndex).ai.insights i).confidence ∧
      (((sim_update now r w).demoProfiles w.currentDemoIndex).ai.insights i).confidence ≤ 97) ∧
    (((sim_update now r w).engine.demos w.currentDemoIndex).scenarioState = SCENARIO_WARNING →
      75 ≤ (((sim_update now r w).demoProfiles w.currentDemoIndex).ai.insights i).confidence ∧
      (((sim_update now r w).demoProfiles w.currentDemoIndex).ai.insights i).confidence ≤ 89) ∧
    (((sim_update now r w).engine.demos w.currentDemoIndex).scenarioState ≠ SCENARIO_FAULT →
      ((sim_update now r w).engine.demos w.currentDemoIndex).scenarioState ≠ SCENARIO_WARNING →
      55 ≤ (((sim_update now r w).demoProfiles w.currentDemoIndex).ai.insights i).confidence ∧
      (((sim_update now r w).demoProfiles w.currentDemoIndex).ai.insights i).confidence ≤ 79) := by
  have hp := sim_update_profiles now r w hinit w.currentDemoIndex
  have hd := sim_update_demos now r w hinit w.currentDemoIndex
  rw [if_pos rfl] at hp hd
  rw [hp, hd, update_profile_confidence]
  have he := insight_confidence_eq
    (update_profile w.currentDemoIndex.val now r (getDemo w)
      (w.engine.demos w.currentDemoIndex)).2.scenarioState (r.conf i)
  have hr := base_confidence_range
    (update_profile w.currentDemoIndex.val now r (getDemo w)
      (w.engine.demos w.currentDemoIndex)).2.scenarioState (r.conf i)
  rw [he.1]
  refine ⟨by omega, by omega, by omega, ?_, ?_, ?_⟩
  · intro h
    have := hr.1 h
    omega
  · intro h
    have := hr.2.1 h
    omega
  · intro h1 h2
    have := hr.2.2 h1 h2
    omega

/-- Instance of C22: the first confidence of the CNC profile after the 86th tick
that follows `sim_init` (the tick ends in Fault) lies in `[88, 97]`. -/
theorem insight_confidence_bands_witness :
    world_fault.engine.initialized = true ∧
    ((sim_update 1000 default world_fault).engine.demos
      world_fault.currentDemoIndex).scenarioState = SCENARIO_FAULT ∧
    88 ≤ (((sim_update 1000 default world_fault).demoProfiles
      world_fault.currentDemoIndex).ai.insights 0).confidence ∧
    (((sim_update 1000 default world_fault).demoProfiles
      world_fault.currentDemoIndex).ai.insights 0).confidence ≤ 97 := by
  have hinit : world_fault.engine.initialized = true := by decide!
  have hst : ((sim_update 1000 default world_fault).engine.demos
      world_fault.currentDemoIndex).scenarioState = SCENARIO_FAULT := by decide!
  exact ⟨hinit, hst,
    (insight_confidence_bands 1000 default world_fault hinit 0).2.2.2.1 hst⟩

/-! ## The first insight record in Fault and Recovery -/

/-- The physics model of each profile in Fault and in Recovery: the four fields of
`ai.insights[0]` it writes. -/
theorem run_physics_insight0 (d : Fin DEMO_COUNT) (now : Nat) (r : Draws) (demo : DemoProfile_t)
    (sim : SimState_t) :
    (sim.scenarioState = SCENARIO_FAULT →
      ((run_physics d.val now r demo sim).1.ai.insights 0).severity = INSIGHT_CRITICAL ∧
      ((run_physics d.val now r demo sim).1.ai.insights 0).timeframe = "immediate" ∧
      ((run_physics d.val now r demo sim).1.ai.insights 0).title = (fault_insight d).1 ∧
      ((run_physics d.val now r demo sim).1.ai.insights 0).description = (fault_insight d).2) ∧
    (sim.scenarioState = SCENARIO_RECOVERY →
      ((run_physics d.val now r demo sim).1.ai.insights 0).severity = INSIGHT_WARNING ∧
      ((run_physics d.val now r demo sim).1.ai.insights 0).title
        = ((demoProfiles_table d).ai.insights 0).title ∧
      ((run_physics d.val now r demo sim).1.ai.insights 0).description
        = ((demoProfiles_table d).ai.insights 0).description ∧
      ((run_physics d.val now r demo sim).1.ai.insights 0).timeframe
        = ((demoProfiles_table d).ai.insights 0).timeframe) := by
  fin_cases d
  · constructor <;> intro h
    · simp only [run_physics, update_cnc, h, set_insight0, Function.update_same]
      refine ⟨?_, ?_, ?_, ?_⟩ <;> trivial
    · simp only [run_physics, update_cnc, h, set_insight0, Function.update_same]
      refine ⟨?_, ?_, ?_, ?_⟩ <;> trivial
  · constructor <;> intro h
    · simp only [run_physics, update_chiller, h, set_insight0, Function.update_same]
      refine ⟨?_, ?_, ?_, ?_⟩ <;> trivial
    · simp only [run_physics, update_chiller, h, set_insight0, Function.update_same]
      refine ⟨?_, ?_, ?_, ?_⟩ <;> trivial
  · constructor <;> intro h
    · simp only [run_physics, update_compressor, h, set_insight0, Function.update_same]
      refine ⟨?_, ?_, ?_, ?_⟩ <;> trivial
    · simp only [run_physics, update_compressor, h, set_insight0, Function.update_same]
      refine ⟨?_, ?_, ?_, ?_⟩ <;> trivial
  · constructor <;> intro h
    · simp only [run_physics, update_plc, h, set_insight0, Function.update_same]
      refine ⟨?_, ?_, ?_, ?_⟩ <;> trivial
    · simp only [run_physics, update_plc, h, set_insight0, Function.update_same]
      refine ⟨?_, ?_, ?_, ?_⟩ <;> trivial

/-- After the physics model, a tick changes only the confidence of an insight. -/
theorem update_profile_insight (demoIdx now : Nat) (r : Draws) (demo : DemoProfile_t)
    (sim : SimState_t) (i : Fin 3) :
    ((update_profile demoIdx now r demo sim).1.ai.insights i).severity
      = ((run_physics demoIdx now r demo (clock_step now sim)).1.ai.insights i).severity ∧
    ((update_profile demoIdx now r demo sim).1.ai.insights i).title
      = ((run_physics demoIdx now r demo (clock_step now sim)).1.ai.insights i).title ∧
    ((update_profile demoIdx now r demo sim).1.ai.insights i).description
      = ((run_physics demoIdx now r demo (clock_step now sim)).1.ai.insights i).description ∧
    ((update_profile demoIdx now r demo sim).1.ai.insights i).timeframe
      = ((run_physics demoIdx now r demo (clock_step now sim)).1.ai.insights i).timeframe :=
  ⟨rfl, rfl, rfl, rfl⟩

/-- The scenario state a tick ends in is the one its physics model runs in. -/
theorem update_profile_state (demoIdx now : Nat) (r : Draws) (demo : DemoProfile_t)
    (sim : SimState_t) :
    (update_profile demoIdx now r demo sim).2.scenarioState
      = (clock_step now sim).scenarioState :=
  congrArg Prod.fst (update_profile_clock demoIdx now r demo sim)

/-- C21: for each of the four profiles, on an initialized engine and for every
random draw: after every `sim_update` that ends in Fault, `ai.insights[0]` of the
active profile has severity `INSIGHT_CRITICAL`, timeframe "immediate" and the
fault title and description of the profile; after every `sim_update` that ends
in Recovery it has severity `INSIGHT_WARNING` and the title, description and
timeframe of that record in the table `demoProfiles`. -/
theorem insight0_fault_recovery (now : Nat) (r : Draws) (w : World)
    (hinit : w.engine.initialized = true) :
    (((sim_update now r w).engine.demos w.currentDemoIndex).scenarioState = SCENARIO_FAULT →
      (((sim_update now r w).demoProfiles w.currentDemoIndex).ai.insights 0).severity
        = INSIGHT_CRITICAL ∧
      (((sim_update now r w).demoProfiles w.currentDemoIndex).ai.insights 0).timeframe
        = "immediate" ∧
      (((sim_update now r w).demoProfiles w.currentDemoIndex).ai.insights 0).title
        = (fault_insight w.currentDemoIndex).1 ∧
      (((sim_update now r w).demoProfiles w.currentDemoIndex).ai.insights 0).description
        = (fault_insight w.currentDemoIndex).2) ∧
    (((sim_update now r w).engine.demos w.currentDemoIndex).scenarioState = SCENARIO_RECOVERY →
      (((sim_update now r w).demoProfiles w.currentDemoIndex).ai.insights 0).severity
        = INSIGHT_WARNING ∧
      (((sim_update now r w).demoProfiles w.currentDemoIndex).ai.insights 0).title
        = ((demoProfiles_table w.currentDemoIndex).ai.insights 0).title ∧
      (((sim_update now r w).demoProfiles w.currentDemoIndex).ai.insights 0).description
        = ((demoProfiles_table w.currentDemoIndex).ai.insights 0).description ∧
      (((sim_update now r w).demoProfiles w.currentDemoIndex).ai.insights 0).timeframe
        = ((demoProfiles_table w.currentDemoIndex).ai.insights 0).timeframe) := by
  have hp := sim_update_profiles now r w hinit w.currentDemoIndex
  have hd := sim_update_demos now r w hinit w.currentDemoIndex
  rw [if_pos rfl] at hp hd
  rw [hp, hd, update_profile_state]
  have hi := update_profile_insight w.currentDemoIndex.val now r (getDemo w)
    (w.engine.demos w.currentDemoIndex) 0
  have hphys := run_physics_insight0 w.currentDemoIndex now r (getDemo w)
    (clock_step now (w.engine.demos w.currentDemoIndex))
  rw [hi.1, hi.2.1, hi.2.2.1, hi.2.2.2]
  exact ⟨fun h => hphys.1 h, fun h => hphys.2 h⟩

/-- Instance of C21: after the 86th tick that follows `sim_init` the CNC profile is
in Fault and its first insight is the critical "Spindle Bearing Overload". -/
theorem insight0_fault_recovery_witness :
    world_fault.engine.initialized = true ∧
    ((sim_update 1000 default world_fault).engine.demos
      world_fault.currentDemoIndex).scenarioState = SCENARIO_FAULT ∧
    (((sim_update 1000 default world_fault).demoProfiles
      world_fault.currentDemoIndex).ai.insights 0).severity = INSIGHT_CRITICAL ∧
    (((sim_update 1000 default world_fault).demoProfiles
      world_fault.currentDemoIndex).ai.insights 0).timeframe = "immediate" ∧
    (((sim_update 1000 default world_fault).demoProfiles
      world_fault.currentDemoIndex).ai.insights 0).title
        = (fault_insight world_fault.currentDemoIndex).1 ∧
    (((sim_update 1000 default world_fault).demoProfiles
      world_fault.currentDemoIndex).ai.insights 0).description
        = (fault_insight world_fault.currentDemoIndex).2 := by
  have hinit : world_fault.engine.initialized = true := by decide!
  have hst : ((sim_update 1000 default world_fault).engine.demos
      world_fault.currentDemoIndex).scenarioState = SCENARIO_FAULT := by decide!
  exact ⟨hinit, hst, (insight0_fault_recovery 1000 default world_fault hinit).1 hst⟩

/-! ## Auxiliary outputs and randomness -/

theorem update_cnc_aux (now : Nat) (r1 r2 : Draws) (demo : DemoProfile_t) (sim : SimState_t) :
    AuxAgree (update_cnc now r1 demo sim).1.vision (update_cnc now r2 demo sim).1.vision ∧
    (update_cnc now r1 demo sim).1.vision.aq0 = (update_cnc now r2 demo sim).1.vision.aq0 := by
  unfold AuxAgree
  rcases hs : sim.scenarioState <;>
    simp only [update_cnc, hs, part_increment, set_insight0] <;>
    (try split_ifs) <;> refine ⟨⟨?_, ?_, ?_, ?_, ?_, ?_⟩, ?_⟩ <;> trivial

theorem update_chiller_aux (now : Nat) (r1 r2 : Draws) (demo : DemoProfile_t)
    (sim : SimState_t) :
    AuxAgree (update_chiller now r1 demo sim).1.vision
      (update_chiller now r2 demo sim).1.vision ∧
    (update_chiller now r1 demo sim).1.vision.aq0
      = (update_chiller now r2 demo sim).1.vision.aq0 := by
  unfold AuxAgree
  rcases hs : sim.scenarioState <;>
    simp only [update_chiller, hs, set_insight0, set_kpi_value, set_kpi_good] <;>
    refine ⟨⟨?_, ?_, ?_, ?_, ?_, ?_⟩, ?_⟩ <;> trivial

theorem update_compressor_aux (now : Nat) (r1 r2 : Draws) (demo : DemoProfile_t)
    (sim : SimState_t) :
    AuxAgree (update_compressor now r1 demo sim).1.vision
      (update_compressor now r2 demo sim).1.vision ∧
    (update_compressor now r1 demo sim).1.vision.aq0
      = (update_compressor now r2 demo sim).1.vision.aq0 := by
  unfold AuxAgree
  rcases hs : sim.scenarioState <;>
    simp only [update_compressor, hs, set_insight0, set_kpi_value, set_kpi_good, copy_gauges,
      set_targets] <;>
    (try split_ifs) <;> refine ⟨⟨?_, ?_, ?_, ?_, ?_, ?_⟩, ?_⟩ <;> trivial

theorem update_plc_aux (now : Nat) (r1 r2 : Draws) (demo : DemoProfile_t) (sim : SimState_t) :
    AuxAgree (update_plc now r1 demo sim).1.vision (update_plc now r2 demo sim).1.vision ∧
    (sim.scenarioState ≠ SCENARIO_NORMAL →
      (update_plc now r1 demo sim).1.vision.aq0 = (update_plc now r2 demo sim).1.vision.aq0) := by
  unfold AuxAgree
  rcases hs : sim.scenarioState <;>
    simp only [update_plc, hs, set_insight0, set_kpi_value, set_kpi_good, set_targets] <;>
    refine ⟨⟨?_, ?_, ?_, ?_, ?_, ?_⟩, ?_⟩ <;>
    first | trivial | (intro hne; exact absurd rfl hne)

/-- The physics models write the auxiliary outputs without reading the draws, the
analog output of the Normal branch of the PLC model apart. -/
theorem run_physics_aux (demoIdx now : Nat) (r1 r2 : Draws) (demo : DemoProfile_t)
    (sim : SimState_t) :
    AuxAgree (run_physics demoIdx now r1 demo sim).1.vision
      (run_physics demoIdx now r2 demo sim).1.vision ∧
    (¬ (demoIdx = 3 ∧ sim.scenarioState = SCENARIO_NORMAL) →
      (run_physics demoIdx now r1 demo sim).1.vision.aq0
        = (run_physics demoIdx now r2 demo sim).1.vision.aq0) := by
  unfold run_physics
  split
  · exact ⟨(update_cnc_aux now r1 r2 demo sim).1, fun _ => (update_cnc_aux now r1 r2 demo sim).2⟩
  · exact ⟨(update_chiller_aux now r1 r2 demo sim).1,
      fun _ => (update_chiller_aux now r1 r2 demo sim).2⟩
  · exact ⟨(update_compressor_aux now r1 r2 demo sim).1,
      fun _ => (update_compressor_aux now r1 r2 demo sim).2⟩
  · exact ⟨(update_plc_aux now r1 r2 demo sim).1,
      fun h => (update_plc_aux now r1 r2 demo sim).2 (fun hs => h ⟨rfl, hs⟩)⟩
  · exact ⟨⟨rfl, rfl, rfl, rfl, rfl, rfl⟩, fun _ => rfl⟩

/-- The value `(int)noise(3)` lies in `[-3, 3]`. -/
theorem trunc_noise3 (raw : Nat) :
    -3 ≤ truncToInt (noise raw 3) ∧ truncToInt (noise raw 3) ≤ 3 := by
  have hk : -1000 ≤ random_range raw (-1000) 1001 ∧ random_range raw (-1000) 1001 ≤ 1000 := by
    unfold random_range
    rw [if_neg (by decide)]
    have h2001 : (1001 : Int) - -1000 = 2001 := by norm_num
    rw [h2001]
    omega
  have hk1 : (-1000 : ℚ) ≤ ((random_range raw (-1000) 1001 : Int) : ℚ) := by
    exact_mod_cast hk.1
  have hk2 : ((random_range raw (-1000) 1001 : Int) : ℚ) ≤ (1000 : ℚ) := by
    exact_mod_cast hk.2
  have hx1 : (-3 : ℚ) ≤ noise raw 3 := by
    unfold noise
    linarith
  have hx2 : noise raw 3 ≤ (3 : ℚ) := by
    unfold noise
    linarith
  unfold truncToInt
  split_ifs with h0
  · constructor
    · have : (0 : Int) ≤ ⌊noise raw 3⌋ := Int.floor_nonneg.mpr h0
      omega
    · have h3 : ((⌊noise raw 3⌋ : Int) : ℚ) ≤ ((3 : Int) : ℚ) := by
        push_cast
        linarith [Int.floor_le (noise raw 3)]
      exact_mod_cast h3
  · constructor
    · have h3 : ((-3 : Int) : ℚ) ≤ ((⌈noise raw 3⌉ : Int) : ℚ) := by
        push_cast
        linarith [Int.le_ceil (noise raw 3)]
      exact_mod_cast h3
    · have h5 : ⌈noise raw 3⌉ ≤ 0 := Int.ceil_le.mpr (by push_cast; linarith)
      omega

/-- The analog output the Normal branch of the PLC model writes. -/
theorem update_plc_normal_aq0 (now : Nat) (r : Draws) (demo : DemoProfile_t) (sim : SimState_t)
    (hs : sim.scenarioState = SCENARIO_NORMAL) :
    ((update_plc now r demo sim).1.vision.aq0 : Int) = 65 + truncToInt (noise r.extra 3) ∧
    62 ≤ (update_plc now r demo sim).1.vision.aq0 ∧
    (update_plc now r demo sim).1.vision.aq0 ≤ 68 := by
  have ht := trunc_noise3 r.extra
  have h : (update_plc now r demo sim).1.vision.aq0
      = toUInt8 (65 + truncToInt (noise r.extra 3)) := by
    simp only [update_plc, hs, set_kpi_value, set_kpi_good]
  rw [h]
  unfold toUInt8
  omega

/-- After its physics model, a tick leaves the vision record alone. -/
theorem update_profile_vision (demoIdx now : Nat) (r : Draws) (demo : DemoProfile_t)
    (sim : SimState_t) :
    (update_profile demoIdx now r demo sim).1.vision
      = (run_physics demoIdx now r demo (clock_step now sim)).1.vision := rfl

/-- The vision record of profile `d` after a tick on an initialized engine. -/
theorem sim_update_vision (now : Nat) (r : Draws) (w : World)
    (hinit : w.engine.initialized = true) (d : Fin DEMO_COUNT) :
    ((sim_update now r w).demoProfiles d).vision =
      if d = w.currentDemoIndex then
        (run_physics d.val now r (getDemo w) (clock_step now (w.engine.demos d))).1.vision
      else (w.demoProfiles d).vision := by
  rw [sim_update_profiles now r w hinit d]
  split_ifs with hd
  · rw [update_profile_vision, ← hd]
  · rfl

/-- C23, amended: for every profile, every pre-tick state and every two sequences
of random draws, the two states produced by one `sim_update` agree on the vision
fields `stackLight`, `leds`, `errorCode`, `state`, `diA` and `dqA`; they agree on
`aq0` as well unless the profile is the active PLC profile and the tick ends in
Normal, where `aq0 = 65 + (int)noise(3)` is a value in `[62, 68]` that depends on
the draw. -/
theorem aux_outputs_independent (now : Nat) (r1 r2 : Draws) (w : World) (d : Fin DEMO_COUNT) :
    ((sim_update now r1 w).demoProfiles d).vision.stackLight
      = ((sim_update now r2 w).demoProfiles d).vision.stackLight ∧
    ((sim_update now r1 w).demoProfiles d).vision.leds
      = ((sim_update now r2 w).demoProfiles d).vision.leds ∧
    ((sim_update now r1 w).demoProfiles d).vision.errorCode
      = ((sim_update now r2 w).demoProfiles d).vision.errorCode ∧
    ((sim_update now r1 w).demoProfiles d).vision.state
      = ((sim_update now r2 w).demoProfiles d).vision.state ∧
    ((sim_update now r1 w).demoProfiles d).vision.diA
      = ((sim_update now r2 w).demoProfiles d).vision.diA ∧
    ((sim_update now r1 w).demoProfiles d).vision.dqA
      = ((sim_update now r2 w).demoProfiles d).vision.dqA ∧
    (¬ (w.engine.initialized = true ∧ d = w.currentDemoIndex ∧ d.val = 3 ∧
        ((sim_update now r1 w).engine.demos d).scenarioState = SCENARIO_NORMAL) →
      ((sim_update now r1 w).demoProfiles d).vision.aq0
        = ((sim_update now r2 w).demoProfiles d).vision.aq0) ∧
    (w.engine.initialized = true ∧ d = w.currentDemoIndex ∧ d.val = 3 ∧
        ((sim_update now r1 w).engine.demos d).scenarioState = SCENARIO_NORMAL →
      (((sim_update now r1 w).demoProfiles d).vision.aq0 : Int)
        = 65 + truncToInt (noise r1.extra 3) ∧
      62 ≤ ((sim_update now r1 w).demoProfiles d).vision.aq0 ∧
      ((sim_update now r1 w).demoProfiles d).vision.aq0 ≤ 68) := by
  by_cases hinit : w.engine.initialized = true
  · by_cases hd : d = w.currentDemoIndex
    · have hv1 := sim_update_vision now r1 w hinit d
      have hv2 := sim_update_vision now r2 w hinit d
      rw [if_pos hd] at hv1 hv2
      have hst : ((sim_update now r1 w).engine.demos d).scenarioState
          = (clock_step now (w.engine.demos d)).scenarioState := by
        rw [sim_update_demos now r1 w hinit d, if_pos hd, update_profile_state, ← hd]
      have haux := run_physics_aux d.val now r1 r2 (getDemo w) (clock_step now (w.engine.demos d))
      rw [hv1, hv2, hst]
      obtain ⟨⟨h1, h2, h3, h4, h5, h6⟩, h7⟩ := haux
      refine ⟨h1, h2, h3, h4, h5, h6, ?_, ?_⟩
      · intro hn
        exact h7 (fun hc => hn ⟨hinit, hd, hc.1, hc.2⟩)
      · rintro ⟨-, -, h3d, hs⟩
        have hrun : run_physics d.val now r1 (getDemo w) (clock_step now (w.engine.demos d))
            = update_plc now r1 (getDemo w) (clock_step now (w.engine.demos d)) := by
          rw [h3d]
          rfl
        rw [hrun]
        exact update_plc_normal_aq0 now r1 (getDemo w) _ hs
    · have hv1 := sim_update_vision now r1 w hinit d
      have hv2 := sim_update_vision now r2 w hinit d
      rw [if_neg hd] at hv1 hv2
      rw [hv1, hv2]
      exact ⟨rfl, rfl, rfl, rfl, rfl, rfl, fun _ => rfl, fun h => absurd h.2.1 hd⟩
  · have h1 : sim_update now r1 w = w := by
      unfold sim_update
      rw [if_pos (by simpa using hinit)]
    have h2 : sim_update now r2 w = w := by
      unfold sim_update
      rw [if_pos (by simpa using hinit)]
    rw [h1, h2]
    exact ⟨rfl, rfl, rfl, rfl, rfl, rfl, fun _ => rfl, fun h => absurd h.1 hinit⟩

/-- C23, counterexample: with the PLC profile active right after `sim_init`, one
`sim_update` with all raw draws 0 leaves `aq0 = 62`, and the same `sim_update` with
the raw draw 1000 for `noise(3)` leaves `aq0 = 65`. -/
theorem aux_outputs_independent_counterexample :
    Reachable world_plc ∧
    ((sim_update 1000 default world_plc).demoProfiles 3).vision.aq0 = 62 ∧
    ((sim_update 1000 draws_mid world_plc).demoProfiles 3).vision.aq0 = 65 := by
  refine ⟨Reachable.set 3 (Reachable.init 0), ?_, ?_⟩
  · decide!
  · decide!

/-- Instance of the amended C23: one tick of the PLC profile right after `sim_init`,
with the draws of the counterexample; the two results agree on `dqA`, and `aq0`
lies in `[62, 68]`. -/
theorem aux_outputs_independent_witness :
    ((sim_update 1000 default world_plc).demoProfiles 3).vision.dqA
      = ((sim_update 1000 draws_mid world_plc).demoProfiles 3).vision.dqA ∧
    62 ≤ ((sim_update 1000 default world_plc).demoProfiles 3).vision.aq0 ∧
    ((sim_update 1000 default world_plc).demoProfiles 3).vision.aq0 ≤ 68 :=
  ⟨(aux_outputs_independent 1000 default draws_mid world_plc 3).2.2.2.2.2.1,
    ((aux_outputs_independent 1000 default draws_mid world_plc 3).2.2.2.2.2.2.2
      ⟨rfl, rfl, rfl, by decide!⟩).2⟩

/-! ## Truncation and deduplication in `add_alarm` -/

theorem strncpy_length (src : String) (n : Nat) : (strncpy src n).length ≤ n := by
  unfold strncpy
  show (src.data.take n).length ≤ n
  exact List.length_take_le n src.data

/-- A message longer than the slot is never found by the duplicate check. -/
theorem not_active_of_long (s : SimState_t) (message : String) (hwf : MessagesFit s)
    (hlong : 79 < message.length) : alarm_already_active s message = false := by
  apply not_active_of_no_message
  intro i _ heq
  have := hwf i
  rw [heq] at this
  omega

theorem add_alarm_fits (now : Nat) (s : SimState_t) (severity message : String)
    (hwf : MessagesFit s) : MessagesFit (add_alarm now s severity message) := by
  cases hact : alarm_already_active s message with
  | true =>
    rw [add_alarm_of_active now s severity message hact]
    exact hwf
  | false =>
    rw [add_alarm_of_not_active now s severity message hact]
    intro i
    simp only [store_apply]
    split_ifs
    · exact strncpy_length message (MESSAGE_SIZE - 1)
    · exact hwf i

/-- The slot `add_alarm` writes when the duplicate check fails. -/
theorem add_alarm_written (now : Nat) (s : SimState_t) (severity message : String)
    (hact : alarm_already_active s message = false) :
    (add_alarm now s severity message).dynamicAlarms ⟨alarm_slot s, alarm_slot_lt s⟩ =
      { severity := strncpy severity (SEVERITY_SIZE - 1)
        message := strncpy message (MESSAGE_SIZE - 1)
        time := format_time now
        acked := false
        active := true
        triggerTime := now } ∧
    ∀ j : Fin MAX_DYNAMIC_ALARMS, j.val ≠ alarm_slot s →
      (add_alarm now s severity message).dynamicAlarms j = s.dynamicAlarms j := by
  rw [add_alarm_of_not_active now s severity message hact]
  constructor
  · simp only [store_apply, if_true]
  · intro j hj
    simp only [store_apply, if_neg hj]

/-- C28: `add_alarm` stores the first 79 characters of the message and the first 7
of the severity, and compares the stored text with the full argument. In a state
whose slots hold at most 79 characters: when the duplicate check fails the slot
written holds these prefixes; a message of at most 79 characters is stored
unchanged and a second `add_alarm` with it changes nothing; for a message longer
than 79 characters, a second `add_alarm` with the same message, made while a
slot is free, leaves two distinct active slots with the same stored message, the
slot of the first call being one of them. -/
theorem add_alarm_truncates (now now' : Nat) (s : SimState_t)
    (severity severity' message : String) (hwf : MessagesFit s) :
    (alarm_already_active s message = false →
      ((add_alarm now s severity message).dynamicAlarms
          ⟨alarm_slot s, alarm_slot_lt s⟩).message = String.mk (message.data.take 79) ∧
      ((add_alarm now s severity message).dynamicAlarms
          ⟨alarm_slot s, alarm_slot_lt s⟩).severity = String.mk (severity.data.take 7) ∧
      ((add_alarm now s severity message).dynamicAlarms
          ⟨alarm_slot s, alarm_slot_lt s⟩).active = true) ∧
    (message.length ≤ 79 →
      (alarm_already_active s message = false →
        ((add_alarm now s severity message).dynamicAlarms
          ⟨alarm_slot s, alarm_slot_lt s⟩).message = message) ∧
      add_alarm now' (add_alarm now s severity message) severity' message
        = add_alarm now s severity message) ∧
    (79 < message.length →
      (∃ i : Fin MAX_DYNAMIC_ALARMS,
        ((add_alarm now s severity message).dynamicAlarms i).active = false) →
      ∃ k : Fin MAX_DYNAMIC_ALARMS, k.val ≠ alarm_slot s ∧
        ((add_alarm now s severity message).dynamicAlarms k).active = false ∧
        ((add_alarm now' (add_alarm now s severity message) severity' message).dynamicAlarms
          k).active = true ∧
        ((add_alarm now' (add_alarm now s severity message) severity' message).dynamicAlarms
          ⟨alarm_slot s, alarm_slot_lt s⟩).active = true ∧
        ((add_alarm now' (add_alarm now s severity message) severity' message).dynamicAlarms
          k).message = String.mk (message.data.take 79) ∧
        ((add_alarm now' (add_alarm now s severity message) severity' message).dynamicAlarms
          ⟨alarm_slot s, alarm_slot_lt s⟩).message = String.mk (message.data.take 79)) := by
  refine ⟨?_, ?_, ?_⟩
  · intro hact
    rw [(add_alarm_written now s severity message hact).1]
    exact ⟨rfl, rfl, rfl⟩
  · intro hlen
    refine ⟨?_, add_alarm_of_active now' _ severity' message
      (active_after_add_alarm now s severity message hlen)⟩
    intro hact
    rw [(add_alarm_written now s severity message hact).1]
    exact strncpy_of_length_le message (MESSAGE_SIZE - 1) hlen
  · intro hlong hfree
    have hact := not_active_of_long s message hwf hlong
    have hact1 := not_active_of_long (add_alarm now s severity message) message
      (add_alarm_fits now s severity message hwf) hlong
    have hw := add_alarm_written now s severity message hact
    have hw1 := add_alarm_written now' (add_alarm now s severity message) severity' message hact1
    obtain ⟨k, hk, hkfree, -⟩ := alarm_slot_free (add_alarm now s severity message) hfree
    have hk' : (⟨alarm_slot (add_alarm now s severity message), alarm_slot_lt _⟩ :
        Fin MAX_DYNAMIC_ALARMS) = k := Fin.ext hk
    rw [hk'] at hw1
    have hne : k.val ≠ alarm_slot s := by
      intro heq
      have hke : k = ⟨alarm_slot s, alarm_slot_lt s⟩ := Fin.ext heq
      rw [hke, hw.1] at hkfree
      cases hkfree
    have hfirst := hw1.2 ⟨alarm_slot s, alarm_slot_lt s⟩ (fun h => hne (hk ▸ h.symm))
    refine ⟨k, hne, hkfree, ?_, ?_, ?_, ?_⟩
    · rw [hw1.1]
    · rw [hfirst, hw.1]
    · rw [hw1.1]
      rfl
    · rw [hfirst, hw.1]
      rfl

/-- Instance of C28: a message of 80 characters raised twice in the zeroed state
leaves slots 0 and 1 active with the same 79 characters. -/
theorem add_alarm_truncates_witness :
    MessagesFit default ∧ 79 < long_message.length ∧
    ∃ k : Fin MAX_DYNAMIC_ALARMS, k.val ≠ alarm_slot default ∧
      ((add_alarm 1000 default "info" long_message).dynamicAlarms k).active = false ∧
      ((add_alarm 2000 (add_alarm 1000 default "info" long_message) "info"
        long_message).dynamicAlarms k).active = true ∧
      ((add_alarm 2000 (add_alarm 1000 default "info" long_message) "info"
        long_message).dynamicAlarms ⟨alarm_slot default, alarm_slot_lt default⟩).active = true ∧
      ((add_alarm 2000 (add_alarm 1000 default "info" long_message) "info"
        long_message).dynamicAlarms k).message = String.mk (long_message.data.take 79) ∧
      ((add_alarm 2000 (add_alarm 1000 default "info" long_message) "info"
        long_message).dynamicAlarms ⟨alarm_slot default, alarm_slot_lt default⟩).message
        = String.mk (long_message.data.take 79) :=
  ⟨by decide, by decide,
    (add_alarm_truncates 1000 2000 default "info" "info" long_message (by decide)).2.2
      (by decide) ⟨7, by decide⟩⟩

/-! ## The high-water mark `dynamicAlarmCount` -/

/-- The mark after `add_alarm`: never lower, and at most 8 if it was. -/
theorem add_alarm_count (now : Nat) (s : SimState_t) (severity message : String) :
    s.dynamicAlarmCount ≤ (add_alarm now s severity message).dynamicAlarmCount ∧
    (s.dynamicAlarmCount ≤ MAX_DYNAMIC_ALARMS →
      (add_alarm now s severity message).dynamicAlarmCount ≤ MAX_DYNAMIC_ALARMS) := by
  have hlt := alarm_slot_lt s
  have h8 : MAX_DYNAMIC_ALARMS = 8 := rfl
  cases hact : alarm_already_active s message with
  | true =>
    rw [add_alarm_of_active now s severity message hact]
    exact ⟨Nat.le_refl _, fun h => h⟩
  | false =>
    rw [add_alarm_of_not_active now s severity message hact]
    show s.dynamicAlarmCount ≤
        (if alarm_slot s ≥ s.dynamicAlarmCount then (alarm_slot s + 1) % 256
          else s.dynamicAlarmCount) ∧
      (s.dynamicAlarmCount ≤ MAX_DYNAMIC_ALARMS →
        (if alarm_slot s ≥ s.dynamicAlarmCount then (alarm_slot s + 1) % 256
          else s.dynamicAlarmCount) ≤ MAX_DYNAMIC_ALARMS)
    split_ifs
    · constructor
      · omega
      · intro _
        omega
    · exact ⟨Nat.le_refl _, fun h => h⟩

theorem clock_step_count (now : Nat) (s : SimState_t) :
    (clock_step now s).dynamicAlarmCount = s.dynamicAlarmCount := by
  unfold clock_step transition_state clear_fault_alarms
  simp only []
  split_ifs <;> rfl

theorem raises_count {M : String → String → Prop} {s s' : SimState_t} (hr : Raises M s s') :
    s.dynamicAlarmCount ≤ s'.dynamicAlarmCount ∧
    (s.dynamicAlarmCount ≤ MAX_DYNAMIC_ALARMS → s'.dynamicAlarmCount ≤ MAX_DYNAMIC_ALARMS) := by
  induction hr with
  | refl => exact ⟨Nat.le_refl _, fun h => h⟩
  | targets t0 t1 t2 health failure _ ih => exact ih
  | alarm now sev msg _ _ ih =>
    exact ⟨ih.1.trans (add_alarm_count now _ sev msg).1,
      fun h => (add_alarm_count now _ sev msg).2 (ih.2 h)⟩

theorem ota_step_count (now : Nat) (r : Draws) (s : SimState_t) :
    s.dynamicAlarmCount ≤ (ota_step now r s).dynamicAlarmCount ∧
    (s.dynamicAlarmCount ≤ MAX_DYNAMIC_ALARMS →
      (ota_step now r s).dynamicAlarmCount ≤ MAX_DYNAMIC_ALARMS) := by
  unfold ota_step
  simp only []
  split_ifs
  · exact add_alarm_count now { s with otaInProgress := false, otaProgress := 100 } "info" _
  · exact ⟨Nat.le_refl _, fun h => h⟩
  · exact ⟨Nat.le_refl _, fun h => h⟩

theorem update_profile_count (demoIdx now : Nat) (r : Draws) (demo : DemoProfile_t)
    (sim : SimState_t) :
    sim.dynamicAlarmCount ≤ (update_profile demoIdx now r demo sim).2.dynamicAlarmCount ∧
    (sim.dynamicAlarmCount ≤ MAX_DYNAMIC_ALARMS →
      (update_profile demoIdx now r demo sim).2.dynamicAlarmCount ≤ MAX_DYNAMIC_ALARMS) := by
  have hc := clock_step_count now sim
  have hr := raises_count (run_physics_raises demoIdx now r demo (clock_step now sim))
  have hmid : (smooth_sensor (smooth_sensor (smooth_sensor
      (run_physics demoIdx now r demo (clock_step now sim)) 0) 1) 2).2.dynamicAlarmCount
      = (run_physics demoIdx now r demo (clock_step now sim)).2.dynamicAlarmCount := rfl
  have ho := ota_step_count now r (smooth_sensor (smooth_sensor (smooth_sensor
      (run_physics demoIdx now r demo (clock_step now sim)) 0) 1) 2).2
  rw [update_profile_sim]
  rw [hmid] at ho
  rw [hc] at hr
  exact ⟨hr.1.trans ho.1, fun h => ho.2 (hr.2 h)⟩

theorem sim_update_count (now : Nat) (r : Draws) (w : World) (d : Fin DEMO_COUNT) :
    (w.engine.demos d).dynamicAlarmCount
      ≤ ((sim_update now r w).engine.demos d).dynamicAlarmCount ∧
    ((w.engine.demos d).dynamicAlarmCount ≤ MAX_DYNAMIC_ALARMS →
      ((sim_update now r w).engine.demos d).dynamicAlarmCount ≤ MAX_DYNAMIC_ALARMS) := by
  by_cases hinit : w.engine.initialized = true
  · rw [sim_update_demos now r w hinit d]
    split_ifs with hd
    · rw [hd]
      exact update_profile_count _ _ _ _ _
    · exact ⟨Nat.le_refl _, fun h => h⟩
  · unfold sim_update
    rw [if_pos (by simpa using hinit)]
    exact ⟨Nat.le_refl _, fun h => h⟩

theorem sim_ack_alarm_count (index : Nat) (w : World) (d : Fin DEMO_COUNT) :
    ((sim_ack_alarm index w).engine.demos d).dynamicAlarmCount
      = (w.engine.demos d).dynamicAlarmCount := by
  unfold sim_ack_alarm
  split
  · rfl
  · by_cases hdc : d = w.currentDemoIndex
    · rw [hdc]
      simp only [Function.update_same]
    · simp only [Function.update_noteq hdc]

theorem sim_start_ota_count (now : Nat) (w : World) (d : Fin DEMO_COUNT) :
    (w.engine.demos d).dynamicAlarmCount
      ≤ ((sim_start_ota now w).engine.demos d).dynamicAlarmCount ∧
    ((w.engine.demos d).dynamicAlarmCount ≤ MAX_DYNAMIC_ALARMS →
      ((sim_start_ota now w).engine.demos d).dynamicAlarmCount ≤ MAX_DYNAMIC_ALARMS) := by
  unfold sim_start_ota
  split_ifs
  · exact ⟨Nat.le_refl _, fun h => h⟩
  · by_cases hdc : d = w.currentDemoIndex
    · rw [hdc]
      simp only [Function.update_same]
      exact add_alarm_count now
        { w.engine.demos w.currentDemoIndex with otaInProgress := true, otaProgress := 0 }
        "info" _
    · simp only [Function.update_noteq hdc]
      exact ⟨Nat.le_refl _, fun h => h⟩

theorem setDemo_engine (index : Nat) (w : World) : (setDemo index w).engine = w.engine := by
  unfold setDemo
  split_ifs <;> rfl

/-- In every reachable state the mark of every profile is at most 8. -/
theorem reachable_count_le {w : World} (h : Reachable w) (d : Fin DEMO_COUNT) :
    (w.engine.demos d).dynamicAlarmCount ≤ MAX_DYNAMIC_ALARMS := by
  induction h with
  | init now => exact Nat.zero_le _
  | update now r _ ih => exact (sim_update_count now r _ d).2 ih
  | ack index _ ih =>
    rw [sim_ack_alarm_count]
    exact ih
  | ota now _ ih => exact (sim_start_ota_count now _ d).2 ih
  | set index _ ih =>
    rw [setDemo_engine]
    exact ih
  | next _ ih => exact ih

/-- C26: in every state reachable from `sim_init` and for every profile,
`dynamicAlarmCount ≤ 8`, every slot whose `active` flag is true has an index below
`dynamicAlarmCount`, and none of `sim_update`, `sim_ack_alarm`, `sim_start_ota`,
`setDemo`, `nextDemo` decreases `dynamicAlarmCount`. Hence the loops that stop at
`dynamicAlarmCount` visit every active alarm: the duplicate check of `add_alarm`
finds a message exactly when some active slot holds it, `clear_fault_alarms`
leaves active exactly the active slots that are acknowledged or not of severity
"error", the counting loop of `sim_get_alarm_count` returns the number of active
slots, and `sim_get_alarm` returns every active slot of the active profile. -/
theorem alarm_count_high_water (w : World) (h : Reachable w) (d : Fin DEMO_COUNT) :
    (w.engine.demos d).dynamicAlarmCount ≤ MAX_DYNAMIC_ALARMS ∧
    (∀ i : Fin MAX_DYNAMIC_ALARMS, ((w.engine.demos d).dynamicAlarms i).active = true →
      i.val < (w.engine.demos d).dynamicAlarmCount) ∧
    (∀ (now : Nat) (r : Draws), (w.engine.demos d).dynamicAlarmCount
      ≤ ((sim_update now r w).engine.demos d).dynamicAlarmCount) ∧
    (∀ index : Nat, (w.engine.demos d).dynamicAlarmCount
      ≤ ((sim_ack_alarm index w).engine.demos d).dynamicAlarmCount) ∧
    (∀ now : Nat, (w.engine.demos d).dynamicAlarmCount
      ≤ ((sim_start_ota now w).engine.demos d).dynamicAlarmCount) ∧
    (∀ index : Nat, (w.engine.demos d).dynamicAlarmCount
      ≤ ((setDemo index w).engine.demos d).dynamicAlarmCount) ∧
    (w.engine.demos d).dynamicAlarmCount ≤ ((nextDemo w).engine.demos d).dynamicAlarmCount ∧
    (∀ m : String, alarm_already_active (w.engine.demos d) m = true ↔
      ∃ i : Fin MAX_DYNAMIC_ALARMS, ((w.engine.demos d).dynamicAlarms i).active = true ∧
        ((w.engine.demos d).dynamicAlarms i).message = m) ∧
    (∀ i : Fin MAX_DYNAMIC_ALARMS,
      ((clear_fault_alarms (w.engine.demos d)).dynamicAlarms i).active = true ↔
        ((w.engine.demos d).dynamicAlarms i).active = true ∧
        ¬ (((w.engine.demos d).dynamicAlarms i).acked = false ∧
            ((w.engine.demos d).dynamicAlarms i).severity = "error")) ∧
    alarm_count (w.engine.demos d) = live_count (w.engine.demos d) ∧
    (d = w.currentDemoIndex →
      ∀ i : Fin MAX_DYNAMIC_ALARMS, ((w.engine.demos d).dynamicAlarms i).active = true →
        ∃ index, sim_get_alarm w index = some i.val) := by
  have hinv := reachable_inv h
  have hbelow := (hinv.2 d).1.1
  refine ⟨reachable_count_le h d, hbelow, fun now r => (sim_update_count now r w d).1,
    fun index => by rw [sim_ack_alarm_count], fun now => (sim_start_ota_count now w d).1,
    fun index => by rw [setDemo_engine], Nat.le_refl _, ?_, ?_,
    alarm_count_eq_live _ hbelow, ?_⟩
  · intro m
    rw [alarm_already_active_iff]
    constructor
    · rintro ⟨i, -, h1, h2⟩
      exact ⟨i, h1, h2⟩
    · rintro ⟨i, h1, h2⟩
      exact ⟨i, hbelow i h1, h1, h2⟩
  · intro i
    rw [clear_fault_alarms_apply]
    by_cases hact : ((w.engine.demos d).dynamicAlarms i).active = true
    · by_cases hc : ((w.engine.demos d).dynamicAlarms i).acked = false ∧
          ((w.engine.demos d).dynamicAlarms i).severity = "error"
      · rw [if_pos ⟨hbelow i hact, by simp [hact, hc.1, hc.2]⟩]
        simp [hc.1, hc.2]
      · rw [if_neg (by
          rintro ⟨-, hcond⟩
          simp only [Bool.and_eq_true, Bool.not_eq_true', beq_iff_eq] at hcond
          exact hc ⟨hcond.1.2, hcond.2⟩)]
        exact ⟨fun _ => ⟨hact, hc⟩, fun _ => hact⟩
    · rw [if_neg (by
        rintro ⟨-, hcond⟩
        simp only [Bool.and_eq_true] at hcond
        exact hact hcond.1.1)]
      exact ⟨fun hc => absurd hc hact, fun hc => hc.1⟩
  · intro hd i hact
    refine ⟨active_before (w.engine.demos d) i.val, ?_⟩
    rw [sim_get_alarm_eq_some, ← hd]
    exact ⟨hinv.1, hbelow i hact, by rw [load_fin]; exact hact, rfl⟩

/-- Instance of C26: the engine after 85 ticks, CNC profile in Fault. -/
theorem alarm_count_high_water_witness :
    Reachable world_fault ∧
    (world_fault.engine.demos 0).dynamicAlarmCount ≤ MAX_DYNAMIC_ALARMS ∧
    (∀ i : Fin MAX_DYNAMIC_ALARMS, ((world_fault.engine.demos 0).dynamicAlarms i).active = true →
      i.val < (world_fault.engine.demos 0).dynamicAlarmCount) ∧
    alarm_count (world_fault.engine.demos 0) = live_count (world_fault.engine.demos 0) :=
  ⟨reachable_world_fault, (alarm_count_high_water world_fault reachable_world_fault 0).1,
    (alarm_count_high_water world_fault reachable_world_fault 0).2.1,
    (alarm_count_high_water world_fault reachable_world_fault 0).2.2.2.2.2.2.2.2.2.1⟩

/-! ## No eviction in the reachable states -/

/-- In a pool that satisfies the invariants, `add_alarm` with a message of the
profile leaves every active slot as it is. -/
theorem add_alarm_keeps (now : Nat) (s : SimState_t) (severity message : String)
    (demoIdx : Nat) (hp : PoolInv s) (hm : MsgInv demoIdx s)
    (hin : (severity, message) ∈ profile_alarms demoIdx) (j : Fin MAX_DYNAMIC_ALARMS)
    (hj : (s.dynamicAlarms j).active = true) :
    (add_alarm now s severity message).dynamicAlarms j = s.dynamicAlarms j := by
  cases hact : alarm_already_active s message with
  | true => rw [add_alarm_of_active now s severity message hact]
  | false =>
    obtain ⟨k, hk, hfree, -⟩ :=
      alarm_slot_free s (free_slot_of_new_message demoIdx s severity message hp hm hin hact)
    apply (add_alarm_written now s severity message hact).2
    intro heq
    have : j = k := Fin.ext (heq.trans hk)
    rw [this, hfree] at hj
    cases hj

/-- The clock step leaves alone every active slot that is acknowledged or not of
severity "error". -/
theorem clock_step_keeps (now : Nat) (s : SimState_t) (j : Fin MAX_DYNAMIC_ALARMS)
    (hkeep : (s.dynamicAlarms j).acked = true ∨ (s.dynamicAlarms j).severity ≠ "error") :
    (clock_step now s).dynamicAlarms j = s.dynamicAlarms j := by
  have hclear : ∀ t : SimState_t, t.dynamicAlarms = s.dynamicAlarms →
      (clear_fault_alarms t).dynamicAlarms j = s.dynamicAlarms j := by
    intro t ht
    rw [clear_fault_alarms_apply, ht]
    rw [if_neg]
    rintro ⟨-, hc⟩
    simp only [Bool.and_eq_true, Bool.not_eq_true', beq_iff_eq] at hc
    rcases hkeep with h | h
    · rw [hc.1.2] at h
      cases h
    · exact h hc.2
  unfold clock_step transition_state
  simp only []
  split_ifs
  · exact hclear _ rfl
  · rfl
  · exact hclear _ rfl
  · rfl
  · rfl

theorem raises_keeps {M : String → String → Prop} (demoIdx : Nat)
    (hM : ∀ sev msg, M sev msg → (sev, msg) ∈ profile_alarms demoIdx) {s s' : SimState_t}
    (hr : Raises M s s') (hp : PoolInv s) (hm : MsgInv demoIdx s)
    (j : Fin MAX_DYNAMIC_ALARMS) (hj : (s.dynamicAlarms j).active = true) :
    s'.dynamicAlarms j = s.dynamicAlarms j := by
  induction hr with
  | refl => rfl
  | targets t0 t1 t2 health failure _ ih => exact ih
  | alarm now sev msg hmsg hr ih =>
    rw [add_alarm_keeps now _ sev msg demoIdx
      (raises_pool_inv (fun sev msg hx => ((profile_alarms_facts demoIdx).2.1 _ (hM sev msg hx)).2)
        hr hp)
      (raises_msg_inv demoIdx hM hr hm) (hM sev msg hmsg) j (by rw [ih]; exact hj), ih]

theorem physics_mem_profile (demoIdx : Nat) (sev msg : String)
    (h : (sev, msg) ∈ physics_alarms demoIdx) : (sev, msg) ∈ profile_alarms demoIdx := by
  unfold profile_alarms
  exact List.mem_append_left _ h

/-- The invariants of the state a tick hands to its OTA block. -/
theorem physics_inv (demoIdx now : Nat) (r : Draws) (demo : DemoProfile_t) (sim : SimState_t)
    (hp : PoolInv sim) (hm : MsgInv demoIdx sim) :
    PoolInv (run_physics demoIdx now r demo (clock_step now sim)).2 ∧
    MsgInv demoIdx (run_physics demoIdx now r demo (clock_step now sim)).2 :=
  ⟨raises_pool_inv (fun sev msg hx => (physics_alarms_fit demoIdx sev msg hx).2)
      (run_physics_raises demoIdx now r demo (clock_step now sim)) (clock_step_pool_inv now sim hp),
    raises_msg_inv demoIdx (physics_mem_profile demoIdx)
      (run_physics_raises demoIdx now r demo (clock_step now sim))
      (clock_step_msg_inv now sim demoIdx hm)⟩

/-- The OTA block leaves every active slot as it is. -/
theorem ota_step_keeps (now : Nat) (r : Draws) (s : SimState_t) (demoIdx : Nat)
    (hp : PoolInv s) (hm : MsgInv demoIdx s) (j : Fin MAX_DYNAMIC_ALARMS)
    (hj : (s.dynamicAlarms j).active = true) :
    (ota_step now r s).dynamicAlarms j = s.dynamicAlarms j := by
  unfold ota_step
  simp only []
  split_ifs
  · exact add_alarm_keeps now { s with otaInProgress := false, otaProgress := 100 } "info" _
      demoIdx (pool_inv_of_eq rfl rfl hp) hm (ota_done_mem demoIdx) j hj
  · rfl
  · rfl

/-- A tick leaves alone every active slot that is acknowledged or not of severity
"error". -/
theorem update_profile_keeps (demoIdx now : Nat) (r : Draws) (demo : DemoProfile_t)
    (sim : SimState_t) (hp : PoolInv sim) (hm : MsgInv demoIdx sim)
    (j : Fin MAX_DYNAMIC_ALARMS) (hj : (sim.dynamicAlarms j).active = true)
    (hkeep : (sim.dynamicAlarms j).acked = true ∨ (sim.dynamicAlarms j).severity ≠ "error") :
    (update_profile demoIdx now r demo sim).2.dynamicAlarms j = sim.dynamicAlarms j := by
  have hc := clock_step_keeps now sim j hkeep
  have hphys : (run_physics demoIdx now r demo (clock_step now sim)).2.dynamicAlarms j
      = sim.dynamicAlarms j := by
    rw [raises_keeps demoIdx (physics_mem_profile demoIdx)
      (run_physics_raises demoIdx now r demo (clock_step now sim))
      (clock_step_pool_inv now sim hp) (clock_step_msg_inv now sim demoIdx hm) j
      (by rw [hc]; exact hj), hc]
  have hinv := physics_inv demoIdx now r demo sim hp hm
  rw [update_profile_sim]
  have ho := ota_step_keeps now r (smooth_sensor (smooth_sensor (smooth_sensor
      (run_physics demoIdx now r demo (clock_step now sim)) 0) 1) 2).2 demoIdx
    hinv.1 hinv.2 j (by
      show ((run_physics demoIdx now r demo (clock_step now sim)).2.dynamicAlarms j).active = true
      rw [hphys]
      exact hj)
  rw [ho]
  exact hphys

/-- C25: the eviction branch of `add_alarm` is not reached from the public API. For
each profile the message texts the engine passes to `add_alarm` (those of the
physics model of the profile and the two OTA messages) are at most 8. In every
reachable state `w` and for every profile `d`, let `s2` be a state on which the
engine calls `add_alarm`: its alarm pool is that of a state `s1` obtained, by
assignments of the targets and `add_alarm` calls of the profile, from the state
`s0` of the profile in `w` (the call of `sim_start_ota`) or from `s0` after the
clock step of a tick (the calls of the physics model and of the OTA block). If
the message is not already active there, some slot is inactive, the slot
`add_alarm` writes is inactive, and every active slot is left as it is. -/
theorem eviction_unreachable (w : World) (h : Reachable w) (d : Fin DEMO_COUNT) :
    ((profile_alarms d.val).map Prod.snd).toFinset.card ≤ 8 ∧
    ∀ (now : Nat) (s0 s1 s2 : SimState_t),
      (s0 = w.engine.demos d ∨ s0 = clock_step now (w.engine.demos d)) →
      Raises (fun sev msg => (sev, msg) ∈ profile_alarms d.val) s0 s1 →
      s2.dynamicAlarms = s1.dynamicAlarms → s2.dynamicAlarmCount = s1.dynamicAlarmCount →
      ∀ (now' : Nat) (severity message : String),
        (severity, message) ∈ profile_alarms d.val →
        alarm_already_active s2 message = false →
        (∃ i : Fin MAX_DYNAMIC_ALARMS, (s2.dynamicAlarms i).active = false) ∧
        (s2.dynamicAlarms ⟨alarm_slot s2, alarm_slot_lt s2⟩).active = false ∧
        ∀ j : Fin MAX_DYNAMIC_ALARMS, (s2.dynamicAlarms j).active = true →
          (add_alarm now' s2 severity message).dynamicAlarms j = s2.dynamicAlarms j := by
  constructor
  · have h1 := List.toFinset_card_le ((profile_alarms d.val).map Prod.snd)
    have h2 := (profile_alarms_facts d.val).1
    rw [List.length_map] at h1
    omega
  · intro now s0 s1 s2 hs0 hr ha hc now' severity message hin hact
    have hp0 : PoolInv s0 ∧ MsgInv d.val s0 := by
      rcases hs0 with h0 | h0
      · rw [h0]
        exact ⟨((reachable_inv h).2 d).1, reachable_msg_inv h d⟩
      · rw [h0]
        exact ⟨clock_step_pool_inv now _ ((reachable_inv h).2 d).1,
          clock_step_msg_inv now _ d.val (reachable_msg_inv h d)⟩
    have hp1 : PoolInv s1 :=
      raises_pool_inv (fun sev msg hx => ((profile_alarms_facts d.val).2.1 _ hx).2) hr hp0.1
    have hm1 : MsgInv d.val s1 := raises_msg_inv d.val (fun _ _ hx => hx) hr hp0.2
    have hp2 : PoolInv s2 := pool_inv_of_eq ha hc hp1
    have hm2 : MsgInv d.val s2 := by
      unfold MsgInv
      rw [ha]
      exact hm1
    have hfree := free_slot_of_new_message d.val s2 severity message hp2 hm2 hin hact
    obtain ⟨k, hk, hkfree, -⟩ := alarm_slot_free s2 hfree
    have hke : (⟨alarm_slot s2, alarm_slot_lt s2⟩ : Fin MAX_DYNAMIC_ALARMS) = k := Fin.ext hk
    refine ⟨hfree, by rw [hke]; exact hkfree, ?_⟩
    intro j hj
    exact add_alarm_keeps now' s2 severity message d.val hp2 hm2 hin j hj

/-- Instance of C25: the start of an OTA run on the engine after 85 ticks (CNC
profile in Fault with five active alarms): the call of `add_alarm` finds a free
slot. -/
theorem eviction_unreachable_witness :
    Reachable world_fault ∧
    ("info", "Firmware update started - downloading v1.1.0") ∈ profile_alarms 0 ∧
    alarm_already_active (world_fault.engine.demos 0)
      "Firmware update started - downloading v1.1.0" = false ∧
    ∃ i : Fin MAX_DYNAMIC_ALARMS, ((world_fault.engine.demos 0).dynamicAlarms i).active = false :=
  ⟨reachable_world_fault, by decide, by decide!,
    ((eviction_unreachable world_fault reachable_world_fault 0).2 0
      (world_fault.engine.demos 0) (world_fault.engine.demos 0) (world_fault.engine.demos 0)
      (Or.inl rfl) (Raises.refl _) rfl rfl 0 "info"
      "Firmware update started - downloading v1.1.0" (by decide) (by decide!)).1⟩

/-! ## Persistence of alarms -/

theorem slot_kept_of_eq {w1 w2 : World} {d : Fin DEMO_COUNT} {j : Fin MAX_DYNAMIC_ALARMS}
    (heq : (w2.engine.demos d).dynamicAlarms j = (w1.engine.demos d).dynamicAlarms j)
    (hact : ((w1.engine.demos d).dynamicAlarms j).active = true) : SlotKept w1 w2 d j := by
  unfold SlotKept
  rw [heq]
  exact ⟨hact, rfl, rfl, rfl, rfl⟩

/-- In a reachable state, a tick leaves alone every active slot, of any profile,
that is acknowledged or not of severity "error". -/
theorem sim_update_keeps (now : Nat) (r : Draws) (w : World) (h : Reachable w)
    (d : Fin DEMO_COUNT) (j : Fin MAX_DYNAMIC_ALARMS)
    (hj : ((w.engine.demos d).dynamicAlarms j).active = true)
    (hkeep : ((w.engine.demos d).dynamicAlarms j).acked = true ∨
      ((w.engine.demos d).dynamicAlarms j).severity ≠ "error") :
    ((sim_update now r w).engine.demos d).dynamicAlarms j = (w.engine.demos d).dynamicAlarms j := by
  have hinv := reachable_inv h
  rw [sim_update_demos now r w hinv.1 d]
  split_ifs with hd
  · rw [← hd]
    exact update_profile_keeps d.val now r (getDemo w) (w.engine.demos d) (hinv.2 d).1
      (reachable_msg_inv h d) j hj hkeep
  · rfl

/-- Acknowledging changes only the `acked` flag of a slot. -/
theorem sim_ack_alarm_slot (index : Nat) (w : World) (d : Fin DEMO_COUNT)
    (j : Fin MAX_DYNAMIC_ALARMS) :
    (((sim_ack_alarm index w).engine.demos d).dynamicAlarms j).active
      = ((w.engine.demos d).dynamicAlarms j).active ∧
    (((sim_ack_alarm index w).engine.demos d).dynamicAlarms j).severity
      = ((w.engine.demos d).dynamicAlarms j).severity ∧
    (((sim_ack_alarm index w).engine.demos d).dynamicAlarms j).message
      = ((w.engine.demos d).dynamicAlarms j).message ∧
    (((sim_ack_alarm index w).engine.demos d).dynamicAlarms j).time
      = ((w.engine.demos d).dynamicAlarms j).time ∧
    (((sim_ack_alarm index w).engine.demos d).dynamicAlarms j).triggerTime
      = ((w.engine.demos d).dynamicAlarms j).triggerTime ∧
    ((((w.engine.demos d).dynamicAlarms j).acked = true →
      (((sim_ack_alarm index w).engine.demos d).dynamicAlarms j).acked = true)) := by
  unfold sim_ack_alarm
  split
  · exact ⟨rfl, rfl, rfl, rfl, rfl, fun h => h⟩
  · next slot _ =>
    by_cases hdc : d = w.currentDemoIndex
    · rw [hdc]
      simp only [Function.update_same, store_apply]
      by_cases hjs : j.val = slot
      · rw [if_pos hjs, ← hjs, load_fin]
        exact ⟨rfl, rfl, rfl, rfl, rfl, fun _ => rfl⟩
      · rw [if_neg hjs]
        exact ⟨rfl, rfl, rfl, rfl, rfl, fun h => h⟩
    · simp only [Function.update_noteq hdc]
      refine ⟨?_, ?_, ?_, ?_, ?_, ?_⟩ <;> first | trivial | exact fun h => h

/-- In a reachable state, `sim_start_ota` leaves every active slot as it is. -/
theorem sim_start_ota_keeps (now : Nat) (w : World) (h : Reachable w) (d : Fin DEMO_COUNT)
    (j : Fin MAX_DYNAMIC_ALARMS) (hj : ((w.engine.demos d).dynamicAlarms j).active = true) :
    ((sim_start_ota now w).engine.demos d).dynamicAlarms j
      = (w.engine.demos d).dynamicAlarms j := by
  have hinv := reachable_inv h
  unfold sim_start_ota
  rw [if_neg (by simp [hinv.1])]
  by_cases hdc : d = w.currentDemoIndex
  · rw [hdc] at hj ⊢
    simp only [Function.update_same]
    exact add_alarm_keeps now
      { w.engine.demos w.currentDemoIndex with otaInProgress := true, otaProgress := 0 }
      "info" _ w.currentDemoIndex.val (pool_inv_of_eq rfl rfl (hinv.2 _).1)
      (reachable_msg_inv h w.currentDemoIndex)
      (by unfold profile_alarms ota_alarms; simp) j hj
  · simp only [Function.update_noteq hdc]

/-- A run of ticks from a reachable state leaves alone every active slot that is
acknowledged or not of severity "error". -/
theorem run_seq_keeps (w : World) (h : Reachable w) (ticks : Nat → Nat × Draws)
    (d : Fin DEMO_COUNT) (j : Fin MAX_DYNAMIC_ALARMS)
    (hj : ((w.engine.demos d).dynamicAlarms j).active = true)
    (hkeep : ((w.engine.demos d).dynamicAlarms j).acked = true ∨
      ((w.engine.demos d).dynamicAlarms j).severity ≠ "error") (k : Nat) :
    ((run_seq w ticks k).engine.demos d).dynamicAlarms j = (w.engine.demos d).dynamicAlarms j := by
  induction k with
  | zero => rfl
  | succ k ih =>
    have hstep := sim_update_keeps (ticks k).1 (ticks k).2 (run_seq w ticks k)
      (reachable_run_seq h ticks k) d j (by rw [ih]; exact hj) (by rw [ih]; exact hkeep)
    exact hstep.trans ih

/-- C29: in a reachable state, let `sim_ack_alarm(index)` acknowledge slot `j` of
the active profile, an alarm of severity "error". After every later sequence of
`sim_update` calls on that profile the slot is the record it was, with
`acked = true`: still active, with its original severity, message, time and
trigger time; and exactly one active alarm carries its message. More generally
an active alarm of severity "warning" or "info", of any profile, is still
active, with the same severity, message, time and trigger time, after each of
`sim_update`, `sim_ack_alarm`, `sim_start_ota`, `setDemo` and `nextDemo`. -/
theorem acked_error_alarm_persists (w : World) (h : Reachable w) :
    (∀ (index : Nat) (j : Fin MAX_DYNAMIC_ALARMS),
      sim_get_alarm w index = some j.val →
      ((w.engine.demos w.currentDemoIndex).dynamicAlarms j).severity = "error" →
      ∀ (ticks : Nat → Nat × Draws) (k : Nat),
        ((run_seq (sim_ack_alarm index w) ticks k).engine.demos w.currentDemoIndex).dynamicAlarms j
          = { (w.engine.demos w.currentDemoIndex).dynamicAlarms j with acked := true } ∧
        (((run_seq (sim_ack_alarm index w) ticks k).engine.demos
          w.currentDemoIndex).dynamicAlarms j).active = true ∧
        count_message
          ((run_seq (sim_ack_alarm index w) ticks k).engine.demos w.currentDemoIndex)
          ((w.engine.demos w.currentDemoIndex).dynamicAlarms j).message = 1) ∧
    (∀ (d : Fin DEMO_COUNT) (j : Fin MAX_DYNAMIC_ALARMS),
      ((w.engine.demos d).dynamicAlarms j).active = true →
      (((w.engine.demos d).dynamicAlarms j).severity = "warning" ∨
        ((w.engine.demos d).dynamicAlarms j).severity = "info") →
      (∀ (now : Nat) (r : Draws), SlotKept w (sim_update now r w) d j) ∧
      (∀ index : Nat, SlotKept w (sim_ack_alarm index w) d j) ∧
      (∀ now : Nat, SlotKept w (sim_start_ota now w) d j) ∧
      (∀ index : Nat, SlotKept w (setDemo index w) d j) ∧
      SlotKept w (nextDemo w) d j) := by
  constructor
  · intro index j hget _ ticks k
    have hact : ((w.engine.demos w.currentDemoIndex).dynamicAlarms j).active = true := by
      have := ((sim_get_alarm_eq_some w index j.val).1 hget).2.2.1
      rw [load_fin] at this
      exact this
    have hack : sim_ack_alarm index w = ack_slot w j := sim_ack_alarm_of_some w index j hget
    have hslot : ((sim_ack_alarm index w).engine.demos w.currentDemoIndex).dynamicAlarms j
        = { (w.engine.demos w.currentDemoIndex).dynamicAlarms j with acked := true } := by
      rw [hack, ack_slot_demo]
      simp only [Function.update_same]
    have hreach : Reachable (sim_ack_alarm index w) := Reachable.ack index h
    have hrun := run_seq_keeps (sim_ack_alarm index w) hreach ticks w.currentDemoIndex j
      (by rw [hslot]; exact hact) (Or.inl (by rw [hslot])) k
    rw [hslot] at hrun
    refine ⟨hrun, by rw [hrun]; exact hact, ?_⟩
    apply count_message_eq_one _ _
      ((reachable_inv (reachable_run_seq hreach ticks k)).2 w.currentDemoIndex).1
    exact ⟨j, by rw [hrun]; exact hact, by rw [hrun]⟩
  · intro d j hact hsev
    have hne : ((w.engine.demos d).dynamicAlarms j).severity ≠ "error" := by
      rcases hsev with hs | hs <;> rw [hs] <;> decide
    refine ⟨fun now r => slot_kept_of_eq (sim_update_keeps now r w h d j hact (Or.inr hne)) hact,
      ?_, fun now => slot_kept_of_eq (sim_start_ota_keeps now w h d j hact) hact, ?_, ?_⟩
    · intro index
      have hs := sim_ack_alarm_slot index w d j
      exact ⟨hs.1.trans hact, hs.2.1, hs.2.2.1, hs.2.2.2.1, hs.2.2.2.2.1⟩
    · intro index
      unfold SlotKept
      rw [setDemo_engine]
      exact ⟨hact, rfl, rfl, rfl, rfl⟩
    · exact ⟨hact, rfl, rfl, rfl, rfl⟩

/-- Instance of C29: the fault alarm of the CNC profile (slot 4), acknowledged
after 85 ticks, is still active and acknowledged after any number of ticks. -/
theorem acked_error_alarm_persists_witness :
    Reachable world_fault ∧ sim_get_alarm world_fault 4 = some 4 ∧
    ((world_fault.engine.demos world_fault.currentDemoIndex).dynamicAlarms 4).severity
      = "error" ∧
    ∀ (ticks : Nat → Nat × Draws) (k : Nat),
      (((run_seq (sim_ack_alarm 4 world_fault) ticks k).engine.demos
        world_fault.currentDemoIndex).dynamicAlarms 4).active = true ∧
      count_message
        ((run_seq (sim_ack_alarm 4 world_fault) ticks k).engine.demos
          world_fault.currentDemoIndex)
        ((world_fault.engine.demos world_fault.currentDemoIndex).dynamicAlarms 4).message = 1 :=
  ⟨reachable_world_fault, by decide!, by decide!,
    fun ticks k =>
      ((acked_error_alarm_persists world_fault reachable_world_fault).1 4 4 (by decide!)
        (by decide!) ticks k).2⟩

/-! ## Alarms of the Fault and Recovery states -/

/-- The Fault branch of each physics model ends with its `add_alarm` call, after
the assignments of the targets. -/
theorem run_physics_fault (d : Fin DEMO_COUNT) (now : Nat) (r : Draws) (demo : DemoProfile_t)
    (sim : SimState_t) (hs : sim.scenarioState = SCENARIO_FAULT) :
    ∃ (t0 t1 t2 : ℚ) (health : Int) (failure : ℚ),
      (run_physics d.val now r demo sim).2
        = add_alarm now (set_targets sim t0 t1 t2 health failure) "error" (fault_message d) := by
  fin_cases d
  · simp only [run_physics, update_cnc, hs]
    exact ⟨_, _, _, _, _, rfl⟩
  · simp only [run_physics, update_chiller, hs]
    exact ⟨_, _, _, _, _, rfl⟩
  · simp only [run_physics, update_compressor, hs]
    exact ⟨_, _, _, _, _, rfl⟩
  · simp only [run_physics, update_plc, hs]
    exact ⟨_, _, _, _, _, rfl⟩

/-- The Recovery branch of each physics model makes one `add_alarm` call, after the
assignments of the targets. -/
theorem run_physics_recovery (d : Fin DEMO_COUNT) (now : Nat) (r : Draws)
    (demo : DemoProfile_t) (sim : SimState_t) (hs : sim.scenarioState = SCENARIO_RECOVERY) :
    ∃ (t0 t1 t2 : ℚ) (health : Int) (failure : ℚ),
      (run_physics d.val now r demo sim).2
        = add_alarm now (set_targets sim t0 t1 t2 health failure) "info"
            (recovery_message d) := by
  fin_cases d
  · simp only [run_physics, update_cnc, hs]
    exact ⟨_, _, _, _, _, rfl⟩
  · simp only [run_physics, update_chiller, hs]
    exact ⟨_, _, _, _, _, rfl⟩
  · simp only [run_physics, update_compressor, hs]
    exact ⟨_, _, _, _, _, rfl⟩
  · simp only [run_physics, update_plc, hs]
    exact ⟨_, _, _, _, _, rfl⟩

theorem state_messages_facts (d : Fin DEMO_COUNT) :
    (fault_message d).length ≤ 79 ∧ (recovery_message d).length ≤ 79 ∧
    (∀ p ∈ profile_alarms d.val, p.2 = fault_message d → p.1 = "error") ∧
    (∀ p ∈ profile_alarms d.val, p.2 = recovery_message d → p.1 = "info") := by
  revert d
  decide

theorem add_alarm_no_open (now : Nat) (s : SimState_t) (message : String)
    (h : NoOpenError s) : NoOpenError (add_alarm now s "info" message) := by
  cases hact : alarm_already_active s message with
  | true =>
    rw [add_alarm_of_active now s "info" message hact]
    exact h
  | false =>
    intro i hi
    by_cases hik : i.val = alarm_slot s
    · have hie : i = ⟨alarm_slot s, alarm_slot_lt s⟩ := Fin.ext hik
      rw [hie, (add_alarm_written now s "info" message hact).1]
      rintro ⟨-, hsev⟩
      have hinfo : strncpy "info" (SEVERITY_SIZE - 1) = "info" := by decide
      change strncpy "info" (SEVERITY_SIZE - 1) = "error" at hsev
      rw [hinfo] at hsev
      exact absurd hsev (by decide)
    · rw [(add_alarm_written now s "info" message hact).2 i hik] at hi ⊢
      exact h i hi

theorem no_open_of_eq {s s' : SimState_t} (ha : s'.dynamicAlarms = s.dynamicAlarms)
    (h : NoOpenError s) : NoOpenError s' := by
  unfold NoOpenError
  rw [ha]
  exact h

/-- A transition that ends in Recovery leaves no active unacknowledged "error"
alarm: `clear_fault_alarms` clears them. -/
theorem transition_state_no_open (now : Nat) (s : SimState_t) (hp : PoolInv s) :
    (transition_state now s).scenarioState = SCENARIO_RECOVERY →
      NoOpenError (transition_state now s) := by
  have hclear : ∀ t : SimState_t, t.dynamicAlarms = s.dynamicAlarms →
      t.dynamicAlarmCount = s.dynamicAlarmCount → NoOpenError (clear_fault_alarms t) := by
    intro t ht hc i hi
    rw [clear_fault_alarms_apply, ht, hc] at hi ⊢
    by_cases hcond : i.val < s.dynamicAlarmCount ∧
        ((s.dynamicAlarms i).active && !(s.dynamicAlarms i).acked
          && (s.dynamicAlarms i).severity == "error") = true
    · rw [if_pos hcond] at hi
      exact absurd hi (by simp)
    · rw [if_neg hcond] at hi ⊢
      rintro ⟨h1, h2⟩
      exact hcond ⟨hp.1 i hi, by simp [hi, h1, h2]⟩
  unfold transition_state
  simp only []
  split_ifs with hN hR hR
  · intro _
    exact hclear _ rfl rfl
  · intro hs
    exact absurd hs hR
  · intro _
    exact hclear _ rfl rfl
  · intro hs
    exact absurd hs hR

/-- A clock step that ends in Recovery leaves no active unacknowledged "error"
alarm. -/
theorem clock_step_no_open (now : Nat) (s : SimState_t) (hp : PoolInv s) (hrec : RecInv s)
    (hs : (clock_step now s).scenarioState = SCENARIO_RECOVERY) :
    NoOpenError (clock_step now s) := by
  unfold clock_step at hs ⊢
  simp only [] at hs ⊢
  by_cases hc : (s.stateTimer + 1) % ULONG_MOD ≥ get_state_duration s.scenarioState
  · rw [if_pos hc] at hs ⊢
    exact transition_state_no_open now _ (pool_inv_of_eq rfl rfl hp) hs
  · rw [if_neg hc] at hs ⊢
    exact no_open_of_eq rfl (hrec hs)

theorem ota_step_no_open (now : Nat) (r : Draws) (s : SimState_t) (h : NoOpenError s) :
    NoOpenError (ota_step now r s) := by
  unfold ota_step
  simp only []
  split_ifs
  · exact add_alarm_no_open now _ _ (no_open_of_eq rfl h)
  · exact no_open_of_eq rfl h
  · exact h

/-- A tick of a profile keeps the Recovery invariant. -/
theorem update_profile_rec_inv (d : Fin DEMO_COUNT) (now : Nat) (r : Draws)
    (demo : DemoProfile_t) (sim : SimState_t) (hp : PoolInv sim) (hrec : RecInv sim) :
    RecInv (update_profile d.val now r demo sim).2 := by
  intro hs
  rw [update_profile_state] at hs
  have hq := clock_step_no_open now sim hp hrec hs
  obtain ⟨t0, t1, t2, health, failure, hphys⟩ :=
    run_physics_recovery d now r demo (clock_step now sim) hs
  have hq2 : NoOpenError (run_physics d.val now r demo (clock_step now sim)).2 := by
    rw [hphys]
    exact add_alarm_no_open now _ _ (no_open_of_eq rfl hq)
  rw [update_profile_sim]
  exact ota_step_no_open now r _ (no_open_of_eq rfl hq2)

theorem sim_ack_alarm_state (index : Nat) (w : World) (d : Fin DEMO_COUNT) :
    ((sim_ack_alarm index w).engine.demos d).scenarioState
      = (w.engine.demos d).scenarioState := by
  unfold sim_ack_alarm
  split
  · rfl
  · by_cases hdc : d = w.currentDemoIndex
    · rw [hdc]
      simp only [Function.update_same]
    · simp only [Function.update_noteq hdc]

/-- In every reachable state, a profile in Recovery holds no active unacknowledged
"error" alarm. -/
theorem reachable_rec_inv {w : World} (h : Reachable w) (d : Fin DEMO_COUNT) :
    RecInv (w.engine.demos d) := by
  induction h with
  | init now =>
    intro hs
    cases hs
  | @update now r w hw ih =>
    have hinv := reachable_inv hw
    rw [sim_update_demos now r w hinv.1 d]
    split_ifs with hd
    · rw [← hd]
      exact update_profile_rec_inv d now r (getDemo w) _ (hinv.2 d).1 ih
    · exact ih
  | @ack index w _ ih =>
    intro hs i hi
    rw [sim_ack_alarm_state] at hs
    have hslot := sim_ack_alarm_slot index w d i
    rw [hslot.1] at hi
    rw [hslot.2.1]
    rintro ⟨h1, h2⟩
    have hold := ih hs i hi
    apply hold
    refine ⟨?_, h2⟩
    by_contra hne
    have htrue : ((w.engine.demos d).dynamicAlarms i).acked = true := by simpa using hne
    rw [hslot.2.2.2.2.2 htrue] at h1
    cases h1
  | @ota now w hw ih =>
    have hinv := reachable_inv hw
    unfold sim_start_ota
    rw [if_neg (by simp [hinv.1])]
    by_cases hdc : d = w.currentDemoIndex
    · rw [hdc] at ih ⊢
      simp only [Function.update_same]
      intro hs
      have hc := add_alarm_clock now
        { w.engine.demos w.currentDemoIndex with otaInProgress := true, otaProgress := 0 }
        "info" "Firmware update started - downloading v1.1.0"
      have hs' : (w.engine.demos w.currentDemoIndex).scenarioState = SCENARIO_RECOVERY := by
        rw [← hs]
        exact (congrArg Prod.fst hc).symm
      exact add_alarm_no_open now _ _ (no_open_of_eq rfl (ih hs'))
    · simp only [Function.update_noteq hdc]
      exact ih
  | set index _ ih =>
    rw [setDemo_engine]
    exact ih
  | next _ ih => exact ih

/-- C30: in every reachable state and for each of the four profiles, after every
`sim_update` that ends with the active profile in Fault there is an active alarm
of severity "error" carrying the fault message of the profile; after every
`sim_update` that ends with it in Recovery there is an active alarm of severity
"info" carrying the recovery message of the profile, and no active alarm is an
unacknowledged alarm of severity "error". -/
theorem fault_visible_as_alarm (w : World) (h : Reachable w) (now : Nat) (r : Draws) :
    (((sim_update now r w).engine.demos w.currentDemoIndex).scenarioState = SCENARIO_FAULT →
      ∃ i : Fin MAX_DYNAMIC_ALARMS,
        (((sim_update now r w).engine.demos w.currentDemoIndex).dynamicAlarms i).active = true ∧
        (((sim_update now r w).engine.demos w.currentDemoIndex).dynamicAlarms i).severity
          = "error" ∧
        (((sim_update now r w).engine.demos w.currentDemoIndex).dynamicAlarms i).message
          = fault_message w.currentDemoIndex) ∧
    (((sim_update now r w).engine.demos w.currentDemoIndex).scenarioState = SCENARIO_RECOVERY →
      (∃ i : Fin MAX_DYNAMIC_ALARMS,
        (((sim_update now r w).engine.demos w.currentDemoIndex).dynamicAlarms i).active = true ∧
        (((sim_update now r w).engine.demos w.currentDemoIndex).dynamicAlarms i).severity
          = "info" ∧
        (((sim_update now r w).engine.demos w.currentDemoIndex).dynamicAlarms i).message
          = recovery_message w.currentDemoIndex) ∧
      ∀ i : Fin MAX_DYNAMIC_ALARMS,
        (((sim_update now r w).engine.demos w.currentDemoIndex).dynamicAlarms i).active = true →
        ¬ ((((sim_update now r w).engine.demos w.currentDemoIndex).dynamicAlarms i).acked
            = false ∧
          (((sim_update now r w).engine.demos w.currentDemoIndex).dynamicAlarms i).severity
            = "error")) := by
  have hinv := reachable_inv h
  have hreach : Reachable (sim_update now r w) := Reachable.update now r h
  have hmsg := reachable_msg_inv hreach w.currentDemoIndex
  have hfacts := state_messages_facts w.currentDemoIndex
  have hd := sim_update_demos now r w hinv.1 w.currentDemoIndex
  rw [if_pos rfl] at hd
  have hpm := physics_inv w.currentDemoIndex.val now r (getDemo w)
    (w.engine.demos w.currentDemoIndex) (hinv.2 _).1 (reachable_msg_inv h _)
  -- an alarm the physics model leaves active is still there after the OTA block
  have hkeep : ∀ m : String,
      alarm_already_active (run_physics w.currentDemoIndex.val now r (getDemo w)
        (clock_step now (w.engine.demos w.currentDemoIndex))).2 m = true →
      ∃ i : Fin MAX_DYNAMIC_ALARMS,
        (((sim_update now r w).engine.demos w.currentDemoIndex).dynamicAlarms i).active = true ∧
        (((sim_update now r w).engine.demos w.currentDemoIndex).dynamicAlarms i).message = m := by
    intro m hm
    rw [alarm_already_active_iff] at hm
    obtain ⟨i, -, hi1, hi2⟩ := hm
    have ho := ota_step_keeps now r (smooth_sensor (smooth_sensor (smooth_sensor
        (run_physics w.currentDemoIndex.val now r (getDemo w)
          (clock_step now (w.engine.demos w.currentDemoIndex))) 0) 1) 2).2
      w.currentDemoIndex.val hpm.1 hpm.2 i hi1
    refine ⟨i, ?_, ?_⟩
    · rw [hd, update_profile_sim, ho]
      exact hi1
    · rw [hd, update_profile_sim, ho]
      exact hi2
  constructor
  · intro hs
    have hs' : (clock_step now (w.engine.demos w.currentDemoIndex)).scenarioState
        = SCENARIO_FAULT := by
      rw [← update_profile_state w.currentDemoIndex.val now r (getDemo w), ← hd]
      exact hs
    obtain ⟨t0, t1, t2, health, failure, hphys⟩ :=
      run_physics_fault w.currentDemoIndex now r (getDemo w) _ hs'
    obtain ⟨i, hi1, hi2⟩ := hkeep (fault_message w.currentDemoIndex) (by
      rw [hphys]
      exact active_after_add_alarm now _ "error" _ hfacts.1)
    exact ⟨i, hi1, hfacts.2.2.1 _ (hmsg i hi1) hi2, hi2⟩
  · intro hs
    have hs' : (clock_step now (w.engine.demos w.currentDemoIndex)).scenarioState
        = SCENARIO_RECOVERY := by
      rw [← update_profile_state w.currentDemoIndex.val now r (getDemo w), ← hd]
      exact hs
    obtain ⟨t0, t1, t2, health, failure, hphys⟩ :=
      run_physics_recovery w.currentDemoIndex now r (getDemo w) _ hs'
    obtain ⟨i, hi1, hi2⟩ := hkeep (recovery_message w.currentDemoIndex) (by
      rw [hphys]
      exact active_after_add_alarm now _ "info" _ hfacts.2.1)
    exact ⟨⟨i, hi1, hfacts.2.2.2 _ (hmsg i hi1) hi2, hi2⟩,
      reachable_rec_inv hreach w.currentDemoIndex hs⟩

/-- Instance of C30: the 86th tick after `sim_init` ends with the CNC profile in
Fault and an active "error" alarm carrying its fault message. -/
theorem fault_visible_as_alarm_witness :
    Reachable world_fault ∧
    ((sim_update 1000 default world_fault).engine.demos
      world_fault.currentDemoIndex).scenarioState = SCENARIO_FAULT ∧
    ∃ i : Fin MAX_DYNAMIC_ALARMS,
      (((sim_update 1000 default world_fault).engine.demos
        world_fault.currentDemoIndex).dynamicAlarms i).active = true ∧
      (((sim_update 1000 default world_fault).engine.demos
        world_fault.currentDemoIndex).dynamicAlarms i).severity = "error" ∧
      (((sim_update 1000 default world_fault).engine.demos
        world_fault.currentDemoIndex).dynamicAlarms i).message
        = fault_message world_fault.currentDemoIndex := by
  have hst : ((sim_update 1000 default world_fault).engine.demos
      world_fault.currentDemoIndex).scenarioState = SCENARIO_FAULT := by decide!
  exact ⟨reachable_world_fault, hst,
    (fault_visible_as_alarm world_fault reachable_world_fault 1000 default).1 hst⟩

end SignalTap
